import Mathlib

/-!
VBScript global runtime: `dlls/vbscript/global.c`

A shallow embedding of the builtin handlers of the string-slice library
(`Global_Left`, `Global_Right`, `Global_Mid`, `Global_LTrim`, `Global_RTrim`,
`Global_Trim`, `Global_InStr`), of the coercion and output helpers they call
(`to_int`, `to_string`, `return_bstr`, `return_int`, ...), of the builtin table
`global_props` with its unimplemented handlers, and of the object-creation gate
`create_object`.

Modelling conventions.

* A handler `HRESULT f(vbdisp_t *This, VARIANT *args, unsigned args_cnt, VARIANT *res)`
  becomes `f env args res : Outcome`, where `args` is the argument array
  (`args_cnt = args.length`), `res : Option VARIANT` is the output slot
  (`none` for a NULL pointer, `some v` for a slot currently holding `v`) and the
  outcome carries the returned `HRESULT` with the slot as the handler left it.
* C `int` is `Int`; an `int` operation whose mathematical result leaves
  `[INT_MIN, INT_MAX]` is undefined in C and yields `Outcome.undefined`, as does
  a read outside a string buffer.  A BSTR stores its byte length in a 32-bit
  prefix, so `SysStringLen` is below `2^31` and its conversion to `int` is exact.
* A WCHAR is a natural number (16-bit code unit); a BSTR pointer is
  `Option (List WCHAR)` with `none` for NULL; the buffer behind a non-NULL BSTR
  is its code units followed by one NUL.
* What lies outside the translation unit (the string allocator, OLE
  `VariantChangeType`, the `isspaceW` character table) is a field of `Env`.
* `SysFreeString` calls do not change any value computed here and are left out
  of the handlers; where a claim is about them they are listed by a function of
  their own (`return_bstr_freed`).
* Calls to the host and to COM are answered by the fields of `Host`; a function
  that makes such calls returns the trace of its calls, in order.
-/

namespace VBScript

/-! ## Data model -/

/-- A UTF-16 code unit. -/
abbrev WCHAR := Nat

/-- A BSTR pointer: `none` is NULL, `some s` points at the code units `s`
(followed in memory by a terminating NUL). -/
abbrev BSTR := Option (List WCHAR)

/-- An `HRESULT`, as its 32-bit pattern. -/
abbrev HRESULT := Nat

/-- Success; the failure codes below carry their Windows SDK values. -/
def S_OK : HRESULT := 0
def E_NOTIMPL : HRESULT := 0x80004001
def E_FAIL : HRESULT := 0x80004005
def E_OUTOFMEMORY : HRESULT := 0x8007000E

/-- The `FAILED(hr)` test: the sign bit of the 32-bit pattern is set. -/
def FAILED (hr : HRESULT) : Bool := decide (0x80000000 ≤ hr)

def INT_MIN : Int := -2147483648
def INT_MAX : Int := 2147483647

/-- A C `double`: a finite value (kept as the rational it denotes), an
infinity, or a NaN. -/
inductive DOUBLE
  | finite (q : ℚ)
  | inf (negative : Bool)
  | nan
  deriving DecidableEq

/-- Modelled from the spec: the VARIANT tagged union (declared in the OLE
headers, not in this translation unit), with the representations listed in the
data model: Empty, Null, Bool, Int16, Int32, Float32, Float64, Date, Str,
Object, Error. -/
inductive VARIANT
  | VT_EMPTY
  | VT_NULL
  | VT_BOOL (b : Int)
  | VT_I2 (n : Int)
  | VT_I4 (n : Int)
  | VT_R4 (d : DOUBLE)
  | VT_R8 (d : DOUBLE)
  | VT_DATE (d : DOUBLE)
  | VT_BSTR (s : BSTR)
  | VT_DISPATCH (obj : Nat)
  | VT_ERROR (scode : Nat)
  deriving DecidableEq

open VARIANT

/-- What a handler call does: it returns `hres` leaving the output slot as
`res`, or it aborts on a failed `assert`, or it runs into behaviour the C
language leaves undefined (a read outside a buffer, `int` overflow). -/
inductive Outcome
  | ret (hres : HRESULT) (res : Option VARIANT)
  | assert_failed
  | undefined
  deriving DecidableEq

/-- The collaborators outside the translation unit. -/
structure Env where
  /-- Whether the string allocator can provide a buffer of that many code units. -/
  alloc_ok : Nat → Bool
  /-- The OLE call `VariantChangeType(&dst, v, VARIANT_LOCALBOOL, VT_BSTR)`:
  its `HRESULT` and the string left in `dst`. -/
  VariantChangeType_BSTR : VARIANT → HRESULT × BSTR
  /-- The `isspaceW` classification of a code unit. -/
  isspaceW : WCHAR → Bool

/-! ## Strings in memory -/

/-- Modelled from the spec: `SysStringLen` (OLE Automation string API, not in
this translation unit) is the length of the string in code units, `0` for a
NULL BSTR. -/
def SysStringLen (str : BSTR) : Nat :=
  match str with
  | none => 0
  | some s => s.length

/-- The `len` code units read from address `str + off`, or `none` when the read
leaves the buffer of `str` (its code units and the terminating NUL).  A read of
zero units touches no memory. -/
def read_units (str : BSTR) (off len : Int) : Option (List WCHAR) :=
  if len = 0 then some []
  else
    match str with
    | none => none
    | some s =>
      if 0 ≤ off ∧ 0 ≤ len ∧ off + len ≤ (s.length : Int) + 1 then
        some (((s ++ [0]).drop off.toNat).take len.toNat)
      else none

/-- The result of a string allocation. -/
inductive Alloc
  | str (s : List WCHAR)
  | null
  | fault
  deriving DecidableEq

/-- Modelled from the spec: `SysAllocStringLen` (OLE Automation string API,
not in this translation unit) hands out an independently owned string.  The
call `SysAllocStringLen(str + off, len)` gives NULL when no buffer can be had
(a negative `len` converts to a `UINT` beyond any buffer), else a fresh string
holding the `len` code units copied from `str + off`. -/
def SysAllocStringLen (env : Env) (str : BSTR) (off len : Int) : Alloc :=
  if len < 0 then Alloc.null
  else if env.alloc_ok len.toNat = false then Alloc.null
  else
    match read_units str off len with
    | none => Alloc.fault
    | some u => Alloc.str u

/-! ## Output helpers -/

def return_bstr (res : Option VARIANT) (str : BSTR) : HRESULT × Option VARIANT :=
  match res with
  | some _ => (S_OK, some (VT_BSTR str))
  | none => (S_OK, none)

def return_short (res : Option VARIANT) (val : Int) : HRESULT × Option VARIANT :=
  match res with
  | some _ => (S_OK, some (VT_I2 val))
  | none => (S_OK, none)

/-- The conversion `(short)val` of an `int`: reduction to the signed 16-bit range. -/
def to_short (val : Int) : Int := (val + 32768) % 65536 - 32768

def return_int (res : Option VARIANT) (val : Int) : HRESULT × Option VARIANT :=
  if to_short val = val then return_short res val
  else
    match res with
    | some _ => (S_OK, some (VT_I4 val))
    | none => (S_OK, none)

def return_null (res : Option VARIANT) : HRESULT × Option VARIANT :=
  match res with
  | some _ => (S_OK, some VT_NULL)
  | none => (S_OK, none)

/-- A handler returning what an output helper returned. -/
def Outcome.of (r : HRESULT × Option VARIANT) : Outcome := Outcome.ret r.1 r.2

/-! ## Coercion engine -/

/-- C `round`: to the nearest integer, halfway cases away from zero. -/
def round_away (d : DOUBLE) : DOUBLE :=
  match d with
  | DOUBLE.finite q =>
    DOUBLE.finite (if 0 ≤ q then ((⌊q + 1 / 2⌋ : Int) : ℚ) else ((-⌊-q + 1 / 2⌋ : Int) : ℚ))
  | d => d

/-- Modelled from the spec: `is_int32` (a header inline, not in this
translation unit) holds when the value fits in a 32-bit signed integer. -/
def is_int32 (d : DOUBLE) : Bool :=
  match d with
  | DOUBLE.finite q => decide ((INT_MIN : ℚ) ≤ q ∧ q ≤ (INT_MAX : ℚ) ∧ ((⌊q⌋ : Int) : ℚ) = q)
  | _ => false

/-- The conversion `(int)d` of a `double` that `is_int32` accepted. -/
def double_to_int (d : DOUBLE) : Int :=
  match d with
  | DOUBLE.finite q => ⌊q⌋
  | _ => 0

def to_int (v : VARIANT) : Except HRESULT Int :=
  match v with
  | VT_I2 n => Except.ok n
  | VT_I4 n => Except.ok n
  | VT_R8 d =>
    let n := round_away d
    if is_int32 n = false then Except.error E_FAIL
    else Except.ok (double_to_int n)
  | VT_BOOL b => Except.ok (if b ≠ 0 then -1 else 0)
  | _ => Except.error E_NOTIMPL

def to_string (env : Env) (v : VARIANT) : Except HRESULT BSTR :=
  let r := env.VariantChangeType_BSTR v
  if FAILED r.1 then Except.error r.1
  else Except.ok r.2

/-! ## String-slice handlers -/

def Global_Left (env : Env) (args : List VARIANT) (res : Option VARIANT) : Outcome :=
  match args with
  | a0 :: a1 :: _ =>
    let conv : Except HRESULT BSTR :=
      match a0 with
      | VT_BSTR s => Except.ok s
      | _ => to_string env a0
    match conv with
    | Except.error hres => Outcome.ret hres res
    | Except.ok str =>
      match to_int a1 with
      | Except.error hres => Outcome.ret hres res
      | Except.ok len =>
        if len < 0 then Outcome.ret E_FAIL res
        else
          let str_len : Int := SysStringLen str
          let len := if len > str_len then str_len else len
          match SysAllocStringLen env str 0 len with
          | Alloc.fault => Outcome.undefined
          | Alloc.null => Outcome.ret E_OUTOFMEMORY res
          | Alloc.str ret => Outcome.of (return_bstr res (some ret))
  | _ => Outcome.undefined

/-- The payload `V_BSTR(v)` of the union: the string of a `VT_BSTR` variant;
for any other representation the bits read as a pointer are not a string
(`none`). -/
def V_BSTR (v : VARIANT) : Option BSTR :=
  match v with
  | VT_BSTR s => some s
  | _ => none

def Global_Right (env : Env) (args : List VARIANT) (res : Option VARIANT) : Outcome :=
  match args with
  | a0 :: a1 :: _ =>
    let conv : Except HRESULT (Option BSTR) :=
      match a1 with
      | VT_BSTR _ => Except.ok (V_BSTR a0)
      | _ =>
        match to_string env a0 with
        | Except.error hres => Except.error hres
        | Except.ok conv_str => Except.ok (some conv_str)
    match conv with
    | Except.error hres => Outcome.ret hres res
    | Except.ok p =>
      match to_int a1 with
      | Except.error hres => Outcome.ret hres res
      | Except.ok len =>
        if len < 0 then Outcome.ret E_FAIL res
        else
          match p with
          | none => Outcome.undefined
          | some str =>
            let str_len : Int := SysStringLen str
            let len := if len > str_len then str_len else len
            match SysAllocStringLen env str (str_len - len) len with
            | Alloc.fault => Outcome.undefined
            | Alloc.null => Outcome.ret E_OUTOFMEMORY res
            | Alloc.str ret => Outcome.of (return_bstr res (some ret))
  | _ => Outcome.undefined

/-- Lines 764-772 of `Global_Mid`: from the string length, the 1-based `start`
and `len` (`-1` when omitted), the offset and the length handed to
`SysAllocStringLen`; `none` when `start--` or `str_len-start` overflows. -/
def Global_Mid_bounds (str_len start len : Int) : Option (Int × Int) :=
  if start - 1 < INT_MIN then none
  else
    let start := start - 1
    let start := if start > str_len then str_len else start
    if str_len - start > INT_MAX then none
    else
      let len :=
        if len = -1 then str_len - start
        else if len > str_len - start then str_len - start
        else len
      some (start, len)

def Global_Mid (env : Env) (args : List VARIANT) (res : Option VARIANT) : Outcome :=
  if args.length = 2 ∨ args.length = 3 then
    match args with
    | a0 :: a1 :: rest =>
      match a0 with
      | VT_BSTR str =>
        match to_int a1 with
        | Except.error hres => Outcome.ret hres res
        | Except.ok start =>
          let len_r : Except HRESULT Int :=
            match rest with
            | a2 :: _ =>
              match to_int a2 with
              | Except.error hres => Except.error hres
              | Except.ok len => if len < 0 then Except.error E_FAIL else Except.ok len
            | [] => Except.ok (-1)
          match len_r with
          | Except.error hres => Outcome.ret hres res
          | Except.ok len =>
            match Global_Mid_bounds (SysStringLen str) start len with
            | none => Outcome.undefined
            | some (start, len) =>
              match res with
              | none => Outcome.ret S_OK none
              | some _ =>
                match SysAllocStringLen env str start len with
                | Alloc.fault => Outcome.undefined
                | Alloc.null => Outcome.ret E_OUTOFMEMORY (some (VT_BSTR none))
                | Alloc.str ret => Outcome.ret S_OK (some (VT_BSTR (some ret)))
      | _ => Outcome.ret E_NOTIMPL res
    | _ => Outcome.undefined
  else Outcome.assert_failed

/-- The loop of `Global_RTrim` started at `ptr = str + i`: the final `ptr - str`.
The loop goes on while `ptr-1 > str` and `*(ptr-1)` is a space. -/
def Global_RTrim_scan (env : Env) (s : List WCHAR) : Nat → Nat
  | 0 => 0
  | i + 1 =>
    if 0 < i ∧ env.isspaceW (s.getD i 0) = true then Global_RTrim_scan env s i
    else i + 1

def Global_RTrim (env : Env) (args : List VARIANT) (res : Option VARIANT) : Outcome :=
  match args with
  | arg :: _ =>
    let conv : Except HRESULT BSTR :=
      match arg with
      | VT_BSTR s => Except.ok s
      | _ => to_string env arg
    match conv with
    | Except.error hres => Outcome.ret hres res
    | Except.ok none => Outcome.undefined
    | Except.ok (some s) =>
      let ptr := Global_RTrim_scan env s (SysStringLen (some s))
      match SysAllocStringLen env (some s) 0 ptr with
      | Alloc.fault => Outcome.undefined
      | Alloc.null => Outcome.ret E_OUTOFMEMORY res
      | Alloc.str str => Outcome.of (return_bstr res (some str))
  | [] => Outcome.undefined

/-- The NUL-terminated string a `WCHAR *` denotes: the code units before the
first NUL. -/
def c_string (s : List WCHAR) : List WCHAR := s.takeWhile (fun c => c ≠ 0)

/-- Whether `sub` occurs at the very start of `str`. -/
def starts_with : List WCHAR → List WCHAR → Bool
  | _, [] => true
  | [], _ :: _ => false
  | a :: as, b :: bs => a == b && starts_with as bs

/-- Modelled from the spec: `strstrW` (the wide-character substring search of
the Wine unicode library, not in this translation unit) is a literal substring
search returning the first match: the least offset at which `sub` occurs in
`str`, or `none` (a NULL pointer) when it occurs nowhere. -/
def strstrW : List WCHAR → List WCHAR → Option Nat
  | [], sub => if starts_with [] sub then some 0 else none
  | a :: as, sub =>
    if starts_with (a :: as) sub then some 0
    else (strstrW as sub).map (fun k => k + 1)

/-- Lines 1019-1043 of `Global_InStr`, entered with the 0-based `start`. -/
def Global_InStr_search (str1v str2v : VARIANT) (start : Int) (res : Option VARIANT) : Outcome :=
  if str1v = VT_NULL ∨ str2v = VT_NULL then Outcome.of (return_null res)
  else
    match str1v with
    | VT_BSTR str1 =>
      match str2v with
      | VT_BSTR str2 =>
        if start < (SysStringLen str1 : Int) then
          match str1, str2 with
          | some s1, some s2 =>
            match strstrW (c_string (s1.drop start.toNat)) (c_string s2) with
            | some k => Outcome.of (return_int res (start + k + 1))
            | none => Outcome.of (return_int res 0)
          | _, _ => Outcome.undefined
        else Outcome.of (return_int res 0)
      | _ => Outcome.ret E_NOTIMPL res
    | _ => Outcome.ret E_NOTIMPL res

def Global_InStr (_env : Env) (args : List VARIANT) (res : Option VARIANT) : Outcome :=
  if 2 ≤ args.length ∧ args.length ≤ 4 then
    let sel : Option (Option VARIANT × VARIANT × VARIANT) :=
      match args with
      | [a0, a1] => some (none, a0, a1)
      | [a0, a1, a2] => some (some a0, a1, a2)
      | _ => none
    match sel with
    | none => Outcome.ret E_NOTIMPL res
    | some (startv, str1v, str2v) =>
      match startv with
      | some sv =>
        match to_int sv with
        | Except.error hres => Outcome.ret hres res
        | Except.ok start =>
          if start - 1 < INT_MIN then Outcome.undefined
          else if start - 1 < 0 then Outcome.ret E_FAIL res
          else Global_InStr_search str1v str2v (start - 1) res
      | none => Global_InStr_search str1v str2v 0 res
  else Outcome.assert_failed

/-- Modelled from the spec: `SysAllocString` (OLE Automation string API, not
in this translation unit) hands out an independently owned copy of the
NUL-terminated string found at the given address: the code units before the
first NUL of `buf`.  NULL when no buffer can be had. -/
def SysAllocString (env : Env) (buf : List WCHAR) : Alloc :=
  if env.alloc_ok (c_string buf).length = false then Alloc.null
  else Alloc.str (c_string buf)

/-- The loop `for(ptr = str; *ptr && isspaceW(*ptr); ptr++);` of `Global_LTrim`
and `Global_Trim`, run over the code units from `ptr` on: the number of steps
taken.  At the end of the units `*ptr` is the terminating NUL. -/
def Global_LTrim_scan (env : Env) : List WCHAR → Nat
  | [] => 0
  | c :: cs =>
    if c ≠ 0 ∧ env.isspaceW c = true then Global_LTrim_scan env cs + 1
    else 0

def Global_LTrim (env : Env) (args : List VARIANT) (res : Option VARIANT) : Outcome :=
  match args with
  | arg :: _ =>
    let conv : Except HRESULT BSTR :=
      match arg with
      | VT_BSTR s => Except.ok s
      | _ => to_string env arg
    match conv with
    | Except.error hres => Outcome.ret hres res
    | Except.ok none => Outcome.undefined
    | Except.ok (some s) =>
      let ptr := Global_LTrim_scan env s
      match SysAllocString env (s.drop ptr) with
      | Alloc.fault => Outcome.undefined
      | Alloc.null => Outcome.ret E_OUTOFMEMORY res
      | Alloc.str str => Outcome.of (return_bstr res (some str))
  | [] => Outcome.undefined

/-- The second loop of `Global_Trim` started at `end_ptr = str + i`, with
`begin_ptr = str + b`: the final `end_ptr - str`.  The loop goes on while
`end_ptr-1 > begin_ptr` and `*(end_ptr-1)` is a space. -/
def Global_Trim_scan (env : Env) (s : List WCHAR) (b : Nat) : Nat → Nat
  | 0 => 0
  | i + 1 =>
    if b < i ∧ env.isspaceW (s.getD i 0) = true then Global_Trim_scan env s b i
    else i + 1

def Global_Trim (env : Env) (args : List VARIANT) (res : Option VARIANT) : Outcome :=
  match args with
  | arg :: _ =>
    let conv : Except HRESULT BSTR :=
      match arg with
      | VT_BSTR s => Except.ok s
      | _ => to_string env arg
    match conv with
    | Except.error hres => Outcome.ret hres res
    | Except.ok none => Outcome.undefined
    | Except.ok (some s) =>
      let begin_ptr := Global_LTrim_scan env s
      let end_ptr := Global_Trim_scan env s begin_ptr (SysStringLen (some s))
      match SysAllocStringLen env (some s) begin_ptr ((end_ptr : Int) - (begin_ptr : Int)) with
      | Alloc.fault => Outcome.undefined
      | Alloc.null => Outcome.ret E_OUTOFMEMORY res
      | Alloc.str str => Outcome.of (return_bstr res (some str))
  | [] => Outcome.undefined

/-! ## Output helpers, continued -/

/-- The helper `return_string(res, str)`, `str` being the code units found at
the given address: nothing is allocated when there is no slot. -/
def return_string (env : Env) (res : Option VARIANT) (str : List WCHAR) :
    HRESULT × Option VARIANT :=
  match res with
  | none => (S_OK, none)
  | some v =>
    match SysAllocString env str with
    | Alloc.str ret => (S_OK, some (VT_BSTR (some ret)))
    | _ => (E_OUTOFMEMORY, some v)

/-- The strings `return_bstr(res, str)` hands to `SysFreeString`. -/
def return_bstr_freed (res : Option VARIANT) (str : BSTR) : List BSTR :=
  match res with
  | some _ => []
  | none => [str]

def return_double (res : Option VARIANT) (val : DOUBLE) : HRESULT × Option VARIANT :=
  match res with
  | some _ => (S_OK, some (VT_R8 val))
  | none => (S_OK, none)

def return_date (res : Option VARIANT) (date : DOUBLE) : HRESULT × Option VARIANT :=
  match res with
  | some _ => (S_OK, some (VT_DATE date))
  | none => (S_OK, none)

/-! ## Builtin table -/

/-- The handlers of `global.c` whose whole body is
`FIXME("\n"); return E_NOTIMPL;`. -/
inductive Stub
  | Global_CCur
  | Global_CInt
  | Global_CLng
  | Global_CBool
  | Global_CByte
  | Global_CDate
  | Global_CDbl
  | Global_CSng
  | Global_Oct
  | Global_VarType
  | Global_IsDate
  | Global_IsNumeric
  | Global_IsArray
  | Global_Ant
  | Global_Cos
  | Global_Sin
  | Global_Tan
  | Global_Exp
  | Global_Log
  | Global_Sqr
  | Global_Randomize
  | Global_Rnd
  | Global_Timer
  | Global_LBound
  | Global_UBound
  | Global_RGB
  | Global_LenB
  | Global_LeftB
  | Global_RightB
  | Global_MidB
  | Global_StrComp
  | Global_String
  | Global_InStrB
  | Global_AscB
  | Global_ChrB
  | Global_Asc
  | Global_AscW
  | Global_ChrW
  | Global_Abs
  | Global_Fix
  | Global_Int
  | Global_Sgn
  | Global_Date
  | Global_Time
  | Global_Day
  | Global_Month
  | Global_Weekday
  | Global_Year
  | Global_Hour
  | Global_Minute
  | Global_Second
  | Global_DateValue
  | Global_TimeValue
  | Global_DateSerial
  | Global_TimeSerial
  | Global_InputBox
  | Global_GetObject
  | Global_DateAdd
  | Global_DateDiff
  | Global_DatePart
  | Global_TypeName
  | Global_Array
  | Global_Erase
  | Global_Filter
  | Global_Join
  | Global_Split
  | Global_Replace
  | Global_InStrRev
  | Global_LoadPicture
  | Global_ScriptEngine
  | Global_ScriptEngineMajorVersion
  | Global_ScriptEngineMinorVersion
  | Global_ScriptEngineBuildVersion
  | Global_FormatNumber
  | Global_FormatCurrency
  | Global_FormatPercent
  | Global_FormatDateTime
  | Global_Escape
  | Global_Unescape
  | Global_Eval
  | Global_Execute
  | Global_ExecuteGlobal
  | Global_GetRef
  | Global_vbUseSystem
  | Global_vbUseSystemDayOfWeek
  | Global_vbFirstJan1
  | Global_vbFirstFourDays
  | Global_vbFirstFullWeek
  | Global_vbCritical
  | Global_vbQuestion
  | Global_vbExclamation
  | Global_vbInformation
  | Global_vbDefaultButton1
  | Global_vbDefaultButton2
  | Global_vbDefaultButton3
  | Global_vbDefaultButton4
  | Global_vbApplicationModal
  | Global_vbSystemModal
  | Global_vbTrue
  | Global_vbFalse
  | Global_vbUseDefault
  | Global_vbBinaryCompare
  | Global_vbTextCompare
  | Global_vbDatabaseCompare
  | Global_vbGeneralDate
  | Global_vbLongDate
  | Global_vbShortDate
  | Global_vbLongTime
  | Global_vbShortTime
  | Global_vbObjectError
  | Global_vbBlack
  | Global_vbBlue
  | Global_vbCyan
  | Global_vbGreen
  | Global_vbMagenta
  | Global_vbRed
  | Global_vbWhite
  | Global_vbYellow
  | Global_vbCr
  | Global_vbCrLf
  | Global_vbNewLine
  | Global_vbFormFeed
  | Global_vbLf
  | Global_vbNullChar
  | Global_vbNullString
  | Global_vbTab
  | Global_vbVerticalTab
  | Global_vbMsgBoxHelpButton
  | Global_vbMsgBoxSetForeground
  | Global_vbMsgBoxRight
  | Global_vbMsgBoxRtlReading
  deriving DecidableEq

/-- The body of each of these handlers: the arguments are not read, the slot
is not written, `E_NOTIMPL` is returned. -/
def Stub.run (f : Stub) (_env : Env) (_args : List VARIANT) (res : Option VARIANT) : Outcome :=
  match f with
  | Stub.Global_CCur => Outcome.ret E_NOTIMPL res
  | Stub.Global_CInt => Outcome.ret E_NOTIMPL res
  | Stub.Global_CLng => Outcome.ret E_NOTIMPL res
  | Stub.Global_CBool => Outcome.ret E_NOTIMPL res
  | Stub.Global_CByte => Outcome.ret E_NOTIMPL res
  | Stub.Global_CDate => Outcome.ret E_NOTIMPL res
  | Stub.Global_CDbl => Outcome.ret E_NOTIMPL res
  | Stub.Global_CSng => Outcome.ret E_NOTIMPL res
  | Stub.Global_Oct => Outcome.ret E_NOTIMPL res
  | Stub.Global_VarType => Outcome.ret E_NOTIMPL res
  | Stub.Global_IsDate => Outcome.ret E_NOTIMPL res
  | Stub.Global_IsNumeric => Outcome.ret E_NOTIMPL res
  | Stub.Global_IsArray => Outcome.ret E_NOTIMPL res
  | Stub.Global_Ant => Outcome.ret E_NOTIMPL res
  | Stub.Global_Cos => Outcome.ret E_NOTIMPL res
  | Stub.Global_Sin => Outcome.ret E_NOTIMPL res
  | Stub.Global_Tan => Outcome.ret E_NOTIMPL res
  | Stub.Global_Exp => Outcome.ret E_NOTIMPL res
  | Stub.Global_Log => Outcome.ret E_NOTIMPL res
  | Stub.Global_Sqr => Outcome.ret E_NOTIMPL res
  | Stub.Global_Randomize => Outcome.ret E_NOTIMPL res
  | Stub.Global_Rnd => Outcome.ret E_NOTIMPL res
  | Stub.Global_Timer => Outcome.ret E_NOTIMPL res
  | Stub.Global_LBound => Outcome.ret E_NOTIMPL res
  | Stub.Global_UBound => Outcome.ret E_NOTIMPL res
  | Stub.Global_RGB => Outcome.ret E_NOTIMPL res
  | Stub.Global_LenB => Outcome.ret E_NOTIMPL res
  | Stub.Global_LeftB => Outcome.ret E_NOTIMPL res
  | Stub.Global_RightB => Outcome.ret E_NOTIMPL res
  | Stub.Global_MidB => Outcome.ret E_NOTIMPL res
  | Stub.Global_StrComp => Outcome.ret E_NOTIMPL res
  | Stub.Global_String => Outcome.ret E_NOTIMPL res
  | Stub.Global_InStrB => Outcome.ret E_NOTIMPL res
  | Stub.Global_AscB => Outcome.ret E_NOTIMPL res
  | Stub.Global_ChrB => Outcome.ret E_NOTIMPL res
  | Stub.Global_Asc => Outcome.ret E_NOTIMPL res
  | Stub.Global_AscW => Outcome.ret E_NOTIMPL res
  | Stub.Global_ChrW => Outcome.ret E_NOTIMPL res
  | Stub.Global_Abs => Outcome.ret E_NOTIMPL res
  | Stub.Global_Fix => Outcome.ret E_NOTIMPL res
  | Stub.Global_Int => Outcome.ret E_NOTIMPL res
  | Stub.Global_Sgn => Outcome.ret E_NOTIMPL res
  | Stub.Global_Date => Outcome.ret E_NOTIMPL res
  | Stub.Global_Time => Outcome.ret E_NOTIMPL res
  | Stub.Global_Day => Outcome.ret E_NOTIMPL res
  | Stub.Global_Month => Outcome.ret E_NOTIMPL res
  | Stub.Global_Weekday => Outcome.ret E_NOTIMPL res
  | Stub.Global_Year => Outcome.ret E_NOTIMPL res
  | Stub.Global_Hour => Outcome.ret E_NOTIMPL res
  | Stub.Global_Minute => Outcome.ret E_NOTIMPL res
  | Stub.Global_Second => Outcome.ret E_NOTIMPL res
  | Stub.Global_DateValue => Outcome.ret E_NOTIMPL res
  | Stub.Global_TimeValue => Outcome.ret E_NOTIMPL res
  | Stub.Global_DateSerial => Outcome.ret E_NOTIMPL res
  | Stub.Global_TimeSerial => Outcome.ret E_NOTIMPL res
  | Stub.Global_InputBox => Outcome.ret E_NOTIMPL res
  | Stub.Global_GetObject => Outcome.ret E_NOTIMPL res
  | Stub.Global_DateAdd => Outcome.ret E_NOTIMPL res
  | Stub.Global_DateDiff => Outcome.ret E_NOTIMPL res
  | Stub.Global_DatePart => Outcome.ret E_NOTIMPL res
  | Stub.Global_TypeName => Outcome.ret E_NOTIMPL res
  | Stub.Global_Array => Outcome.ret E_NOTIMPL res
  | Stub.Global_Erase => Outcome.ret E_NOTIMPL res
  | Stub.Global_Filter => Outcome.ret E_NOTIMPL res
  | Stub.Global_Join => Outcome.ret E_NOTIMPL res
  | Stub.Global_Split => Outcome.ret E_NOTIMPL res
  | Stub.Global_Replace => Outcome.ret E_NOTIMPL res
  | Stub.Global_InStrRev => Outcome.ret E_NOTIMPL res
  | Stub.Global_LoadPicture => Outcome.ret E_NOTIMPL res
  | Stub.Global_ScriptEngine => Outcome.ret E_NOTIMPL res
  | Stub.Global_ScriptEngineMajorVersion => Outcome.ret E_NOTIMPL res
  | Stub.Global_ScriptEngineMinorVersion => Outcome.ret E_NOTIMPL res
  | Stub.Global_ScriptEngineBuildVersion => Outcome.ret E_NOTIMPL res
  | Stub.Global_FormatNumber => Outcome.ret E_NOTIMPL res
  | Stub.Global_FormatCurrency => Outcome.ret E_NOTIMPL res
  | Stub.Global_FormatPercent => Outcome.ret E_NOTIMPL res
  | Stub.Global_FormatDateTime => Outcome.ret E_NOTIMPL res
  | Stub.Global_Escape => Outcome.ret E_NOTIMPL res
  | Stub.Global_Unescape => Outcome.ret E_NOTIMPL res
  | Stub.Global_Eval => Outcome.ret E_NOTIMPL res
  | Stub.Global_Execute => Outcome.ret E_NOTIMPL res
  | Stub.Global_ExecuteGlobal => Outcome.ret E_NOTIMPL res
  | Stub.Global_GetRef => Outcome.ret E_NOTIMPL res
  | Stub.Global_vbUseSystem => Outcome.ret E_NOTIMPL res
  | Stub.Global_vbUseSystemDayOfWeek => Outcome.ret E_NOTIMPL res
  | Stub.Global_vbFirstJan1 => Outcome.ret E_NOTIMPL res
  | Stub.Global_vbFirstFourDays => Outcome.ret E_NOTIMPL res
  | Stub.Global_vbFirstFullWeek => Outcome.ret E_NOTIMPL res
  | Stub.Global_vbCritical => Outcome.ret E_NOTIMPL res
  | Stub.Global_vbQuestion => Outcome.ret E_NOTIMPL res
  | Stub.Global_vbExclamation => Outcome.ret E_NOTIMPL res
  | Stub.Global_vbInformation => Outcome.ret E_NOTIMPL res
  | Stub.Global_vbDefaultButton1 => Outcome.ret E_NOTIMPL res
  | Stub.Global_vbDefaultButton2 => Outcome.ret E_NOTIMPL res
  | Stub.Global_vbDefaultButton3 => Outcome.ret E_NOTIMPL res
  | Stub.Global_vbDefaultButton4 => Outcome.ret E_NOTIMPL res
  | Stub.Global_vbApplicationModal => Outcome.ret E_NOTIMPL res
  | Stub.Global_vbSystemModal => Outcome.ret E_NOTIMPL res
  | Stub.Global_vbTrue => Outcome.ret E_NOTIMPL res
  | Stub.Global_vbFalse => Outcome.ret E_NOTIMPL res
  | Stub.Global_vbUseDefault => Outcome.ret E_NOTIMPL res
  | Stub.Global_vbBinaryCompare => Outcome.ret E_NOTIMPL res
  | Stub.Global_vbTextCompare => Outcome.ret E_NOTIMPL res
  | Stub.Global_vbDatabaseCompare => Outcome.ret E_NOTIMPL res
  | Stub.Global_vbGeneralDate => Outcome.ret E_NOTIMPL res
  | Stub.Global_vbLongDate => Outcome.ret E_NOTIMPL res
  | Stub.Global_vbShortDate => Outcome.ret E_NOTIMPL res
  | Stub.Global_vbLongTime => Outcome.ret E_NOTIMPL res
  | Stub.Global_vbShortTime => Outcome.ret E_NOTIMPL res
  | Stub.Global_vbObjectError => Outcome.ret E_NOTIMPL res
  | Stub.Global_vbBlack => Outcome.ret E_NOTIMPL res
  | Stub.Global_vbBlue => Outcome.ret E_NOTIMPL res
  | Stub.Global_vbCyan => Outcome.ret E_NOTIMPL res
  | Stub.Global_vbGreen => Outcome.ret E_NOTIMPL res
  | Stub.Global_vbMagenta => Outcome.ret E_NOTIMPL res
  | Stub.Global_vbRed => Outcome.ret E_NOTIMPL res
  | Stub.Global_vbWhite => Outcome.ret E_NOTIMPL res
  | Stub.Global_vbYellow => Outcome.ret E_NOTIMPL res
  | Stub.Global_vbCr => Outcome.ret E_NOTIMPL res
  | Stub.Global_vbCrLf => Outcome.ret E_NOTIMPL res
  | Stub.Global_vbNewLine => Outcome.ret E_NOTIMPL res
  | Stub.Global_vbFormFeed => Outcome.ret E_NOTIMPL res
  | Stub.Global_vbLf => Outcome.ret E_NOTIMPL res
  | Stub.Global_vbNullChar => Outcome.ret E_NOTIMPL res
  | Stub.Global_vbNullString => Outcome.ret E_NOTIMPL res
  | Stub.Global_vbTab => Outcome.ret E_NOTIMPL res
  | Stub.Global_vbVerticalTab => Outcome.ret E_NOTIMPL res
  | Stub.Global_vbMsgBoxHelpButton => Outcome.ret E_NOTIMPL res
  | Stub.Global_vbMsgBoxSetForeground => Outcome.ret E_NOTIMPL res
  | Stub.Global_vbMsgBoxRight => Outcome.ret E_NOTIMPL res
  | Stub.Global_vbMsgBoxRtlReading => Outcome.ret E_NOTIMPL res

/-- The handler functions the table refers to: a stub, or one of the
implemented handlers. -/
inductive Proc
  | stub (f : Stub)
  | Global_CStr
  | Global_Hex
  | Global_IsEmpty
  | Global_IsNull
  | Global_IsObject
  | Global_Len
  | Global_Left
  | Global_Right
  | Global_Mid
  | Global_LCase
  | Global_UCase
  | Global_LTrim
  | Global_RTrim
  | Global_Trim
  | Global_Space
  | Global_InStr
  | Global_Chr
  | Global_Now
  | Global_MsgBox
  | Global_CreateObject
  | Global_StrReverse
  | Global_WeekdayName
  | Global_MonthName
  | Global_Round
  deriving DecidableEq

/-- The flag `BP_GET` of a table entry (declared in `vbscript.h`). -/
def BP_GET : Nat := 1

/-- A dispatch id, kept as its symbolic name: the numbers are assigned in
`vbsglobal.idl`, outside the translation unit. -/
abbrev DISPID := String

/-- An entry of the builtin table, with the fields of the positional
initialisers of `global_props` (the type is declared in `vbscript.h`); a field
left out of an initialiser is zero.  For an entry without handler `min_args`
holds the value of the constant. -/
structure builtin_prop_t where
  id : DISPID
  proc : Option Proc
  flags : Nat
  min_args : Nat
  max_args : Nat
  deriving DecidableEq

def global_props : List builtin_prop_t := [
  builtin_prop_t.mk "DISPID_GLOBAL_VBUSESYSTEM" (some (Proc.stub Stub.Global_vbUseSystem)) BP_GET 0 0,
  builtin_prop_t.mk "DISPID_GLOBAL_USESYSTEMDAYOFWEEK" (some (Proc.stub Stub.Global_vbUseSystemDayOfWeek)) BP_GET 0 0,
  builtin_prop_t.mk "DISPID_GLOBAL_VBSUNDAY" none BP_GET 1 0,
  builtin_prop_t.mk "DISPID_GLOBAL_VBMONDAY" none BP_GET 2 0,
  builtin_prop_t.mk "DISPID_GLOBAL_VBTUESDAY" none BP_GET 3 0,
  builtin_prop_t.mk "DISPID_GLOBAL_VBWEDNESDAY" none BP_GET 4 0,
  builtin_prop_t.mk "DISPID_GLOBAL_VBTHURSDAY" none BP_GET 5 0,
  builtin_prop_t.mk "DISPID_GLOBAL_VBFRIDAY" none BP_GET 6 0,
  builtin_prop_t.mk "DISPID_GLOBAL_VBSATURDAY" none BP_GET 7 0,
  builtin_prop_t.mk "DISPID_GLOBAL_VBFIRSTJAN1" (some (Proc.stub Stub.Global_vbFirstJan1)) BP_GET 0 0,
  builtin_prop_t.mk "DISPID_GLOBAL_VBFIRSTFOURDAYS" (some (Proc.stub Stub.Global_vbFirstFourDays)) BP_GET 0 0,
  builtin_prop_t.mk "DISPID_GLOBAL_VBFIRSTFULLWEEK" (some (Proc.stub Stub.Global_vbFirstFullWeek)) BP_GET 0 0,
  builtin_prop_t.mk "DISPID_GLOBAL_VBOKONLY" none BP_GET 0 0,  -- MB_OK
  builtin_prop_t.mk "DISPID_GLOBAL_VBOKCANCEL" none BP_GET 1 0,  -- MB_OKCANCEL
  builtin_prop_t.mk "DISPID_GLOBAL_VBABORTRETRYIGNORE" none BP_GET 2 0,  -- MB_ABORTRETRYIGNORE
  builtin_prop_t.mk "DISPID_GLOBAL_VBYESNOCANCEL" none BP_GET 3 0,  -- MB_YESNOCANCEL
  builtin_prop_t.mk "DISPID_GLOBAL_VBYESNO" none BP_GET 4 0,  -- MB_YESNO
  builtin_prop_t.mk "DISPID_GLOBAL_VBRETRYCANCEL" none BP_GET 5 0,  -- MB_RETRYCANCEL
  builtin_prop_t.mk "DISPID_GLOBAL_VBCRITICAL" (some (Proc.stub Stub.Global_vbCritical)) BP_GET 0 0,
  builtin_prop_t.mk "DISPID_GLOBAL_VBQUESTION" (some (Proc.stub Stub.Global_vbQuestion)) BP_GET 0 0,
  builtin_prop_t.mk "DISPID_GLOBAL_VBEXCLAMATION" (some (Proc.stub Stub.Global_vbExclamation)) BP_GET 0 0,
  builtin_prop_t.mk "DISPID_GLOBAL_VBINFORMATION" (some (Proc.stub Stub.Global_vbInformation)) BP_GET 0 0,
  builtin_prop_t.mk "DISPID_GLOBAL_VBDEFAULTBUTTON1" (some (Proc.stub Stub.Global_vbDefaultButton1)) BP_GET 0 0,
  builtin_prop_t.mk "DISPID_GLOBAL_VBDEFAULTBUTTON2" (some (Proc.stub Stub.Global_vbDefaultButton2)) BP_GET 0 0,
  builtin_prop_t.mk "DISPID_GLOBAL_VBDEFAULTBUTTON3" (some (Proc.stub Stub.Global_vbDefaultButton3)) BP_GET 0 0,
  builtin_prop_t.mk "DISPID_GLOBAL_VBDEFAULTBUTTON4" (some (Proc.stub Stub.Global_vbDefaultButton4)) BP_GET 0 0,
  builtin_prop_t.mk "DISPID_GLOBAL_VBAPPLICATIONMODAL" (some (Proc.stub Stub.Global_vbApplicationModal)) BP_GET 0 0,
  builtin_prop_t.mk "DISPID_GLOBAL_VBSYSTEMMODAL" (some (Proc.stub Stub.Global_vbSystemModal)) BP_GET 0 0,
  builtin_prop_t.mk "DISPID_GLOBAL_VBOK" none BP_GET 1 0,  -- IDOK
  builtin_prop_t.mk "DISPID_GLOBAL_VBCANCEL" none BP_GET 2 0,  -- IDCANCEL
  builtin_prop_t.mk "DISPID_GLOBAL_VBABORT" none BP_GET 3 0,  -- IDABORT
  builtin_prop_t.mk "DISPID_GLOBAL_VBRETRY" none BP_GET 4 0,  -- IDRETRY
  builtin_prop_t.mk "DISPID_GLOBAL_VBIGNORE" none BP_GET 5 0,  -- IDIGNORE
  builtin_prop_t.mk "DISPID_GLOBAL_VBYES" none BP_GET 6 0,  -- IDYES
  builtin_prop_t.mk "DISPID_GLOBAL_VBNO" none BP_GET 7 0,  -- IDNO
  builtin_prop_t.mk "DISPID_GLOBAL_VBEMPTY" none BP_GET 0 0,  -- VT_EMPTY
  builtin_prop_t.mk "DISPID_GLOBAL_VBNULL" none BP_GET 1 0,  -- VT_NULL
  builtin_prop_t.mk "DISPID_GLOBAL_VBINTEGER" none BP_GET 2 0,  -- VT_I2
  builtin_prop_t.mk "DISPID_GLOBAL_VBLONG" none BP_GET 3 0,  -- VT_I4
  builtin_prop_t.mk "DISPID_GLOBAL_VBSINGLE" none BP_GET 4 0,  -- VT_R4
  builtin_prop_t.mk "DISPID_GLOBAL_VBDOUBLE" none BP_GET 5 0,  -- VT_R8
  builtin_prop_t.mk "DISPID_GLOBAL_VBCURRENCY" none BP_GET 6 0,  -- VT_CY
  builtin_prop_t.mk "DISPID_GLOBAL_VBDATE" none BP_GET 7 0,  -- VT_DATE
  builtin_prop_t.mk "DISPID_GLOBAL_VBSTRING" none BP_GET 8 0,  -- VT_BSTR
  builtin_prop_t.mk "DISPID_GLOBAL_VBOBJECT" none BP_GET 9 0,  -- VT_DISPATCH
  builtin_prop_t.mk "DISPID_GLOBAL_VBERROR" none BP_GET 10 0,  -- VT_ERROR
  builtin_prop_t.mk "DISPID_GLOBAL_VBBOOLEAN" none BP_GET 11 0,  -- VT_BOOL
  builtin_prop_t.mk "DISPID_GLOBAL_VBVARIANT" none BP_GET 12 0,  -- VT_VARIANT
  builtin_prop_t.mk "DISPID_GLOBAL_VBDATAOBJECT" none BP_GET 13 0,  -- VT_UNKNOWN
  builtin_prop_t.mk "DISPID_GLOBAL_VBDECIMAL" none BP_GET 14 0,  -- VT_DECIMAL
  builtin_prop_t.mk "DISPID_GLOBAL_VBBYTE" none BP_GET 17 0,  -- VT_UI1
  builtin_prop_t.mk "DISPID_GLOBAL_VBARRAY" none BP_GET 8192 0,  -- VT_ARRAY
  builtin_prop_t.mk "DISPID_GLOBAL_VBTRUE" (some (Proc.stub Stub.Global_vbTrue)) BP_GET 0 0,
  builtin_prop_t.mk "DISPID_GLOBAL_VBFALSE" (some (Proc.stub Stub.Global_vbFalse)) BP_GET 0 0,
  builtin_prop_t.mk "DISPID_GLOBAL_VBUSEDEFAULT" (some (Proc.stub Stub.Global_vbUseDefault)) BP_GET 0 0,
  builtin_prop_t.mk "DISPID_GLOBAL_VBBINARYCOMPARE" (some (Proc.stub Stub.Global_vbBinaryCompare)) BP_GET 0 0,
  builtin_prop_t.mk "DISPID_GLOBAL_VBTEXTCOMPARE" (some (Proc.stub Stub.Global_vbTextCompare)) BP_GET 0 0,
  builtin_prop_t.mk "DISPID_GLOBAL_VBDATABASECOMPARE" (some (Proc.stub Stub.Global_vbDatabaseCompare)) BP_GET 0 0,
  builtin_prop_t.mk "DISPID_GLOBAL_VBGENERALDATE" (some (Proc.stub Stub.Global_vbGeneralDate)) BP_GET 0 0,
  builtin_prop_t.mk "DISPID_GLOBAL_VBLONGDATE" (some (Proc.stub Stub.Global_vbLongDate)) BP_GET 0 0,
  builtin_prop_t.mk "DISPID_GLOBAL_VBSHORTDATE" (some (Proc.stub Stub.Global_vbShortDate)) BP_GET 0 0,
  builtin_prop_t.mk "DISPID_GLOBAL_VBLONGTIME" (some (Proc.stub Stub.Global_vbLongTime)) BP_GET 0 0,
  builtin_prop_t.mk "DISPID_GLOBAL_VBSHORTTIME" (some (Proc.stub Stub.Global_vbShortTime)) BP_GET 0 0,
  builtin_prop_t.mk "DISPID_GLOBAL_VBOBJECTERROR" (some (Proc.stub Stub.Global_vbObjectError)) BP_GET 0 0,
  builtin_prop_t.mk "DISPID_GLOBAL_VBBLACK" (some (Proc.stub Stub.Global_vbBlack)) BP_GET 0 0,
  builtin_prop_t.mk "DISPID_GLOBAL_VBBLUE" (some (Proc.stub Stub.Global_vbBlue)) BP_GET 0 0,
  builtin_prop_t.mk "DISPID_GLOBAL_VBCYAN" (some (Proc.stub Stub.Global_vbCyan)) BP_GET 0 0,
  builtin_prop_t.mk "DISPID_GLOBAL_VBGREEN" (some (Proc.stub Stub.Global_vbGreen)) BP_GET 0 0,
  builtin_prop_t.mk "DISPID_GLOBAL_VBMAGENTA" (some (Proc.stub Stub.Global_vbMagenta)) BP_GET 0 0,
  builtin_prop_t.mk "DISPID_GLOBAL_VBRED" (some (Proc.stub Stub.Global_vbRed)) BP_GET 0 0,
  builtin_prop_t.mk "DISPID_GLOBAL_VBWHITE" (some (Proc.stub Stub.Global_vbWhite)) BP_GET 0 0,
  builtin_prop_t.mk "DISPID_GLOBAL_VBYELLOW" (some (Proc.stub Stub.Global_vbYellow)) BP_GET 0 0,
  builtin_prop_t.mk "DISPID_GLOBAL_VBCR" (some (Proc.stub Stub.Global_vbCr)) BP_GET 0 0,
  builtin_prop_t.mk "DISPID_GLOBAL_VBCRLF" (some (Proc.stub Stub.Global_vbCrLf)) BP_GET 0 0,
  builtin_prop_t.mk "DISPID_GLOBAL_VBNEWLINE" (some (Proc.stub Stub.Global_vbNewLine)) BP_GET 0 0,
  builtin_prop_t.mk "DISPID_GLOBAL_VBFORMFEED" (some (Proc.stub Stub.Global_vbFormFeed)) BP_GET 0 0,
  builtin_prop_t.mk "DISPID_GLOBAL_VBLF" (some (Proc.stub Stub.Global_vbLf)) BP_GET 0 0,
  builtin_prop_t.mk "DISPID_GLOBAL_VBNULLCHAR" (some (Proc.stub Stub.Global_vbNullChar)) BP_GET 0 0,
  builtin_prop_t.mk "DISPID_GLOBAL_VBNULLSTRING" (some (Proc.stub Stub.Global_vbNullString)) BP_GET 0 0,
  builtin_prop_t.mk "DISPID_GLOBAL_VBTAB" (some (Proc.stub Stub.Global_vbTab)) BP_GET 0 0,
  builtin_prop_t.mk "DISPID_GLOBAL_VBVERTICALTAB" (some (Proc.stub Stub.Global_vbVerticalTab)) BP_GET 0 0,
  builtin_prop_t.mk "DISPID_GLOBAL_CCUR" (some (Proc.stub Stub.Global_CCur)) 0 1 0,
  builtin_prop_t.mk "DISPID_GLOBAL_CINT" (some (Proc.stub Stub.Global_CInt)) 0 1 0,
  builtin_prop_t.mk "DISPID_GLOBAL_CLNG" (some (Proc.stub Stub.Global_CLng)) 0 1 0,
  builtin_prop_t.mk "DISPID_GLOBAL_CBOOL" (some (Proc.stub Stub.Global_CBool)) 0 1 0,
  builtin_prop_t.mk "DISPID_GLOBAL_CBYTE" (some (Proc.stub Stub.Global_CByte)) 0 1 0,
  builtin_prop_t.mk "DISPID_GLOBAL_CDATE" (some (Proc.stub Stub.Global_CDate)) 0 1 0,
  builtin_prop_t.mk "DISPID_GLOBAL_CDBL" (some (Proc.stub Stub.Global_CDbl)) 0 1 0,
  builtin_prop_t.mk "DISPID_GLOBAL_CSNG" (some (Proc.stub Stub.Global_CSng)) 0 1 0,
  builtin_prop_t.mk "DISPID_GLOBAL_CSTR" (some Proc.Global_CStr) 0 1 0,
  builtin_prop_t.mk "DISPID_GLOBAL_HEX" (some Proc.Global_Hex) 0 1 0,
  builtin_prop_t.mk "DISPID_GLOBAL_OCT" (some (Proc.stub Stub.Global_Oct)) 0 1 0,
  builtin_prop_t.mk "DISPID_GLOBAL_VARTYPE" (some (Proc.stub Stub.Global_VarType)) 0 1 0,
  builtin_prop_t.mk "DISPID_GLOBAL_ISDATE" (some (Proc.stub Stub.Global_IsDate)) 0 1 0,
  builtin_prop_t.mk "DISPID_GLOBAL_ISEMPTY" (some Proc.Global_IsEmpty) 0 1 0,
  builtin_prop_t.mk "DISPID_GLOBAL_ISNULL" (some Proc.Global_IsNull) 0 1 0,
  builtin_prop_t.mk "DISPID_GLOBAL_ISNUMERIC" (some (Proc.stub Stub.Global_IsNumeric)) 0 1 0,
  builtin_prop_t.mk "DISPID_GLOBAL_ISARRAY" (some (Proc.stub Stub.Global_IsArray)) 0 1 0,
  builtin_prop_t.mk "DISPID_GLOBAL_ISOBJECT" (some Proc.Global_IsObject) 0 1 0,
  builtin_prop_t.mk "DISPID_GLOBAL_ATN" (some (Proc.stub Stub.Global_Ant)) 0 1 0,
  builtin_prop_t.mk "DISPID_GLOBAL_COS" (some (Proc.stub Stub.Global_Cos)) 0 1 0,
  builtin_prop_t.mk "DISPID_GLOBAL_SIN" (some (Proc.stub Stub.Global_Sin)) 0 1 0,
  builtin_prop_t.mk "DISPID_GLOBAL_TAN" (some (Proc.stub Stub.Global_Tan)) 0 1 0,
  builtin_prop_t.mk "DISPID_GLOBAL_EXP" (some (Proc.stub Stub.Global_Exp)) 0 1 0,
  builtin_prop_t.mk "DISPID_GLOBAL_LOG" (some (Proc.stub Stub.Global_Log)) 0 1 0,
  builtin_prop_t.mk "DISPID_GLOBAL_SQR" (some (Proc.stub Stub.Global_Sqr)) 0 1 0,
  builtin_prop_t.mk "DISPID_GLOBAL_RANDOMIZE" (some (Proc.stub Stub.Global_Randomize)) 0 1 0,
  builtin_prop_t.mk "DISPID_GLOBAL_RND" (some (Proc.stub Stub.Global_Rnd)) 0 1 0,
  builtin_prop_t.mk "DISPID_GLOBAL_TIMER" (some (Proc.stub Stub.Global_Timer)) 0 0 0,
  builtin_prop_t.mk "DISPID_GLOBAL_LBOUND" (some (Proc.stub Stub.Global_LBound)) 0 1 0,
  builtin_prop_t.mk "DISPID_GLOBAL_UBOUND" (some (Proc.stub Stub.Global_UBound)) 0 1 0,
  builtin_prop_t.mk "DISPID_GLOBAL_RGB" (some (Proc.stub Stub.Global_RGB)) 0 3 0,
  builtin_prop_t.mk "DISPID_GLOBAL_LEN" (some Proc.Global_Len) 0 1 0,
  builtin_prop_t.mk "DISPID_GLOBAL_LENB" (some (Proc.stub Stub.Global_LenB)) 0 1 0,
  builtin_prop_t.mk "DISPID_GLOBAL_LEFT" (some Proc.Global_Left) 0 2 0,
  builtin_prop_t.mk "DISPID_GLOBAL_LEFTB" (some (Proc.stub Stub.Global_LeftB)) 0 2 0,
  builtin_prop_t.mk "DISPID_GLOBAL_RIGHT" (some Proc.Global_Right) 0 2 0,
  builtin_prop_t.mk "DISPID_GLOBAL_RIGHTB" (some (Proc.stub Stub.Global_RightB)) 0 2 0,
  builtin_prop_t.mk "DISPID_GLOBAL_MID" (some Proc.Global_Mid) 0 2 3,
  builtin_prop_t.mk "DISPID_GLOBAL_MIDB" (some (Proc.stub Stub.Global_MidB)) 0 2 3,
  builtin_prop_t.mk "DISPID_GLOBAL_STRCOMP" (some (Proc.stub Stub.Global_StrComp)) 0 2 3,
  builtin_prop_t.mk "DISPID_GLOBAL_LCASE" (some Proc.Global_LCase) 0 1 0,
  builtin_prop_t.mk "DISPID_GLOBAL_UCASE" (some Proc.Global_UCase) 0 1 0,
  builtin_prop_t.mk "DISPID_GLOBAL_LTRIM" (some Proc.Global_LTrim) 0 1 0,
  builtin_prop_t.mk "DISPID_GLOBAL_RTRIM" (some Proc.Global_RTrim) 0 1 0,
  builtin_prop_t.mk "DISPID_GLOBAL_TRIM" (some Proc.Global_Trim) 0 1 0,
  builtin_prop_t.mk "DISPID_GLOBAL_SPACE" (some Proc.Global_Space) 0 1 0,
  builtin_prop_t.mk "DISPID_GLOBAL_STRING" (some (Proc.stub Stub.Global_String)) 0 0 2,
  builtin_prop_t.mk "DISPID_GLOBAL_INSTR" (some Proc.Global_InStr) 0 2 4,
  builtin_prop_t.mk "DISPID_GLOBAL_INSTRB" (some (Proc.stub Stub.Global_InStrB)) 0 3 4,
  builtin_prop_t.mk "DISPID_GLOBAL_ASCB" (some (Proc.stub Stub.Global_AscB)) 0 1 0,
  builtin_prop_t.mk "DISPID_GLOBAL_CHRB" (some (Proc.stub Stub.Global_ChrB)) 0 1 0,
  builtin_prop_t.mk "DISPID_GLOBAL_ASC" (some (Proc.stub Stub.Global_Asc)) 0 1 0,
  builtin_prop_t.mk "DISPID_GLOBAL_CHR" (some Proc.Global_Chr) 0 1 0,
  builtin_prop_t.mk "DISPID_GLOBAL_ASCW" (some (Proc.stub Stub.Global_AscW)) 0 1 0,
  builtin_prop_t.mk "DISPID_GLOBAL_CHRW" (some (Proc.stub Stub.Global_ChrW)) 0 1 0,
  builtin_prop_t.mk "DISPID_GLOBAL_ABS" (some (Proc.stub Stub.Global_Abs)) 0 1 0,
  builtin_prop_t.mk "DISPID_GLOBAL_FIX" (some (Proc.stub Stub.Global_Fix)) 0 1 0,
  builtin_prop_t.mk "DISPID_GLOBAL_INT" (some (Proc.stub Stub.Global_Int)) 0 1 0,
  builtin_prop_t.mk "DISPID_GLOBAL_SGN" (some (Proc.stub Stub.Global_Sgn)) 0 1 0,
  builtin_prop_t.mk "DISPID_GLOBAL_NOW" (some Proc.Global_Now) 0 0 0,
  builtin_prop_t.mk "DISPID_GLOBAL_DATE" (some (Proc.stub Stub.Global_Date)) 0 0 0,
  builtin_prop_t.mk "DISPID_GLOBAL_TIME" (some (Proc.stub Stub.Global_Time)) 0 0 0,
  builtin_prop_t.mk "DISPID_GLOBAL_DAY" (some (Proc.stub Stub.Global_Day)) 0 1 0,
  builtin_prop_t.mk "DISPID_GLOBAL_MONTH" (some (Proc.stub Stub.Global_Month)) 0 1 0,
  builtin_prop_t.mk "DISPID_GLOBAL_WEEKDAY" (some (Proc.stub Stub.Global_Weekday)) 0 1 2,
  builtin_prop_t.mk "DISPID_GLOBAL_YEAR" (some (Proc.stub Stub.Global_Year)) 0 1 0,
  builtin_prop_t.mk "DISPID_GLOBAL_HOUR" (some (Proc.stub Stub.Global_Hour)) 0 1 0,
  builtin_prop_t.mk "DISPID_GLOBAL_MINUTE" (some (Proc.stub Stub.Global_Minute)) 0 1 0,
  builtin_prop_t.mk "DISPID_GLOBAL_SECOND" (some (Proc.stub Stub.Global_Second)) 0 1 0,
  builtin_prop_t.mk "DISPID_GLOBAL_DATEVALUE" (some (Proc.stub Stub.Global_DateValue)) 0 1 0,
  builtin_prop_t.mk "DISPID_GLOBAL_TIMEVALUE" (some (Proc.stub Stub.Global_TimeValue)) 0 1 0,
  builtin_prop_t.mk "DISPID_GLOBAL_DATESERIAL" (some (Proc.stub Stub.Global_DateSerial)) 0 3 0,
  builtin_prop_t.mk "DISPID_GLOBAL_TIMESERIAL" (some (Proc.stub Stub.Global_TimeSerial)) 0 3 0,
  builtin_prop_t.mk "DISPID_GLOBAL_INPUTBOX" (some (Proc.stub Stub.Global_InputBox)) 0 1 7,
  builtin_prop_t.mk "DISPID_GLOBAL_MSGBOX" (some Proc.Global_MsgBox) 0 1 5,
  builtin_prop_t.mk "DISPID_GLOBAL_CREATEOBJECT" (some Proc.Global_CreateObject) 0 1 0,
  builtin_prop_t.mk "DISPID_GLOBAL_GETOBJECT" (some (Proc.stub Stub.Global_GetObject)) 0 0 2,
  builtin_prop_t.mk "DISPID_GLOBAL_DATEADD" (some (Proc.stub Stub.Global_DateAdd)) 0 3 0,
  builtin_prop_t.mk "DISPID_GLOBAL_DATEDIFF" (some (Proc.stub Stub.Global_DateDiff)) 0 3 5,
  builtin_prop_t.mk "DISPID_GLOBAL_DATEPART" (some (Proc.stub Stub.Global_DatePart)) 0 2 4,
  builtin_prop_t.mk "DISPID_GLOBAL_TYPENAME" (some (Proc.stub Stub.Global_TypeName)) 0 1 0,
  builtin_prop_t.mk "DISPID_GLOBAL_ARRAY" (some (Proc.stub Stub.Global_Array)) 0 1 0,
  builtin_prop_t.mk "DISPID_GLOBAL_ERASE" (some (Proc.stub Stub.Global_Erase)) 0 1 0,
  builtin_prop_t.mk "DISPID_GLOBAL_FILTER" (some (Proc.stub Stub.Global_Filter)) 0 2 4,
  builtin_prop_t.mk "DISPID_GLOBAL_JOIN" (some (Proc.stub Stub.Global_Join)) 0 1 2,
  builtin_prop_t.mk "DISPID_GLOBAL_SPLIT" (some (Proc.stub Stub.Global_Split)) 0 1 4,
  builtin_prop_t.mk "DISPID_GLOBAL_REPLACE" (some (Proc.stub Stub.Global_Replace)) 0 3 6,
  builtin_prop_t.mk "DISPID_GLOBAL_STRREVERSE" (some Proc.Global_StrReverse) 0 1 0,
  builtin_prop_t.mk "DISPID_GLOBAL_INSTRREV" (some (Proc.stub Stub.Global_InStrRev)) 0 2 4,
  builtin_prop_t.mk "DISPID_GLOBAL_LOADPICTURE" (some (Proc.stub Stub.Global_LoadPicture)) 0 1 0,
  builtin_prop_t.mk "DISPID_GLOBAL_SCRIPTENGINE" (some (Proc.stub Stub.Global_ScriptEngine)) 0 0 0,
  builtin_prop_t.mk "DISPID_GLOBAL_SCRIPTENGINEMAJORVERSION" (some (Proc.stub Stub.Global_ScriptEngineMajorVersion)) 0 0 0,
  builtin_prop_t.mk "DISPID_GLOBAL_SCRIPTENGINEMINORVERSION" (some (Proc.stub Stub.Global_ScriptEngineMinorVersion)) 0 0 0,
  builtin_prop_t.mk "DISPID_GLOBAL_SCRIPTENGINEBUILDVERSION" (some (Proc.stub Stub.Global_ScriptEngineBuildVersion)) 0 0 0,
  builtin_prop_t.mk "DISPID_GLOBAL_FORMATNUMBER" (some (Proc.stub Stub.Global_FormatNumber)) 0 1 5,
  builtin_prop_t.mk "DISPID_GLOBAL_FORMATCURRENCY" (some (Proc.stub Stub.Global_FormatCurrency)) 0 1 5,
  builtin_prop_t.mk "DISPID_GLOBAL_FORMATPERCENT" (some (Proc.stub Stub.Global_FormatPercent)) 0 1 5,
  builtin_prop_t.mk "DISPID_GLOBAL_FORMATDATETIME" (some (Proc.stub Stub.Global_FormatDateTime)) 0 1 2,
  builtin_prop_t.mk "DISPID_GLOBAL_WEEKDAYNAME" (some Proc.Global_WeekdayName) 0 1 3,
  builtin_prop_t.mk "DISPID_GLOBAL_MONTHNAME" (some Proc.Global_MonthName) 0 1 2,
  builtin_prop_t.mk "DISPID_GLOBAL_ROUND" (some Proc.Global_Round) 0 1 2,
  builtin_prop_t.mk "DISPID_GLOBAL_ESCAPE" (some (Proc.stub Stub.Global_Escape)) 0 1 0,
  builtin_prop_t.mk "DISPID_GLOBAL_UNESCAPE" (some (Proc.stub Stub.Global_Unescape)) 0 1 0,
  builtin_prop_t.mk "DISPID_GLOBAL_EVAL" (some (Proc.stub Stub.Global_Eval)) 0 1 0,
  builtin_prop_t.mk "DISPID_GLOBAL_EXECUTE" (some (Proc.stub Stub.Global_Execute)) 0 1 0,
  builtin_prop_t.mk "DISPID_GLOBAL_EXECUTEGLOBAL" (some (Proc.stub Stub.Global_ExecuteGlobal)) 0 1 0,
  builtin_prop_t.mk "DISPID_GLOBAL_GETREF" (some (Proc.stub Stub.Global_GetRef)) 0 1 0,
  builtin_prop_t.mk "DISPID_GLOBAL_VBMSGBOXHELPBUTTON" (some (Proc.stub Stub.Global_vbMsgBoxHelpButton)) BP_GET 0 0,
  builtin_prop_t.mk "DISPID_GLOBAL_VBMSGBOXSETFOREGROUND" (some (Proc.stub Stub.Global_vbMsgBoxSetForeground)) BP_GET 0 0,
  builtin_prop_t.mk "DISPID_GLOBAL_VBMSGBOXRIGHT" (some (Proc.stub Stub.Global_vbMsgBoxRight)) BP_GET 0 0,
  builtin_prop_t.mk "DISPID_GLOBAL_VBMSGBOXRTLREADING" (some (Proc.stub Stub.Global_vbMsgBoxRtlReading)) BP_GET 0 0
]

/-- Modelled from the spec: the argument counts an entry with a handler
accepts.  The table stores them as the range `min_args..max_args`, a `max_args`
of zero standing for `min_args`. -/
def allowed_arg_counts (e : builtin_prop_t) (argn : Nat) : Bool :=
  decide (e.min_args ≤ argn ∧ argn ≤ (if e.max_args = 0 then e.min_args else e.max_args))

/-- Modelled from the spec: what `invoke` reports. -/
inductive Invoked
  | NotFound
  | ArityMismatch
  | constant (out : Option VARIANT)
  | handler (o : Outcome)
  deriving DecidableEq

/-- Modelled from the spec: the result of `invoke` and the handler calls it
made, in order. -/
structure InvokeResult where
  result : Invoked
  calls : List (Proc × List VARIANT)

/-- Modelled from the spec: `invoke(id, args, out)`, the dispatcher over the
builtin table (it lives in `vbdisp.c`, outside the translation unit).  Look up
`id` and fail with NotFound if absent; a constant is written through `out`
whatever the argument count; otherwise an argument count outside the allowed
ones fails with ArityMismatch before the handler runs; otherwise the handler is
called with `(args, out)` and its result propagated.  `run` is how a handler
executes. -/
def invoke (run : Proc → List VARIANT → Option VARIANT → Outcome)
    (table : List builtin_prop_t) (id : DISPID) (args : List VARIANT)
    (out : Option VARIANT) : InvokeResult :=
  match table.find? (fun e => e.id == id) with
  | none => ⟨Invoked.NotFound, []⟩
  | some e =>
    match e.proc with
    | none => ⟨Invoked.constant (return_short out e.min_args).2, []⟩
    | some proc =>
      if allowed_arg_counts e args.length = false then ⟨Invoked.ArityMismatch, []⟩
      else ⟨Invoked.handler (run proc args out), [(proc, args)]⟩

/-! ## Object creation -/

/-- A COM interface pointer or handle; `NULL` is `0`. -/
abbrev PTR := Nat

def NULL : PTR := 0

/-- A class id. -/
abbrev GUID := Nat

def SUCCEEDED (hr : HRESULT) : Bool := !FAILED hr

/-- The safety option bit of `objsafe.h` that asks for the security manager. -/
def INTERFACE_USES_SECURITY_MANAGER : Nat := 8

/-- The URL policy and action values of `urlmon.h`. -/
def URLPOLICY_ALLOW : Nat := 0
def URLPOLICY_DISALLOW : Nat := 3
def URLACTION_ACTIVEX_RUN : Nat := 0x1200

/-- The interfaces asked for through `QueryInterface`. -/
inductive IID
  | IServiceProvider
  | IClassFactoryEx
  | IObjectWithSite
  | IDispatch
  | IActiveScriptSiteUIControl
  | IActiveScriptSiteWindow
  deriving DecidableEq

/-- The fields of the script context used here (`script_ctx_t` is declared in
`vbscript.h`): the host site, the cached security manager, the safety options. -/
structure script_ctx_t where
  site : PTR
  secmgr : PTR
  safeopt : Nat
  deriving DecidableEq

/-- The calls made to the host and to COM, as they appear in a trace. -/
inductive Event
  | CLSIDFromProgID (progid : BSTR)
  | QueryInterface (p : PTR) (iid : IID)
  | QueryService (sp : PTR)
  | Release (p : PTR)
  | ProcessUrlAction (secmgr : PTR) (action : Nat) (guid : GUID)
  | CoGetClassObject (guid : GUID)
  | CreateInstance (cf : PTR)
  | QueryCustomPolicy (secmgr : PTR) (guid : GUID) (obj : PTR)
  | CoTaskMemFree
  | create_ax_site
  | SetSite (obj_site : PTR) (ax_site : PTR)
  deriving DecidableEq

/-- The answers of the host and of COM: for each call its `HRESULT` and what
it hands back. -/
structure Host where
  CLSIDFromProgID : BSTR → HRESULT × GUID
  QueryInterface : PTR → IID → HRESULT × PTR
  /-- The call `IServiceProvider_QueryService` for the host security manager. -/
  QueryService : PTR → HRESULT × PTR
  /-- The call `ProcessUrlAction(secmgr, URLACTION_ACTIVEX_RUN, &policy, ..., &guid, ...)`:
  its `HRESULT` and the policy it wrote, `none` when it left the buffer alone. -/
  ProcessUrlAction : PTR → GUID → HRESULT × Option Nat
  CoGetClassObject : GUID → HRESULT × PTR
  CreateInstance : PTR → HRESULT × PTR
  /-- The call `QueryCustomPolicy(secmgr, GUID_CUSTOM_CONFIRMOBJECTSAFETY, &bpolicy,
  &policy_size, &cs, ...)` with `cs = (guid, obj)`: its `HRESULT` and the bytes
  of the policy buffer (`policy_size` of them). -/
  QueryCustomPolicy : PTR → GUID → PTR → HRESULT × List Nat
  /-- The site made by `create_ax_site(ctx)` (defined in `vbscript.c`), `NULL` on failure. -/
  create_ax_site : script_ctx_t → PTR
  SetSite : PTR → PTR → HRESULT

/-- What `get_sec_mgr` returns, the context as it leaves it, and its calls. -/
structure SecMgr where
  secmgr : PTR
  ctx : script_ctx_t
  trace : List Event

def get_sec_mgr (host : Host) (ctx : script_ctx_t) : SecMgr :=
  if ctx.site = NULL then ⟨NULL, ctx, []⟩
  else if ctx.secmgr ≠ NULL then ⟨ctx.secmgr, ctx, []⟩
  else
    let r := host.QueryInterface ctx.site IID.IServiceProvider
    if FAILED r.1 then ⟨NULL, ctx, [Event.QueryInterface ctx.site IID.IServiceProvider]⟩
    else
      let sp := r.2
      let q := host.QueryService sp
      let trace := [Event.QueryInterface ctx.site IID.IServiceProvider, Event.QueryService sp,
        Event.Release sp]
      if FAILED q.1 then ⟨NULL, ctx, trace⟩
      else ⟨q.2, { ctx with secmgr := q.2 }, trace⟩

/-- The state after lines 239-249 of `create_object`: whether the function goes
on (`passed = false` is `return NULL`), the local `secmgr`, the context, the
calls made. -/
structure PolicyCheck where
  passed : Bool
  secmgr : PTR
  ctx : script_ctx_t
  trace : List Event

/-- Lines 239-249 of `create_object`: the policy check. -/
def create_object_policy_check (host : Host) (ctx : script_ctx_t) (guid : GUID) : PolicyCheck :=
  if ctx.safeopt &&& INTERFACE_USES_SECURITY_MANAGER ≠ 0 then
    let s := get_sec_mgr host ctx
    if s.secmgr = NULL then ⟨false, NULL, s.ctx, s.trace⟩
    else
      let r := host.ProcessUrlAction s.secmgr guid
      let policy := r.2.getD 0
      let trace := s.trace ++ [Event.ProcessUrlAction s.secmgr URLACTION_ACTIVEX_RUN guid]
      if FAILED r.1 ∨ policy ≠ URLPOLICY_ALLOW then ⟨false, s.secmgr, s.ctx, trace⟩
      else ⟨true, s.secmgr, s.ctx, trace⟩
  else ⟨true, NULL, ctx, []⟩

/-- The value `*(DWORD*)bpolicy` of a buffer of at least four bytes. -/
def read_DWORD (bpolicy : List Nat) : Nat :=
  bpolicy.getD 0 0 + 256 * bpolicy.getD 1 0 + 65536 * bpolicy.getD 2 0
    + 16777216 * bpolicy.getD 3 0

/-- Lines 265-280 of `create_object`: the object-safety confirmation, entered
with the `policy` left by the policy check.  `false` is the path that releases
the object and returns NULL; the calls made come with it. -/
def create_object_confirm_safety (host : Host) (secmgr : PTR) (guid : GUID) (obj : PTR)
    (policy : Nat) : Bool × List Event :=
  if secmgr ≠ NULL then
    let r := host.QueryCustomPolicy secmgr guid obj
    let policy :=
      if SUCCEEDED r.1 then
        (if r.2.length ≥ 4 then read_DWORD r.2 else URLPOLICY_DISALLOW)
      else policy
    let trace := [Event.QueryCustomPolicy secmgr guid obj]
      ++ (if SUCCEEDED r.1 then [Event.CoTaskMemFree] else [])
    if FAILED r.1 ∨ policy ≠ URLPOLICY_ALLOW then (false, trace ++ [Event.Release obj])
    else (true, trace)
  else (true, [])

/-- Lines 282-296 of `create_object`: binding the site.  `false` is the path
that releases the object and returns NULL. -/
def create_object_bind_site (host : Host) (ctx : script_ctx_t) (obj : PTR) : Bool × List Event :=
  let r := host.QueryInterface obj IID.IObjectWithSite
  if SUCCEEDED r.1 then
    let obj_site := r.2
    let ax_site := host.create_ax_site ctx
    let hres := if ax_site ≠ NULL then host.SetSite obj_site ax_site else r.1
    let trace := [Event.QueryInterface obj IID.IObjectWithSite, Event.create_ax_site]
      ++ (if ax_site ≠ NULL then [Event.SetSite obj_site ax_site, Event.Release ax_site] else [])
      ++ [Event.Release obj_site]
    if ax_site = NULL ∨ FAILED hres then (false, trace ++ [Event.Release obj])
    else (true, trace)
  else (true, [Event.QueryInterface obj IID.IObjectWithSite])

/-- What `create_object` returns (`NULL` on failure), the context as it leaves
it, and the calls it made, in order. -/
structure Created where
  obj : PTR
  ctx : script_ctx_t
  trace : List Event

/-- The function `create_object(ctx, progid)`.  The class factory `cf` is not
released on any path.  When the safety confirmation is entered with a manager,
the local `policy` still holds what the policy check left in it, which is
`URLPOLICY_ALLOW` since the check passed. -/
def create_object (host : Host) (ctx : script_ctx_t) (progid : BSTR) : Created :=
  let r := host.CLSIDFromProgID progid
  let t0 := [Event.CLSIDFromProgID progid]
  if FAILED r.1 then ⟨NULL, ctx, t0⟩
  else
    let guid := r.2
    let pc := create_object_policy_check host ctx guid
    let t1 := t0 ++ pc.trace
    if pc.passed = false then ⟨NULL, pc.ctx, t1⟩
    else
      let rcf := host.CoGetClassObject guid
      let t2 := t1 ++ [Event.CoGetClassObject guid]
      if FAILED rcf.1 then ⟨NULL, pc.ctx, t2⟩
      else
        let cf := rcf.2
        let rex := host.QueryInterface cf IID.IClassFactoryEx
        let t3 := t2 ++ [Event.QueryInterface cf IID.IClassFactoryEx]
          ++ (if SUCCEEDED rex.1 then [Event.Release rex.2] else [])
        let rci := host.CreateInstance cf
        let t4 := t3 ++ [Event.CreateInstance cf]
        if FAILED rci.1 then ⟨NULL, pc.ctx, t4⟩
        else
          let obj := rci.2
          let sc := create_object_confirm_safety host pc.secmgr guid obj URLPOLICY_ALLOW
          let t5 := t4 ++ sc.2
          if sc.1 = false then ⟨NULL, pc.ctx, t5⟩
          else
            let sb := create_object_bind_site host pc.ctx obj
            let t6 := t5 ++ sb.2
            if sb.1 = false then ⟨NULL, pc.ctx, t6⟩
            else ⟨obj, pc.ctx, t6⟩

/-- Whether a call is part of class activation: requesting the class object or
creating an instance. -/
def Event.is_activation (ev : Event) : Bool :=
  match ev with
  | Event.CoGetClassObject _ => true
  | Event.CreateInstance _ => true
  | _ => false

def E_INVALIDARG : HRESULT := 0x80070057
def VB_E_CANNOT_CREATE_OBJ : HRESULT := 0x800a01ad

/-- What `Global_CreateObject` does: its outcome, with the slot as far as its
tag tells; the pointer `QueryInterface` stored in `V_DISPATCH(res)` on the path
that returns before the tag is written (`none` on every other path); the
context; the calls made, in order. -/
structure CreateObjectResult where
  outcome : Outcome
  payload_written : Option PTR
  ctx : script_ctx_t
  trace : List Event

/-- The handler `Global_CreateObject`, run in the script context `ctx`
(`This->desc->ctx`). -/
def Global_CreateObject (host : Host) (ctx : script_ctx_t) (args : List VARIANT)
    (res : Option VARIANT) : CreateObjectResult :=
  match args with
  | arg :: _ =>
    match arg with
    | VT_BSTR progid =>
      let c := create_object host ctx progid
      if c.obj = NULL then ⟨Outcome.ret VB_E_CANNOT_CREATE_OBJ res, none, c.ctx, c.trace⟩
      else
        match res with
        | some v =>
          let r := host.QueryInterface c.obj IID.IDispatch
          let t := c.trace ++ [Event.QueryInterface c.obj IID.IDispatch]
          if FAILED r.1 then ⟨Outcome.ret r.1 (some v), some r.2, c.ctx, t⟩
          else ⟨Outcome.ret S_OK (some (VT_DISPATCH r.2)), none, c.ctx, t ++ [Event.Release c.obj]⟩
        | none => ⟨Outcome.ret S_OK none, none, c.ctx, c.trace ++ [Event.Release c.obj]⟩
    | _ => ⟨Outcome.ret E_INVALIDARG res, none, ctx, []⟩
  | [] => ⟨Outcome.undefined, none, ctx, []⟩

/-! ### References held during object creation -/

/-- The roles of the interface pointers object creation deals with. -/
inductive Ref
  | sp
  | secmgr
  | cf
  | cfex
  | obj
  | obj_site
  | ax_site
  | disp
  deriving DecidableEq

/-- A reference taken (a call that hands out an interface pointer succeeded)
or dropped (a `Release` call) on the pointer of a role. -/
inductive RefEvent
  | acquire (r : Ref)
  | release (r : Ref)
  deriving DecidableEq

/-- The references `get_sec_mgr` takes and drops: the service provider is
released, the security manager is kept in the context. -/
def get_sec_mgr_refs (host : Host) (ctx : script_ctx_t) : List RefEvent :=
  if ctx.site = NULL then []
  else if ctx.secmgr ≠ NULL then []
  else
    let r := host.QueryInterface ctx.site IID.IServiceProvider
    if FAILED r.1 then []
    else
      let q := host.QueryService r.2
      [RefEvent.acquire Ref.sp] ++ (if FAILED q.1 then [] else [RefEvent.acquire Ref.secmgr])
        ++ [RefEvent.release Ref.sp]

/-- The references lines 239-249 of `create_object` take and drop. -/
def create_object_policy_check_refs (host : Host) (ctx : script_ctx_t) : List RefEvent :=
  if ctx.safeopt &&& INTERFACE_USES_SECURITY_MANAGER ≠ 0 then get_sec_mgr_refs host ctx
  else []

/-- The references lines 265-280 of `create_object` drop: the object, on the
path that returns NULL. -/
def create_object_confirm_safety_refs (host : Host) (secmgr : PTR) (guid : GUID) (obj : PTR)
    (policy : Nat) : List RefEvent :=
  if (create_object_confirm_safety host secmgr guid obj policy).1 = false then
    [RefEvent.release Ref.obj]
  else []

/-- The references lines 282-296 of `create_object` take and drop. -/
def create_object_bind_site_refs (host : Host) (ctx : script_ctx_t) (obj : PTR) :
    List RefEvent :=
  let r := host.QueryInterface obj IID.IObjectWithSite
  if SUCCEEDED r.1 then
    let ax_site := host.create_ax_site ctx
    [RefEvent.acquire Ref.obj_site]
      ++ (if ax_site ≠ NULL then [RefEvent.acquire Ref.ax_site, RefEvent.release Ref.ax_site]
          else [])
      ++ [RefEvent.release Ref.obj_site]
      ++ (if (create_object_bind_site host ctx obj).1 = false then [RefEvent.release Ref.obj]
          else [])
  else []

/-- The references `create_object` takes and drops, in order. -/
def create_object_refs (host : Host) (ctx : script_ctx_t) (progid : BSTR) : List RefEvent :=
  let r := host.CLSIDFromProgID progid
  if FAILED r.1 then []
  else
    let guid := r.2
    let pc := create_object_policy_check host ctx guid
    let l1 := create_object_policy_check_refs host ctx
    if pc.passed = false then l1
    else
      let rcf := host.CoGetClassObject guid
      if FAILED rcf.1 then l1
      else
        let cf := rcf.2
        let rex := host.QueryInterface cf IID.IClassFactoryEx
        let l3 := l1 ++ [RefEvent.acquire Ref.cf]
          ++ (if SUCCEEDED rex.1 then [RefEvent.acquire Ref.cfex, RefEvent.release Ref.cfex]
              else [])
        let rci := host.CreateInstance cf
        if FAILED rci.1 then l3
        else
          let obj := rci.2
          let l5 := l3 ++ [RefEvent.acquire Ref.obj]
            ++ create_object_confirm_safety_refs host pc.secmgr guid obj URLPOLICY_ALLOW
          if (create_object_confirm_safety host pc.secmgr guid obj URLPOLICY_ALLOW).1 = false
          then l5
          else l5 ++ create_object_bind_site_refs host pc.ctx obj

/-- The references `Global_CreateObject` takes and drops, in order. -/
def Global_CreateObject_refs (host : Host) (ctx : script_ctx_t) (args : List VARIANT)
    (res : Option VARIANT) : List RefEvent :=
  match args with
  | arg :: _ =>
    match arg with
    | VT_BSTR progid =>
      let c := create_object host ctx progid
      let l := create_object_refs host ctx progid
      if c.obj = NULL then l
      else
        match res with
        | some _ =>
          let r := host.QueryInterface c.obj IID.IDispatch
          if FAILED r.1 then l
          else l ++ [RefEvent.acquire Ref.disp, RefEvent.release Ref.obj]
        | none => l ++ [RefEvent.release Ref.obj]
    | _ => []
  | [] => []

/-- Whether a ledger entry drops a reference. -/
def RefEvent.is_release (e : RefEvent) : Bool :=
  match e with
  | RefEvent.release _ => true
  | RefEvent.acquire _ => false

/-- Whether a call is a `Release`. -/
def Event.is_release (ev : Event) : Bool :=
  match ev with
  | Event.Release _ => true
  | _ => false

/-- The references of a role still held after a run: taken minus dropped. -/
def outstanding (r : Ref) (l : List RefEvent) : Int :=
  (l.count (RefEvent.acquire r) : Int) - (l.count (RefEvent.release r) : Int)

/-! ## Message box -/

/-- The UI handling values and the message-box item of `activscp.h`. -/
def SCRIPTUICHANDLING_ALLOW : Nat := 0
def SCRIPTUICHANDLING_NOUIERROR : Nat := 1
def SCRIPTUICHANDLING_NOUIDEFAULT : Nat := 2
def SCRIPTUICITEM_MSGBOX : Nat := 2

/-- The answers of the host site to the UI calls, and of the window system. -/
structure SiteUI where
  /-- The call `GetUIBehavior(ui_control, SCRIPTUICITEM_MSGBOX, &uic_handling)`: its
  `HRESULT` and the handling it wrote, `none` when it left the variable alone. -/
  GetUIBehavior : PTR → HRESULT × Option Nat
  GetWindow : PTR → HRESULT × PTR
  EnableModeless : PTR → Bool → HRESULT
  MessageBoxW : PTR → BSTR → List WCHAR → Int

/-- The title strings: `emptyW` is empty, `vbscriptW` spells VBScript. -/
def emptyW : List WCHAR := []
def vbscriptW : List WCHAR := [86, 66, 83, 99, 114, 105, 112, 116]

/-- The calls `show_msgbox` makes, as they appear in a trace. -/
inductive UIEvent
  | QueryInterface (p : PTR) (iid : IID)
  | GetUIBehavior (ui_control : PTR)
  | Release (p : PTR)
  | GetWindow (acts_window : PTR)
  | EnableModeless (acts_window : PTR) (enable : Bool)
  | MessageBoxW (hwnd : PTR) (prompt : BSTR) (title : List WCHAR)
  deriving DecidableEq

/-- Whether a call touches the host window: asking the site for its window
interface, any call on that interface, or the message box. -/
def UIEvent.touches_window (ev : UIEvent) : Bool :=
  match ev with
  | UIEvent.QueryInterface _ IID.IActiveScriptSiteWindow => true
  | UIEvent.GetWindow _ => true
  | UIEvent.EnableModeless _ _ => true
  | UIEvent.MessageBoxW _ _ _ => true
  | _ => false

/-- Whether a call changes the modeless state or shows the message box. -/
def UIEvent.is_prompt_step (ev : UIEvent) : Bool :=
  match ev with
  | UIEvent.EnableModeless _ _ => true
  | UIEvent.MessageBoxW _ _ _ => true
  | _ => false

/-- Whether a call is one that belongs after a successful disabling of the
modeless state: the message box or the request to enable again. -/
def UIEvent.needs_disabled (ev : UIEvent) : Bool :=
  match ev with
  | UIEvent.EnableModeless _ true => true
  | UIEvent.MessageBoxW _ _ _ => true
  | _ => false

/-- What `show_msgbox` does and the calls it made, in order. -/
structure MsgBox where
  outcome : Outcome
  trace : List UIEvent

/-- Lines 303-317 of `show_msgbox`: the UI handling in force and the calls
made to find it. -/
def show_msgbox_handling (host : Host) (ui : SiteUI) (ctx : script_ctx_t) : Nat × List UIEvent :=
  let r := host.QueryInterface ctx.site IID.IActiveScriptSiteUIControl
  if SUCCEEDED r.1 then
    let ui_control := r.2
    let g := ui.GetUIBehavior ui_control
    let trace := [UIEvent.QueryInterface ctx.site IID.IActiveScriptSiteUIControl,
      UIEvent.GetUIBehavior ui_control, UIEvent.Release ui_control]
    if FAILED g.1 then (SCRIPTUICHANDLING_ALLOW, trace)
    else (g.2.getD SCRIPTUICHANDLING_ALLOW, trace)
  else (SCRIPTUICHANDLING_ALLOW, [UIEvent.QueryInterface ctx.site IID.IActiveScriptSiteUIControl])

/-- Lines 329-352 of `show_msgbox`: the prompt itself. -/
def show_msgbox_window (host : Host) (ui : SiteUI) (ctx : script_ctx_t) (prompt : BSTR)
    (res : Option VARIANT) : MsgBox :=
  let title : List WCHAR :=
    if ctx.safeopt &&& INTERFACE_USES_SECURITY_MANAGER ≠ 0 then vbscriptW else emptyW
  let r := host.QueryInterface ctx.site IID.IActiveScriptSiteWindow
  let t0 := [UIEvent.QueryInterface ctx.site IID.IActiveScriptSiteWindow]
  if FAILED r.1 then ⟨Outcome.ret r.1 res, t0⟩
  else
    let acts_window := r.2
    let w := ui.GetWindow acts_window
    let t1 := t0 ++ [UIEvent.GetWindow acts_window]
    if SUCCEEDED w.1 then
      let hwnd := w.2
      let d := ui.EnableModeless acts_window false
      let t2 := t1 ++ [UIEvent.EnableModeless acts_window false]
      if SUCCEEDED d then
        let ret := ui.MessageBoxW hwnd prompt title
        let e := ui.EnableModeless acts_window true
        let t3 := t2 ++ [UIEvent.MessageBoxW hwnd prompt title,
          UIEvent.EnableModeless acts_window true, UIEvent.Release acts_window]
        if FAILED e then ⟨Outcome.ret e res, t3⟩
        else ⟨Outcome.of (return_short res (to_short ret)), t3⟩
      else ⟨Outcome.ret d res, t2 ++ [UIEvent.Release acts_window]⟩
    else ⟨Outcome.ret w.1 res, t1 ++ [UIEvent.Release acts_window]⟩

/-- The function `show_msgbox(ctx, prompt, res)`.  The site pointer of the
context is dereferenced at once. -/
def show_msgbox (host : Host) (ui : SiteUI) (ctx : script_ctx_t) (prompt : BSTR)
    (res : Option VARIANT) : MsgBox :=
  if ctx.site = NULL then ⟨Outcome.undefined, []⟩
  else
    let h := show_msgbox_handling host ui ctx
    if h.1 = SCRIPTUICHANDLING_ALLOW then
      let m := show_msgbox_window host ui ctx prompt res
      ⟨m.outcome, h.2 ++ m.trace⟩
    else if h.1 = SCRIPTUICHANDLING_NOUIDEFAULT then ⟨Outcome.of (return_short res 0), h.2⟩
    else ⟨Outcome.ret E_FAIL res, h.2⟩

def Global_MsgBox (env : Env) (host : Host) (ui : SiteUI) (ctx : script_ctx_t)
    (args : List VARIANT) (res : Option VARIANT) : MsgBox :=
  if args.length ≠ 1 then ⟨Outcome.ret E_NOTIMPL res, []⟩
  else
    match args with
    | arg :: _ =>
      match to_string env arg with
      | Except.error hres => ⟨Outcome.ret hres res, []⟩
      | Except.ok prompt => show_msgbox host ui ctx prompt res
    | [] => ⟨Outcome.undefined, []⟩

/-! ## Space and Chr -/

def Global_Space (env : Env) (args : List VARIANT) (res : Option VARIANT) : Outcome :=
  match args with
  | arg :: _ =>
    match to_int arg with
    | Except.error hres => Outcome.ret hres res
    | Except.ok n =>
      if n < 0 then Outcome.ret E_NOTIMPL res
      else
        match res with
        | none => Outcome.ret S_OK none
        | some v =>
          if env.alloc_ok n.toNat = false then Outcome.ret E_OUTOFMEMORY (some v)
          else Outcome.ret S_OK (some (VT_BSTR (some (List.replicate n.toNat 32))))
  | [] => Outcome.undefined

def Global_Chr (env : Env) (args : List VARIANT) (res : Option VARIANT) : Outcome :=
  match args with
  | arg :: _ =>
    match to_int arg with
    | Except.error hres => Outcome.ret hres res
    | Except.ok c =>
      if c ≤ 0 ∨ c ≥ 0x100 then Outcome.ret E_FAIL res
      else
        match res with
        | none => Outcome.ret S_OK none
        | some _ =>
          if env.alloc_ok 1 = false then Outcome.ret E_OUTOFMEMORY (some (VT_BSTR none))
          else Outcome.ret S_OK (some (VT_BSTR (some [c.toNat])))
  | [] => Outcome.undefined

/-- Whether a call is the confirm-object-safety query. -/
def Event.is_safety_query (ev : Event) : Bool :=
  match ev with
  | Event.QueryCustomPolicy _ _ _ => true
  | _ => false

/-- Whether a call resolves or queries the host security manager: the request
for the service provider of the site, the query for the manager, and the two
questions put to it. -/
def Event.is_secmgr_call (ev : Event) : Bool :=
  match ev with
  | Event.QueryInterface _ IID.IServiceProvider => true
  | Event.QueryService _ => true
  | Event.ProcessUrlAction _ _ _ => true
  | Event.QueryCustomPolicy _ _ _ => true
  | _ => false

/-! ## Type tests, names of days and months -/

def VARIANT_TRUE : Int := -1
def VARIANT_FALSE : Int := 0

/-- The handler traces its argument, asserts the count, then tests the tag. -/
def Global_IsEmpty (args : List VARIANT) (res : Option VARIANT) : Outcome :=
  match args with
  | arg :: _ =>
    if args.length = 1 then
      match res with
      | some _ =>
        Outcome.ret S_OK (some (VT_BOOL (if arg = VT_EMPTY then VARIANT_TRUE else VARIANT_FALSE)))
      | none => Outcome.ret S_OK none
    else Outcome.assert_failed
  | [] => Outcome.undefined

def Global_IsNull (args : List VARIANT) (res : Option VARIANT) : Outcome :=
  match args with
  | arg :: _ =>
    if args.length = 1 then
      match res with
      | some _ =>
        Outcome.ret S_OK (some (VT_BOOL (if arg = VT_NULL then VARIANT_TRUE else VARIANT_FALSE)))
      | none => Outcome.ret S_OK none
    else Outcome.assert_failed
  | [] => Outcome.undefined

def Global_IsObject (args : List VARIANT) (res : Option VARIANT) : Outcome :=
  match args with
  | arg :: _ =>
    if args.length = 1 then
      match res with
      | some _ =>
        Outcome.ret S_OK (some (VT_BOOL
          (match arg with
           | VT_DISPATCH _ => VARIANT_TRUE
           | _ => VARIANT_FALSE)))
      | none => Outcome.ret S_OK none
    else Outcome.assert_failed
  | [] => Outcome.undefined

/-- The OLE Automation calls that name days and months (not in this
translation unit): `VarWeekdayName(weekday, abbrev, first_day, 0, &ret)` and
`VarMonthName(month, abbrev, 0, &ret)`, each with its `HRESULT` and the string
it hands out. -/
structure OleNames where
  VarWeekdayName : Int → Int → Int → HRESULT × BSTR
  VarMonthName : Int → Int → HRESULT × BSTR

def Global_WeekdayName (ole : OleNames) (args : List VARIANT) (res : Option VARIANT) :
    Outcome :=
  if 1 ≤ args.length ∧ args.length ≤ 3 then
    match args with
    | a0 :: rest =>
      match to_int a0 with
      | Except.error hres => Outcome.ret hres res
      | Except.ok weekday =>
        let opt : Option (Except HRESULT (Int × Int)) :=
          if args.length > 1 then
            match rest with
            | a1 :: rest2 =>
              match to_int a1 with
              | Except.error hres => some (Except.error hres)
              | Except.ok abbr =>
                if args.length = 3 then
                  match rest2 with
                  | a2 :: _ =>
                    match to_int a2 with
                    | Except.error hres => some (Except.error hres)
                    | Except.ok first_day => some (Except.ok (abbr, first_day))
                  | [] => none
                else some (Except.ok (abbr, 1))
            | [] => none
          else some (Except.ok (0, 1))
        match opt with
        | none => Outcome.undefined
        | some (Except.error hres) => Outcome.ret hres res
        | some (Except.ok (abbr, first_day)) =>
          let r := ole.VarWeekdayName weekday abbr first_day
          if FAILED r.1 then Outcome.ret r.1 res
          else Outcome.of (return_bstr res r.2)
    | [] => Outcome.undefined
  else Outcome.assert_failed

def Global_MonthName (ole : OleNames) (args : List VARIANT) (res : Option VARIANT) :
    Outcome :=
  if args.length = 1 ∨ args.length = 2 then
    match args with
    | a0 :: rest =>
      match to_int a0 with
      | Except.error hres => Outcome.ret hres res
      | Except.ok month =>
        let opt : Option (Except HRESULT Int) :=
          if args.length = 2 then
            match rest with
            | a1 :: _ =>
              match to_int a1 with
              | Except.error hres => some (Except.error hres)
              | Except.ok abbr => some (Except.ok abbr)
            | [] => none
          else some (Except.ok 0)
        match opt with
        | none => Outcome.undefined
        | some (Except.error hres) => Outcome.ret hres res
        | some (Except.ok abbr) =>
          let r := ole.VarMonthName month abbr
          if FAILED r.1 then Outcome.ret r.1 res
          else Outcome.of (return_bstr res r.2)
    | [] => Outcome.undefined
  else Outcome.assert_failed

/-! ## Argument counts of the handlers -/

/-- The `assert` a handler makes on `args_cnt`; `true` for a handler that makes
none. -/
def Proc.args_cnt_assertion (p : Proc) (args_cnt : Nat) : Bool :=
  match p with
  | Proc.Global_IsEmpty => args_cnt == 1
  | Proc.Global_IsNull => args_cnt == 1
  | Proc.Global_IsObject => args_cnt == 1
  | Proc.Global_Mid => args_cnt == 2 || args_cnt == 3
  | Proc.Global_InStr => decide (2 ≤ args_cnt ∧ args_cnt ≤ 4)
  | Proc.Global_WeekdayName => decide (1 ≤ args_cnt ∧ args_cnt ≤ 3)
  | Proc.Global_MonthName => args_cnt == 1 || args_cnt == 2
  | _ => true

/-- How far into the argument array a handler called with `args_cnt` reads, on
any of its paths: one more than the highest index `i` of an `arg[i]` (or
`args+i`) it evaluates, the arguments of its `TRACE` and `FIXME` included, and
`0` when it reads none.  A handler whose `assert` on `args_cnt` fails stops
there. -/
def Proc.args_read (p : Proc) (args_cnt : Nat) : Nat :=
  match p with
  | Proc.stub _ => 0
  | Proc.Global_CStr => 1
  | Proc.Global_Hex => 1
  | Proc.Global_IsEmpty => 1
  | Proc.Global_IsNull => 1
  | Proc.Global_IsObject => 1
  | Proc.Global_Len => 1
  | Proc.Global_Left => 2
  | Proc.Global_Right => 2
  | Proc.Global_Mid => if args_cnt = 3 then 3 else 2
  | Proc.Global_LCase => 1
  | Proc.Global_UCase => 1
  | Proc.Global_LTrim => 1
  | Proc.Global_RTrim => 1
  | Proc.Global_Trim => 1
  | Proc.Global_Space => 1
  | Proc.Global_InStr =>
    if args_cnt = 2 then 2 else if args_cnt = 3 then 3 else if args_cnt = 4 then 1 else 0
  | Proc.Global_Chr => 1
  | Proc.Global_Now => 0
  | Proc.Global_MsgBox => if args_cnt = 1 then 1 else 0
  | Proc.Global_CreateObject => 1
  | Proc.Global_StrReverse => 1
  | Proc.Global_WeekdayName =>
    if 1 ≤ args_cnt ∧ args_cnt ≤ 3 then
      (if args_cnt > 1 then (if args_cnt = 3 then 3 else 2) else 1)
    else 0
  | Proc.Global_MonthName =>
    if args_cnt = 1 ∨ args_cnt = 2 then (if args_cnt = 2 then 2 else 1) else 0
  | Proc.Global_Round => 1

/-- Whether a table entry keeps its handler inside the argument array: for
every count the entry allows, the handler's assertion holds and it reads no
argument at or past the count. -/
def builtin_prop_t.args_in_bounds (e : builtin_prop_t) : Bool :=
  match e.proc with
  | none => true
  | some p =>
    (List.range (max e.min_args e.max_args + 1)).all (fun n =>
      !allowed_arg_counts e n || (p.args_cnt_assertion n && decide (p.args_read n ≤ n)))

/-! ## Hex -/

def hex_char (n : Nat) : WCHAR := if n < 10 then 48 + n else 65 + n - 10

/-- The loop `do { *ptr-- = hex_char(n & 0xf); n >>= 4; } while(n);` followed by
`ptr++`, on the buffer `buf` with `ptr = buf + i`: the final `ptr - buf` and the
buffer, or `none` when a write falls before the buffer.  A cell of the buffer
is `none` until it is written. -/
def Global_Hex_loop : Nat → List (Option WCHAR) → Nat → Option (Nat × List (Option WCHAR))
  | n, buf, 0 =>
    if n >>> 4 = 0 then some (0, buf.set 0 (some (hex_char (n &&& 0xf)))) else none
  | n, buf, i + 1 =>
    if n >>> 4 = 0 then some (i + 1, buf.set (i + 1) (some (hex_char (n &&& 0xf))))
    else Global_Hex_loop (n >>> 4) (buf.set (i + 1) (some (hex_char (n &&& 0xf)))) i

/-- The NUL-terminated string read from a buffer: `none` when the read meets a
cell never written or the end of the buffer before a NUL. -/
def read_string : List (Option WCHAR) → Option (List WCHAR)
  | [] => none
  | none :: _ => none
  | some c :: rest => if c = 0 then some [] else (read_string rest).map (fun t => c :: t)

def Global_Hex (env : Env) (args : List VARIANT) (res : Option VARIANT) : Outcome :=
  match args with
  | arg :: _ =>
    let sel : Except Outcome Nat :=
      match arg with
      | VT_I2 v => Except.ok (v % 65536).toNat
      | VT_I4 v => Except.ok (v % 4294967296).toNat
      | VT_EMPTY => Except.ok 0
      | VT_NULL =>
        Except.error
          (match res with
           | some _ => Outcome.ret S_OK (some VT_NULL)
           | none => Outcome.ret S_OK none)
      | _ => Except.error (Outcome.ret E_NOTIMPL res)
    match sel with
    | Except.error o => o
    | Except.ok n =>
      let buf : List (Option WCHAR) := List.replicate 16 none ++ [some 0]
      let filled : Option (Nat × List (Option WCHAR)) :=
        if n ≠ 0 then Global_Hex_loop n buf 15
        else some (15, buf.set 15 (some 48))
      match filled with
      | none => Outcome.undefined
      | some (ptr, buf) =>
        match read_string (buf.drop ptr) with
        | none => Outcome.undefined
        | some str => Outcome.of (return_string env res str)
  | [] => Outcome.undefined

/-! ## Test data -/

/-- An environment for concrete runs: every allocation succeeds, a string
converts to itself and anything else is refused, and the spaces are the ASCII
ones. -/
def env0 : Env where
  alloc_ok := fun _ => true
  VariantChangeType_BSTR := fun v =>
    match v with
    | VT_BSTR s => (S_OK, s)
    | _ => (0x80020005, none)
  isspaceW := fun c => c == 32 || (9 ≤ c && c ≤ 13)

/-- The code units of an ASCII string literal. -/
def wstr (s : String) : List WCHAR := s.toList.map Char.toNat

/-- A host for concrete runs: every call succeeds, pointers are told apart by
their numbers, and the security manager answers with the given activation
policy and confirms object safety. -/
def host0 (policy : Nat) : Host where
  CLSIDFromProgID := fun _ => (S_OK, 7)
  QueryInterface := fun p iid =>
    match iid with
    | IID.IServiceProvider => (S_OK, p + 100)
    | IID.IClassFactoryEx => (0x80004002, NULL)
    | IID.IObjectWithSite => (0x80004002, NULL)
    | _ => (S_OK, p + 200)
  QueryService := fun sp => (S_OK, sp + 1)
  ProcessUrlAction := fun _ _ => (S_OK, some policy)
  CoGetClassObject := fun _ => (S_OK, 50)
  CreateInstance := fun _ => (S_OK, 60)
  QueryCustomPolicy := fun _ _ _ => (S_OK, [0, 0, 0, 0])
  create_ax_site := fun _ => 70
  SetSite := fun _ _ => S_OK

/-- A script context with a host site, no cached security manager, and the
security manager required. -/
def ctx0 : script_ctx_t := ⟨1, NULL, 8⟩

/-- A host like `host0 0` whose objects refuse the dispatch interface. -/
def host_no_dispatch : Host :=
  { host0 0 with
    QueryInterface := fun p iid =>
      match iid with
      | IID.IServiceProvider => (S_OK, p + 100)
      | _ => (0x80004002, NULL) }

/-- A host like `host0 0` that knows no program id. -/
def host_no_progid : Host :=
  { host0 0 with CLSIDFromProgID := fun _ => (0x800401F3, 0) }

/-- A host like `host0 0` that has no class object to give. -/
def host_no_class : Host :=
  { host0 0 with CoGetClassObject := fun _ => (0x80040154, NULL) }

/-- A host like `host0 0` whose objects accept a site. -/
def host_with_site : Host :=
  { host0 0 with
    QueryInterface := fun p iid =>
      match iid with
      | IID.IServiceProvider => (S_OK, p + 100)
      | IID.IClassFactoryEx => (0x80004002, NULL)
      | _ => (S_OK, p + 200) }

/-- A host like `host_with_site` that cannot make a site. -/
def host_no_site : Host :=
  { host_with_site with create_ax_site := fun _ => NULL }

/-- A host like `host0 0` whose security manager refuses to confirm object
safety. -/
def host_unsafe_object : Host :=
  { host0 0 with QueryCustomPolicy := fun _ _ _ => (S_OK, [3, 0, 0, 0]) }

/-- A site whose UI control answers with the given handling, with a window, and
where every call succeeds; the message box returns `IDOK`. -/
def ui0 (handling : Nat) : SiteUI where
  GetUIBehavior := fun _ => (S_OK, some handling)
  GetWindow := fun _ => (S_OK, 90)
  EnableModeless := fun _ _ => S_OK
  MessageBoxW := fun _ _ _ => 1

/-- A host like `host0 0` whose security manager answers the activation-policy
question with success and writes no policy. -/
def host_silent : Host :=
  { host0 0 with ProcessUrlAction := fun _ _ => (S_OK, none) }

/-- A host like `host_silent` whose security manager has different answers to
everything. -/
def host_other_secmgr : Host :=
  { host0 0 with
    QueryService := fun _ => (0x80004005, NULL)
    ProcessUrlAction := fun _ _ => (0x80004005, some 3)
    QueryCustomPolicy := fun _ _ _ => (0x80004005, []) }

/-- A script context with a host site that does not ask for the security
manager. -/
def ctx_plain : script_ctx_t := ⟨1, NULL, 0⟩

/-- Names of days and months for concrete runs. -/
def ole0 : OleNames where
  VarWeekdayName := fun _ _ _ => (S_OK, some (wstr "Monday"))
  VarMonthName := fun _ _ => (S_OK, some (wstr "May"))

/-- A site like `ui0 2` whose behaviour query fails. -/
def ui_no_answer : SiteUI :=
  { ui0 2 with GetUIBehavior := fun _ => (0x80004005, some 2) }

/-- An environment without memory left for strings. -/
def env_oom : Env :=
  { env0 with alloc_ok := fun _ => false }

end VBScript

/-! ## The cabinet library: Extract -/

namespace Cabinet

open VBScript

/-- The members of `EXTRACTdest` (declared in `cabinet.h`) that `Extract`
documents: strings are the bytes of a NUL-terminated buffer. -/
structure EXTRACTdest where
  filelist : PTR
  filecount : Nat
  flags : Nat
  directory : List Nat
  lastfile : List Nat

/-- The collaborators of `Extract`: whether `LocalAlloc` can provide that many
bytes, and `process_cabinet(szCabName, dir, FALSE, FALSE, dest)` of
`cabextract.c`, with its result and the `dest` it leaves. -/
structure CabEnv where
  LocalAlloc : Nat → Bool
  process_cabinet : List Nat → List Nat → EXTRACTdest → Bool × EXTRACTdest

/-- The function `Extract(dest, szCabName)`: its `HRESULT` and the structure
behind `dest` afterwards (`none` for a NULL `dest`). -/
def Extract (env : CabEnv) (dest : Option EXTRACTdest) (szCabName : List Nat) :
    HRESULT × Option EXTRACTdest :=
  match dest with
  | none => (E_OUTOFMEMORY, none)
  | some d =>
    if env.LocalAlloc ((c_string d.directory).length + 1) = false then (E_OUTOFMEMORY, some d)
    else
      let dir := c_string d.directory
      let d1 := { d with filecount := 0, filelist := NULL }
      let r := env.process_cabinet szCabName dir d1
      if r.1 = false then (E_OUTOFMEMORY, some r.2)
      else (S_OK, some r.2)

/-- A destination for concrete runs. -/
def dest0 : EXTRACTdest := ⟨NULL, 5, 1, wstr "c:\\out", []⟩

/-- Collaborators for concrete runs: whether memory can be had, and whether
the cabinet can be processed (one file is then listed). -/
def cab0 (mem ok : Bool) : CabEnv where
  LocalAlloc := fun _ => mem
  process_cabinet := fun _ _ d => (ok, { d with filecount := 1 })

end Cabinet

/-! ## Lemmas on the memory model -/

namespace VBScript

open VARIANT

theorem read_units_inside (s : List WCHAR) (off len : Nat) (h : off + len ≤ s.length) :
    read_units (some s) (off : Int) (len : Int) = some ((s.drop off).take len) := by
  unfold read_units
  by_cases hl : len = 0
  · subst hl; simp
  · have h1 : ¬ ((len : Int) = 0) := by exact_mod_cast hl
    have h2 : (0 : Int) ≤ off ∧ (0 : Int) ≤ len ∧ (off : Int) + len ≤ (s.length : Int) + 1 := by
      refine ⟨by positivity, by positivity, ?_⟩
      have : ((off + len : Nat) : Int) ≤ (s.length : Int) := by exact_mod_cast h
      push_cast at this
      omega
    rw [if_neg h1]
    simp only [h2, and_self, if_true, Int.toNat_ofNat]
    congr 1
    rw [List.drop_append_of_le_length (by omega)]
    rw [List.take_append_of_le_length (by simp; omega)]

theorem SysAllocStringLen_inside (env : Env) (s : List WCHAR) (off len : Nat)
    (hmem : env.alloc_ok len = true) (h : off + len ≤ s.length) :
    SysAllocStringLen env (some s) (off : Int) (len : Int) = Alloc.str ((s.drop off).take len) := by
  unfold SysAllocStringLen
  have h1 : ¬ ((len : Int) < 0) := by omega
  rw [if_neg h1]
  simp only [Int.toNat_ofNat, hmem, Bool.true_eq_false, if_false, read_units_inside s off len h]

/-! ## Left -/

/-- C1: for every string `s` and every length argument that `to_int` coerces to
an integer `n >= 0`, `Left(s, n)` succeeds (the allocator providing the result
buffer) and stores exactly the first `min(n, len(s))` code units of `s`, a
string of length `min(n, len(s))`. -/
theorem Global_Left_first_units (env : Env) (s : List WCHAR) (lenv : VARIANT) (n : Int)
    (res : Option VARIANT) (hn : to_int lenv = Except.ok n) (h0 : 0 ≤ n)
    (hmem : env.alloc_ok (min n.toNat s.length) = true) :
    Global_Left env [VT_BSTR (some s), lenv] res
        = Outcome.ret S_OK (res.map (fun _ => VT_BSTR (some (s.take (min n.toNat s.length)))))
      ∧ (s.take (min n.toNat s.length)).length = min n.toNat s.length := by
  obtain ⟨k, rfl⟩ := Int.eq_ofNat_of_zero_le h0
  simp only [Int.toNat_ofNat] at hmem ⊢
  refine ⟨?_, by simp⟩
  have hneg : ¬ ((k : Int) < 0) := by omega
  simp only [Global_Left, hn, hneg, if_false, SysStringLen]
  by_cases hk : k ≤ s.length
  · have h1 : ¬ ((k : Int) > (s.length : Int)) := by push_neg; exact_mod_cast hk
    have hm : min k s.length = k := Nat.min_eq_left hk
    rw [hm] at hmem ⊢
    rw [if_neg h1]
    have := SysAllocStringLen_inside env s 0 k hmem (by omega)
    simp only [Nat.cast_zero, List.drop_zero] at this
    rw [this]
    cases res <;> rfl
  · have h1 : (k : Int) > (s.length : Int) := by push_neg at hk; exact_mod_cast hk
    have hm : min k s.length = s.length := Nat.min_eq_right (by omega)
    rw [hm] at hmem ⊢
    rw [if_pos h1]
    have := SysAllocStringLen_inside env s 0 s.length hmem (by omega)
    simp only [Nat.cast_zero, List.drop_zero] at this
    rw [this]
    cases res <;> rfl

theorem Global_Left_first_units_witness :
    Global_Left env0 [VT_BSTR (some (wstr "hello")), VT_I2 2] (some VT_EMPTY)
        = Outcome.ret S_OK ((some VT_EMPTY).map
            (fun _ => VT_BSTR (some ((wstr "hello").take (min (2 : Int).toNat (wstr "hello").length)))))
      ∧ ((wstr "hello").take (min (2 : Int).toNat (wstr "hello").length)).length
          = min (2 : Int).toNat (wstr "hello").length :=
  Global_Left_first_units env0 (wstr "hello") (VT_I2 2) 2 (some VT_EMPTY) rfl (by decide) rfl

/-! ## Right -/

/-- C2: for every string `s` and every length argument that `to_int` coerces to
an integer `n >= 0`, `Right(s, n)` succeeds (the string conversion handing back
`s` and the allocator providing the result buffer) and stores exactly the last
`min(n, len(s))` code units of `s`. -/
theorem Global_Right_last_units (env : Env) (s : List WCHAR) (lenv : VARIANT) (n : Int)
    (res : Option VARIANT) (hn : to_int lenv = Except.ok n) (h0 : 0 ≤ n)
    (hconv : env.VariantChangeType_BSTR (VT_BSTR (some s)) = (S_OK, some s))
    (hmem : env.alloc_ok (min n.toNat s.length) = true) :
    Global_Right env [VT_BSTR (some s), lenv] res
        = Outcome.ret S_OK (res.map (fun _ =>
            VT_BSTR (some (s.drop (s.length - min n.toNat s.length)))))
      ∧ (s.drop (s.length - min n.toNat s.length)).length = min n.toNat s.length := by
  obtain ⟨k, rfl⟩ := Int.eq_ofNat_of_zero_le h0
  simp only [Int.toNat_ofNat] at hmem ⊢
  refine ⟨?_, by simp only [List.length_drop]; omega⟩
  have hneg : ¬ ((k : Int) < 0) := by omega
  have hts : to_string env (VT_BSTR (some s)) = Except.ok (some s) := by
    simp [to_string, hconv, FAILED, S_OK]
  have hk : min k s.length ≤ s.length := Nat.min_le_right _ _
  have hlen : (if (k : Int) > (s.length : Int) then (s.length : Int) else (k : Int))
      = ((min k s.length : Nat) : Int) := by
    split_ifs with h <;> omega
  have hoff : (s.length : Int) - ((min k s.length : Nat) : Int)
      = ((s.length - min k s.length : Nat) : Int) := by omega
  have hal := SysAllocStringLen_inside env s (s.length - min k s.length) (min k s.length)
    hmem (by omega)
  rw [List.take_of_length_le (by simp only [List.length_drop]; omega)] at hal
  cases lenv
  case VT_BSTR b => simp [to_int] at hn
  all_goals
    simp only [Global_Right, hts, hn, hneg, if_false, SysStringLen, hlen, hoff, hal]
    cases res <;> rfl

theorem Global_Right_last_units_witness :
    Global_Right env0 [VT_BSTR (some (wstr "hello")), VT_I2 2] (some VT_EMPTY)
        = Outcome.ret S_OK ((some VT_EMPTY).map (fun _ =>
            VT_BSTR (some ((wstr "hello").drop
              ((wstr "hello").length - min (2 : Int).toNat (wstr "hello").length)))))
      ∧ ((wstr "hello").drop
          ((wstr "hello").length - min (2 : Int).toNat (wstr "hello").length)).length
          = min (2 : Int).toNat (wstr "hello").length :=
  Global_Right_last_units env0 (wstr "hello") (VT_I2 2) 2 (some VT_EMPTY) rfl (by decide) rfl rfl

/-! ## Negative lengths -/

/-- C3: for every string `s` and every length argument that `to_int` coerces to
`n < 0`, `Left(s, n)`, `Right(s, n)` (its string conversion not failing) and the
three-argument `Mid(s, start, n)` (for a start that `to_int` accepts) all fail
with `E_FAIL`, the InvalidArgument error kind, and leave the output slot as it
was: no result string is produced. -/
theorem negative_length_is_invalid (env : Env) (s : List WCHAR) (startv lenv : VARIANT)
    (start n : Int) (res : Option VARIANT)
    (hn : to_int lenv = Except.ok n) (hneg : n < 0)
    (hstart : to_int startv = Except.ok start)
    (hconv : FAILED (env.VariantChangeType_BSTR (VT_BSTR (some s))).1 = false) :
    Global_Left env [VT_BSTR (some s), lenv] res = Outcome.ret E_FAIL res
      ∧ Global_Right env [VT_BSTR (some s), lenv] res = Outcome.ret E_FAIL res
      ∧ Global_Mid env [VT_BSTR (some s), startv, lenv] res = Outcome.ret E_FAIL res := by
  have hts : to_string env (VT_BSTR (some s))
      = Except.ok (env.VariantChangeType_BSTR (VT_BSTR (some s))).2 := by
    simp [to_string, hconv]
  refine ⟨?_, ?_, ?_⟩
  · simp [Global_Left, hn, hneg]
  · cases lenv
    case VT_BSTR b => simp [to_int] at hn
    all_goals simp [Global_Right, hts, hn, hneg]
  · simp [Global_Mid, hstart, hn, hneg]

theorem negative_length_is_invalid_witness :
    Global_Left env0 [VT_BSTR (some (wstr "abc")), VT_I2 (-1)] (some VT_EMPTY)
        = Outcome.ret E_FAIL (some VT_EMPTY)
      ∧ Global_Right env0 [VT_BSTR (some (wstr "abc")), VT_I2 (-1)] (some VT_EMPTY)
        = Outcome.ret E_FAIL (some VT_EMPTY)
      ∧ Global_Mid env0 [VT_BSTR (some (wstr "abc")), VT_I2 1, VT_I2 (-1)] (some VT_EMPTY)
        = Outcome.ret E_FAIL (some VT_EMPTY) :=
  negative_length_is_invalid env0 (wstr "abc") (VT_I2 1) (VT_I2 (-1)) 1 (-1) (some VT_EMPTY)
    rfl (by decide) rfl rfl

/-! ## Mid -/

theorem Global_Mid_bounds_two (n a : Nat) (hn : (n : Int) ≤ INT_MAX) :
    Global_Mid_bounds (n : Int) ((a : Int) + 1) (-1)
      = some (((min a n : Nat) : Int), ((n - min a n : Nat) : Int)) := by
  unfold Global_Mid_bounds
  unfold INT_MAX at hn
  have h1 : ¬ ((a : Int) + 1 - 1 < INT_MIN) := by unfold INT_MIN; omega
  rw [if_neg h1]
  have h2 : (if (a : Int) + 1 - 1 > (n : Int) then (n : Int) else (a : Int) + 1 - 1)
      = ((min a n : Nat) : Int) := by
    split_ifs with h <;> omega
  simp only [h2]
  have h3 : ¬ ((n : Int) - ((min a n : Nat) : Int) > INT_MAX) := by unfold INT_MAX; omega
  rw [if_neg h3]
  simp only [if_true]
  congr 2
  omega

theorem Global_Mid_bounds_three (n a l : Nat) (hn : (n : Int) ≤ INT_MAX) :
    Global_Mid_bounds (n : Int) ((a : Int) + 1) (l : Int)
      = some (((min a n : Nat) : Int), ((min l (n - min a n) : Nat) : Int)) := by
  unfold Global_Mid_bounds
  unfold INT_MAX at hn
  have h1 : ¬ ((a : Int) + 1 - 1 < INT_MIN) := by unfold INT_MIN; omega
  rw [if_neg h1]
  have h2 : (if (a : Int) + 1 - 1 > (n : Int) then (n : Int) else (a : Int) + 1 - 1)
      = ((min a n : Nat) : Int) := by
    split_ifs with h <;> omega
  simp only [h2]
  have h3 : ¬ ((n : Int) - ((min a n : Nat) : Int) > INT_MAX) := by unfold INT_MAX; omega
  rw [if_neg h3]
  have h4 : ¬ ((l : Int) = -1) := by omega
  rw [if_neg h4]
  congr 2
  split_ifs with h <;> omega

/-- For every start `<= 0` (above `INT_MIN`) the offset `Global_Mid` slices from
is `start - 1`, a negative number: only the upper end is pinned. -/
theorem Global_Mid_bounds_negative_offset (n : Nat) (start len : Int)
    (hlo : INT_MIN < start) (h0 : start ≤ 0) (off l : Int)
    (h : Global_Mid_bounds (n : Int) start len = some (off, l)) :
    off = start - 1 ∧ off < 0 := by
  unfold Global_Mid_bounds at h
  unfold INT_MIN at hlo
  have h1 : ¬ (start - 1 < INT_MIN) := by unfold INT_MIN; omega
  have h2 : ¬ (start - 1 > (n : Int)) := by omega
  rw [if_neg h1] at h
  simp only [h2, if_false] at h
  split_ifs at h
  all_goals
    simp only [Option.some.injEq, Prod.mk.injEq] at h
    omega

/-- C4: the claim fails on the code at `Mid("abc", 0)`: the offset computed
for the copy is `-1` (with length `4`), not `max(start - 1, 0) = 0`, so the copy
reads the code unit before the string and the call has no defined result. -/
theorem Global_Mid_start_zero_reads_before_string :
    Global_Mid_bounds (SysStringLen (some (wstr "abc")) : Int) 0 (-1) = some (-1, 4)
      ∧ read_units (some (wstr "abc")) (-1) 4 = none
      ∧ Global_Mid env0 [VT_BSTR (some (wstr "abc")), VT_I2 0] (some VT_EMPTY)
          = Outcome.undefined := by
  decide

/-- C5: for every string `s` and every start with `start - 1 >= len(s)`, the
two-argument `Mid(s, start)` and the three-argument `Mid(s, start, len)` with
`len >= 0` succeed and store the empty string (the allocator providing the
empty buffer); in particular `Mid("hello", 10)` stores `""`. -/
theorem Global_Mid_past_end_is_empty (env : Env) (s : List WCHAR) (startv lenv : VARIANT)
    (start len : Int) (res : Option VARIANT)
    (hstart : to_int startv = Except.ok start) (hpast : (s.length : Int) ≤ start - 1)
    (hlen : to_int lenv = Except.ok len) (hl0 : 0 ≤ len)
    (hmem : env.alloc_ok 0 = true) :
    Global_Mid env [VT_BSTR (some s), startv] res
        = Outcome.ret S_OK (res.map (fun _ => VT_BSTR (some [])))
      ∧ Global_Mid env [VT_BSTR (some s), startv, lenv] res
        = Outcome.ret S_OK (res.map (fun _ => VT_BSTR (some [])))
      ∧ Global_Mid env [VT_BSTR (some (wstr "hello")), VT_I2 10] res
        = Outcome.ret S_OK (res.map (fun _ => VT_BSTR (some []))) := by
  have hal : ∀ (t : List WCHAR) (off : Int), SysAllocStringLen env (some t) off 0 = Alloc.str [] := by
    intro t off
    simp [SysAllocStringLen, read_units, hmem]
  have hb2 : ∀ (t : List WCHAR) (st : Int), (t.length : Int) ≤ st - 1 →
      Global_Mid_bounds (SysStringLen (some t) : Int) st (-1) = some ((t.length : Int), 0) := by
    intro t st hst
    unfold Global_Mid_bounds SysStringLen
    have h1 : ¬ (st - 1 < INT_MIN) := by unfold INT_MIN; omega
    rw [if_neg h1]
    have h2 : (if st - 1 > (t.length : Int) then (t.length : Int) else st - 1)
        = (t.length : Int) := by
      split_ifs with h <;> omega
    simp only [h2, sub_self]
    simp [INT_MAX]
  have hb3 : Global_Mid_bounds (SysStringLen (some s) : Int) start len
      = some ((s.length : Int), 0) := by
    unfold Global_Mid_bounds SysStringLen
    have h1 : ¬ (start - 1 < INT_MIN) := by unfold INT_MIN; omega
    rw [if_neg h1]
    have h2 : (if start - 1 > (s.length : Int) then (s.length : Int) else start - 1)
        = (s.length : Int) := by
      split_ifs with h <;> omega
    simp only [h2, sub_self]
    have h3 : ¬ ((0 : Int) > INT_MAX) := by unfold INT_MAX; omega
    have h4 : ¬ (len = -1) := by omega
    rw [if_neg h3, if_neg h4]
    congr 2
    split_ifs with h <;> omega
  refine ⟨?_, ?_, ?_⟩
  · simp only [Global_Mid, List.length_cons, List.length_nil, hstart, hb2 s start hpast, hal]
    cases res <;> simp
  · have hneg : ¬ (len < 0) := by omega
    simp only [Global_Mid, List.length_cons, List.length_nil, hstart, hlen, hneg, if_false,
      hb3, hal]
    cases res <;> simp
  · have h10 : to_int (VT_I2 10) = Except.ok 10 := rfl
    have h5 : ((wstr "hello").length : Int) ≤ 10 - 1 := by decide
    simp only [Global_Mid, List.length_cons, List.length_nil, h10, hb2 (wstr "hello") 10 h5, hal]
    cases res <;> simp

theorem Global_Mid_past_end_is_empty_witness :
    Global_Mid env0 [VT_BSTR (some (wstr "abc")), VT_I2 4] (some VT_EMPTY)
        = Outcome.ret S_OK ((some VT_EMPTY).map (fun _ => VT_BSTR (some [])))
      ∧ Global_Mid env0 [VT_BSTR (some (wstr "abc")), VT_I2 4, VT_I2 2] (some VT_EMPTY)
        = Outcome.ret S_OK ((some VT_EMPTY).map (fun _ => VT_BSTR (some [])))
      ∧ Global_Mid env0 [VT_BSTR (some (wstr "hello")), VT_I2 10] (some VT_EMPTY)
        = Outcome.ret S_OK ((some VT_EMPTY).map (fun _ => VT_BSTR (some []))) :=
  Global_Mid_past_end_is_empty env0 (wstr "abc") (VT_I2 4) (VT_I2 2) 4 2 (some VT_EMPTY)
    rfl (by decide) rfl (by decide) rfl

/-- C6: for every string `s` (of a length a BSTR can have) and every
`start >= 1`, with `start0 = min(start - 1, len(s))`: the two-argument
`Mid(s, start)` stores the code units of `s` from `start0` to the end, and the
three-argument `Mid(s, start, len)` with `len >= 0` stores exactly the
`min(len, len(s) - start0)` code units of `s` beginning at `start0` (the
allocator providing the result buffer). -/
theorem Global_Mid_slices_from_start (env : Env) (s : List WCHAR) (startv lenv : VARIANT)
    (start len : Int) (res : Option VARIANT)
    (hstart : to_int startv = Except.ok start) (h1 : 1 ≤ start)
    (hlen : to_int lenv = Except.ok len) (hl0 : 0 ≤ len)
    (hs : (s.length : Int) ≤ INT_MAX)
    (hmem : ∀ k, k ≤ s.length → env.alloc_ok k = true) :
    Global_Mid env [VT_BSTR (some s), startv] res
        = Outcome.ret S_OK (res.map (fun _ =>
            VT_BSTR (some (s.drop (min (start - 1).toNat s.length)))))
      ∧ Global_Mid env [VT_BSTR (some s), startv, lenv] res
        = Outcome.ret S_OK (res.map (fun _ =>
            VT_BSTR (some ((s.drop (min (start - 1).toNat s.length)).take
              (min len.toNat (s.length - min (start - 1).toNat s.length)))))) := by
  obtain ⟨a, rfl⟩ : ∃ a : Nat, start = (a : Int) + 1 := ⟨(start - 1).toNat, by omega⟩
  obtain ⟨l, rfl⟩ := Int.eq_ofNat_of_zero_le hl0
  have ha : ((a : Int) + 1 - 1).toNat = a := by omega
  simp only [ha, Int.toNat_ofNat]
  have hneg : ¬ ((l : Int) < 0) := by omega
  have hal2 := SysAllocStringLen_inside env s (min a s.length) (s.length - min a s.length)
    (hmem _ (by omega)) (by omega)
  rw [List.take_of_length_le (by simp only [List.length_drop]; omega)] at hal2
  have hal3 := SysAllocStringLen_inside env s (min a s.length) (min l (s.length - min a s.length))
    (hmem _ (by omega)) (by omega)
  refine ⟨?_, ?_⟩
  · simp only [Global_Mid, List.length_cons, List.length_nil, hstart, SysStringLen,
      Global_Mid_bounds_two s.length a hs, hal2]
    cases res <;> simp
  · simp only [Global_Mid, List.length_cons, List.length_nil, hstart, hlen, hneg, if_false,
      SysStringLen, Global_Mid_bounds_three s.length a l hs, hal3]
    cases res <;> simp

theorem Global_Mid_slices_from_start_witness :
    Global_Mid env0 [VT_BSTR (some (wstr "hello")), VT_I2 2] (some VT_EMPTY)
        = Outcome.ret S_OK ((some VT_EMPTY).map (fun _ =>
            VT_BSTR (some ((wstr "hello").drop (min ((2 : Int) - 1).toNat (wstr "hello").length)))))
      ∧ Global_Mid env0 [VT_BSTR (some (wstr "hello")), VT_I2 2, VT_I2 3] (some VT_EMPTY)
        = Outcome.ret S_OK ((some VT_EMPTY).map (fun _ =>
            VT_BSTR (some (((wstr "hello").drop (min ((2 : Int) - 1).toNat (wstr "hello").length)).take
              (min (3 : Int).toNat
                ((wstr "hello").length - min ((2 : Int) - 1).toNat (wstr "hello").length)))))) :=
  Global_Mid_slices_from_start env0 (wstr "hello") (VT_I2 2) (VT_I2 3) 2 3 (some VT_EMPTY)
    rfl (by decide) rfl (by decide) (by decide) (fun _ _ => rfl)

/-! ## InStr -/

theorem starts_with_iff (str sub : List WCHAR) :
    starts_with str sub = true ↔ str.take sub.length = sub := by
  induction str generalizing sub with
  | nil =>
    cases sub with
    | nil => simp [starts_with]
    | cons b bs => simp [starts_with]
  | cons a as ih =>
    cases sub with
    | nil => simp [starts_with]
    | cons b bs => simp [starts_with, ih bs]

theorem strstrW_some (str sub : List WCHAR) (k : Nat) (h : strstrW str sub = some k) :
    starts_with (str.drop k) sub = true
      ∧ ∀ j, j < k → starts_with (str.drop j) sub = false := by
  induction str generalizing k with
  | nil =>
    unfold strstrW at h
    split_ifs at h with h0
    · cases h
      exact ⟨by simpa using h0, fun j hj => absurd hj (Nat.not_lt_zero j)⟩
  | cons a as ih =>
    unfold strstrW at h
    split_ifs at h with h0
    · cases h
      exact ⟨by simpa using h0, fun j hj => absurd hj (Nat.not_lt_zero j)⟩
    · cases hr : strstrW as sub with
      | none => simp [hr] at h
      | some k0 =>
        simp only [hr, Option.map_some', Option.some.injEq] at h
        subst h
        obtain ⟨h1, h2⟩ := ih k0 hr
        refine ⟨by simpa using h1, ?_⟩
        intro j hj
        cases j with
        | zero => simpa using h0
        | succ j => simpa using h2 j (by omega)

theorem strstrW_none (str sub : List WCHAR) (h : strstrW str sub = none) :
    ∀ j, starts_with (str.drop j) sub = false := by
  induction str with
  | nil =>
    unfold strstrW at h
    split_ifs at h with h0
    intro j
    simpa using h0
  | cons a as ih =>
    unfold strstrW at h
    split_ifs at h with h0
    have hr : strstrW as sub = none := by
      cases hr : strstrW as sub with
      | none => rfl
      | some k0 => simp [hr] at h
    intro j
    cases j with
    | zero => simpa using h0
    | succ j => simpa using ih hr j

theorem c_string_of_no_nul (s : List WCHAR) (h : 0 ∉ s) : c_string s = s := by
  induction s with
  | nil => rfl
  | cons a as ih =>
    have ha : a ≠ 0 := fun e => h (by simp [e])
    have has : 0 ∉ as := fun e => h (List.mem_cons_of_mem _ e)
    simp only [c_string] at ih ⊢
    rw [List.takeWhile_cons_of_pos (by simpa using ha), ih has]

theorem return_int_nonneg (res : Option VARIANT) (p : Nat) :
    return_int res (p : Int)
      = (S_OK, res.map (fun _ => if p ≤ 32767 then VT_I2 (p : Int) else VT_I4 (p : Int))) := by
  unfold return_int to_short return_short
  by_cases hp : p ≤ 32767
  · have : ((p : Int) + 32768) % 65536 - 32768 = (p : Int) := by omega
    simp only [this, if_true, hp]
    cases res <;> rfl
  · have : ¬ (((p : Int) + 32768) % 65536 - 32768 = (p : Int)) := by omega
    simp only [this, if_false, hp]
    cases res <;> rfl

/-- The search of `Global_InStr` on two strings without embedded NUL, entered
with a 0-based start `a` inside the haystack. -/
theorem Global_InStr_search_strings (hay needle : List WCHAR) (a : Nat) (res : Option VARIANT)
    (hh : 0 ∉ hay) (hn : 0 ∉ needle) (hlt : a < hay.length) :
    ∃ p : Nat,
      Global_InStr_search (VT_BSTR (some hay)) (VT_BSTR (some needle)) (a : Int) res
          = Outcome.ret S_OK (res.map (fun _ =>
              if p ≤ 32767 then VT_I2 (p : Int) else VT_I4 (p : Int)))
        ∧ ((p = 0 ∧ ∀ j, a ≤ j → (hay.drop j).take needle.length ≠ needle)
          ∨ (a + 1 ≤ p ∧ (hay.drop (p - 1)).take needle.length = needle
              ∧ ∀ j, a ≤ j → j < p - 1 → (hay.drop j).take needle.length ≠ needle)) := by
  have hd : 0 ∉ hay.drop a := fun e => hh (List.mem_of_mem_drop e)
  have hlt2 : (a : Int) < ((SysStringLen (some hay) : Nat) : Int) := by
    simp only [SysStringLen]; exact_mod_cast hlt
  simp only [Global_InStr_search, reduceCtorEq, or_self, if_false, hlt2, if_true,
    Int.toNat_ofNat, c_string_of_no_nul _ hd, c_string_of_no_nul _ hn]
  cases hr : strstrW (hay.drop a) needle with
  | none =>
    refine ⟨0, ?_, Or.inl ⟨rfl, ?_⟩⟩
    · have := return_int_nonneg res 0
      simp only [Nat.cast_zero] at this
      simp only [Outcome.of, this]
      simp
    · intro j hj hocc
      have h1 := strstrW_none _ _ hr (j - a)
      rw [List.drop_drop] at h1
      have h2 : a + (j - a) = j := by omega
      rw [h2] at h1
      have h3 := (starts_with_iff (hay.drop j) needle).mpr hocc
      rw [h3] at h1
      cases h1
  | some k =>
    obtain ⟨h1, h2⟩ := strstrW_some _ _ _ hr
    refine ⟨a + k + 1, ?_, Or.inr ⟨by omega, ?_, ?_⟩⟩
    · have := return_int_nonneg res (a + k + 1)
      have hc : (a : Int) + (k : Int) + 1 = ((a + k + 1 : Nat) : Int) := by push_cast; ring
      simp only [Outcome.of, hc, this]
    · rw [List.drop_drop] at h1
      have hc : a + k + 1 - 1 = a + k := by omega
      rw [hc]
      exact (starts_with_iff _ _).mp h1
    · intro j hj hjk hocc
      have h3 := h2 (j - a) (by omega)
      rw [List.drop_drop] at h3
      have h4 : a + (j - a) = j := by omega
      rw [h4] at h3
      have h5 := (starts_with_iff (hay.drop j) needle).mpr hocc
      rw [h5] at h3
      cases h3

/-- C7: for all strings `hay` and `needle` without embedded NUL and every
`start >= 1` with `start - 1 < len(hay)`, `InStr(start, hay, needle)` succeeds
and stores an integer `p`: either `p = 0` and `needle` occurs at no offset
`>= start - 1`, or `p >= start`, `needle` occurs at offset `p - 1` and at no
offset in `[start - 1, p - 1)`.  `InStr(1, "abcdef", "cd")` is `3` and
`InStr(1, "abcdef", "xyz")` is `0`. -/
theorem Global_InStr_first_occurrence (env : Env) (hay needle : List WCHAR) (startv : VARIANT)
    (start : Int) (res : Option VARIANT)
    (hh : 0 ∉ hay) (hn : 0 ∉ needle)
    (hstart : to_int startv = Except.ok start) (h1 : 1 ≤ start)
    (hlt : start - 1 < (hay.length : Int)) :
    (∃ p : Nat,
      Global_InStr env [startv, VT_BSTR (some hay), VT_BSTR (some needle)] res
          = Outcome.ret S_OK (res.map (fun _ =>
              if p ≤ 32767 then VT_I2 (p : Int) else VT_I4 (p : Int)))
        ∧ ((p = 0 ∧ ∀ j, (start - 1).toNat ≤ j → (hay.drop j).take needle.length ≠ needle)
          ∨ (start.toNat ≤ p ∧ (hay.drop (p - 1)).take needle.length = needle
              ∧ ∀ j, (start - 1).toNat ≤ j → j < p - 1
                  → (hay.drop j).take needle.length ≠ needle)))
      ∧ Global_InStr env [VT_I2 1, VT_BSTR (some (wstr "abcdef")), VT_BSTR (some (wstr "cd"))] res
          = Outcome.ret S_OK (res.map (fun _ => VT_I2 3))
      ∧ Global_InStr env [VT_I2 1, VT_BSTR (some (wstr "abcdef")), VT_BSTR (some (wstr "xyz"))] res
          = Outcome.ret S_OK (res.map (fun _ => VT_I2 0)) := by
  refine ⟨?_, by cases res <;> rfl, by cases res <;> rfl⟩
  obtain ⟨a, rfl⟩ : ∃ a : Nat, start = (a : Int) + 1 := ⟨(start - 1).toNat, by omega⟩
  have ha : ((a : Int) + 1 - 1) = (a : Int) := by omega
  have ha2 : ((a : Int) + 1).toNat = a + 1 := by omega
  have hlt2 : a < hay.length := by omega
  have hlo : ¬ ((a : Int) < INT_MIN) := by unfold INT_MIN; omega
  have hlo2 : ¬ ((a : Int) < 0) := by omega
  obtain ⟨p, hp1, hp2⟩ := Global_InStr_search_strings hay needle a res hh hn hlt2
  refine ⟨p, ?_, ?_⟩
  · simp only [Global_InStr, List.length_cons, List.length_nil, hstart, ha, hlo, hlo2, if_false]
    simpa using hp1
  · simpa only [ha, ha2, Int.toNat_ofNat] using hp2

theorem Global_InStr_first_occurrence_witness :
    (∃ p : Nat,
      Global_InStr env0 [VT_I2 2, VT_BSTR (some (wstr "abcabc")), VT_BSTR (some (wstr "bc"))]
          (some VT_EMPTY)
          = Outcome.ret S_OK ((some VT_EMPTY).map (fun _ =>
              if p ≤ 32767 then VT_I2 (p : Int) else VT_I4 (p : Int)))
        ∧ ((p = 0 ∧ ∀ j, ((2 : Int) - 1).toNat ≤ j
              → ((wstr "abcabc").drop j).take (wstr "bc").length ≠ wstr "bc")
          ∨ ((2 : Int).toNat ≤ p ∧ ((wstr "abcabc").drop (p - 1)).take (wstr "bc").length = wstr "bc"
              ∧ ∀ j, ((2 : Int) - 1).toNat ≤ j → j < p - 1
                  → ((wstr "abcabc").drop j).take (wstr "bc").length ≠ wstr "bc")))
      ∧ Global_InStr env0 [VT_I2 1, VT_BSTR (some (wstr "abcdef")), VT_BSTR (some (wstr "cd"))]
          (some VT_EMPTY)
          = Outcome.ret S_OK ((some VT_EMPTY).map (fun _ => VT_I2 3))
      ∧ Global_InStr env0 [VT_I2 1, VT_BSTR (some (wstr "abcdef")), VT_BSTR (some (wstr "xyz"))]
          (some VT_EMPTY)
          = Outcome.ret S_OK ((some VT_EMPTY).map (fun _ => VT_I2 0)) :=
  Global_InStr_first_occurrence env0 (wstr "abcabc") (wstr "bc") (VT_I2 2) 2 (some VT_EMPTY)
    (by decide) (by decide) rfl (by decide) (by decide)

/-- C8: for every two- or three-argument `InStr` call whose start is omitted or
coerces to a value `>= 1`, if the haystack or the needle is Null the call
succeeds and stores Null, whatever the other argument is; a present slot never
ends up holding the integer `0`. -/
theorem Global_InStr_null_propagates (env : Env) (startv str1v str2v : VARIANT) (start : Int)
    (res : Option VARIANT)
    (hstart : to_int startv = Except.ok start) (h1 : 1 ≤ start)
    (hnull : str1v = VT_NULL ∨ str2v = VT_NULL) :
    Global_InStr env [str1v, str2v] res = Outcome.ret S_OK (res.map (fun _ => VT_NULL))
      ∧ Global_InStr env [startv, str1v, str2v] res
          = Outcome.ret S_OK (res.map (fun _ => VT_NULL))
      ∧ (∀ v, Global_InStr env [str1v, str2v] (some v) ≠ Outcome.ret S_OK (some (VT_I2 0)))
      ∧ (∀ v, Global_InStr env [startv, str1v, str2v] (some v)
          ≠ Outcome.ret S_OK (some (VT_I2 0))) := by
  have hlo : ¬ (start - 1 < INT_MIN) := by unfold INT_MIN; omega
  have hlo2 : ¬ (start - 1 < 0) := by omega
  have hs : ∀ (st : Int) (r : Option VARIANT),
      Global_InStr_search str1v str2v st r = Outcome.ret S_OK (r.map (fun _ => VT_NULL)) := by
    intro st r
    simp only [Global_InStr_search, hnull, if_true, Outcome.of, return_null]
    cases r <;> rfl
  have h2 : ∀ r, Global_InStr env [str1v, str2v] r
      = Outcome.ret S_OK (r.map (fun _ => VT_NULL)) := by
    intro r
    simp [Global_InStr, hs]
  have h3 : ∀ r, Global_InStr env [startv, str1v, str2v] r
      = Outcome.ret S_OK (r.map (fun _ => VT_NULL)) := by
    intro r
    simp [Global_InStr, hstart, hlo, hlo2, hs]
  refine ⟨h2 res, h3 res, ?_, ?_⟩
  · intro v
    rw [h2]
    simp
  · intro v
    rw [h3]
    simp

theorem Global_InStr_null_propagates_witness :
    Global_InStr env0 [VT_NULL, VT_BSTR (some (wstr "a"))] (some VT_EMPTY)
        = Outcome.ret S_OK ((some VT_EMPTY).map (fun _ => VT_NULL))
      ∧ Global_InStr env0 [VT_I2 1, VT_NULL, VT_BSTR (some (wstr "a"))] (some VT_EMPTY)
          = Outcome.ret S_OK ((some VT_EMPTY).map (fun _ => VT_NULL))
      ∧ (∀ v, Global_InStr env0 [VT_NULL, VT_BSTR (some (wstr "a"))] (some v)
          ≠ Outcome.ret S_OK (some (VT_I2 0)))
      ∧ (∀ v, Global_InStr env0 [VT_I2 1, VT_NULL, VT_BSTR (some (wstr "a"))] (some v)
          ≠ Outcome.ret S_OK (some (VT_I2 0))) :=
  Global_InStr_null_propagates env0 (VT_I2 1) VT_NULL (VT_BSTR (some (wstr "a"))) 1
    (some VT_EMPTY) rfl (by decide) (Or.inl rfl)

/-- An omitted start is start `1`. -/
theorem Global_InStr_omitted_start (env : Env) (str1v str2v : VARIANT) (res : Option VARIANT) :
    Global_InStr env [str1v, str2v] res = Global_InStr env [VT_I2 1, str1v, str2v] res := by
  simp [Global_InStr, to_int, INT_MIN]

/-- A start below `1` whose decrement does not overflow is refused with `E_FAIL`. -/
theorem Global_InStr_start_below_one (env : Env) (startv str1v str2v : VARIANT) (start : Int)
    (res : Option VARIANT) (hstart : to_int startv = Except.ok start)
    (hlo : INT_MIN < start) (h1 : start < 1) :
    Global_InStr env [startv, str1v, str2v] res = Outcome.ret E_FAIL res := by
  have h2 : ¬ (start - 1 < INT_MIN) := by unfold INT_MIN at hlo ⊢; omega
  have h3 : start - 1 < 0 := by omega
  simp [Global_InStr, hstart, h2, h3]

/-- A start at or past the end of a string haystack gives `0` without a
search, also for an empty haystack and an empty needle. -/
theorem Global_InStr_start_past_end (env : Env) (startv : VARIANT) (start : Int)
    (str1 str2 : BSTR) (res : Option VARIANT) (hstart : to_int startv = Except.ok start)
    (h1 : 1 ≤ start) (hpast : (SysStringLen str1 : Int) ≤ start - 1) :
    Global_InStr env [startv, VT_BSTR str1, VT_BSTR str2] res
      = Outcome.ret S_OK (res.map (fun _ => VT_I2 0)) := by
  have h2 : ¬ (start - 1 < INT_MIN) := by unfold INT_MIN; omega
  have h3 : ¬ (start - 1 < 0) := by omega
  have h4 : ¬ (start - 1 < (SysStringLen str1 : Int)) := by omega
  have h5 := return_int_nonneg res 0
  simp only [Nat.cast_zero] at h5
  simp only [Global_InStr, List.length_cons, List.length_nil, hstart, h2, h3, if_false,
    Global_InStr_search, reduceCtorEq, or_self, h4, Outcome.of, h5]
  simp

/-- C9: the claim fails on the code at `InStr(-2147483648, "abc", "b")`: the
start coerces to `INT_MIN < 1`, the decrement `--start` overflows, and the call
has no defined result where the claim requires the `E_FAIL` (InvalidArgument)
failure. -/
theorem Global_InStr_start_INT_MIN_overflows :
    to_int (VT_I4 (-2147483648)) = Except.ok (-2147483648)
      ∧ Global_InStr env0
          [VT_I4 (-2147483648), VT_BSTR (some (wstr "abc")), VT_BSTR (some (wstr "b"))]
          (some VT_EMPTY) = Outcome.undefined
      ∧ Global_InStr env0
          [VT_I4 (-2147483648), VT_BSTR (some (wstr "abc")), VT_BSTR (some (wstr "b"))]
          (some VT_EMPTY) ≠ Outcome.ret E_FAIL (some VT_EMPTY) :=
  ⟨rfl, by decide, by decide⟩

/-! ## RTrim -/

/-- The loop of `Global_RTrim` only moves backwards, and what it steps over is
whitespace. -/
theorem Global_RTrim_scan_removes_spaces (env : Env) (s : List WCHAR) (i : Nat) :
    Global_RTrim_scan env s i ≤ i
      ∧ ∀ j, Global_RTrim_scan env s i ≤ j → j < i → env.isspaceW (s.getD j 0) = true := by
  induction i with
  | zero => exact ⟨by simp [Global_RTrim_scan], fun j _ hj => absurd hj (Nat.not_lt_zero j)⟩
  | succ i ih =>
    unfold Global_RTrim_scan
    split_ifs with h
    · refine ⟨by omega, ?_⟩
      intro j hj1 hj2
      by_cases hji : j = i
      · subst hji; exact h.2
      · exact ih.2 j hj1 (by omega)
    · exact ⟨le_refl _, fun j hj1 hj2 => by omega⟩

/-- C10: the claim fails on the code at `RTrim(" ")`: the loop stops at
`ptr - 1 > str`, one position early, so a string made of a single whitespace
code unit comes back unchanged: not empty, and ending in whitespace. -/
theorem Global_RTrim_keeps_first_space (env : Env) (res : Option VARIANT)
    (hsp : env.isspaceW 32 = true) (hmem : env.alloc_ok 1 = true) :
    Global_RTrim env [VT_BSTR (some [32])] res
        = Outcome.ret S_OK (res.map (fun _ => VT_BSTR (some [32])))
      ∧ env.isspaceW (([32] : List WCHAR).getLastD 0) = true := by
  refine ⟨?_, by simpa using hsp⟩
  have hscan : Global_RTrim_scan env [32] (SysStringLen (some [32])) = 1 := by
    simp [Global_RTrim_scan, SysStringLen]
  have hal := SysAllocStringLen_inside env [32] 0 1 hmem (by simp)
  simp only [Nat.cast_zero, Nat.cast_one, List.drop_zero, List.take_succ_cons, List.take_zero] at hal
  simp only [Global_RTrim, hscan, Nat.cast_one, hal, Outcome.of, return_bstr]
  cases res <;> rfl

theorem Global_RTrim_keeps_first_space_witness :
    Global_RTrim env0 [VT_BSTR (some [32])] (some VT_EMPTY)
        = Outcome.ret S_OK ((some VT_EMPTY).map (fun _ => VT_BSTR (some [32])))
      ∧ env0.isspaceW (([32] : List WCHAR).getLastD 0) = true :=
  Global_RTrim_keeps_first_space env0 (some VT_EMPTY) rfl rfl

end VBScript

/-! ## Output helpers and coercions -/

namespace VBScript

open VARIANT

theorem to_short_eq_iff (v : Int) : to_short v = v ↔ -32768 ≤ v ∧ v ≤ 32767 := by
  unfold to_short
  omega

/-- C13: for every integer `v` and a present output slot, `return_int` writes
tag `VT_I2` (Int16) with payload `v` exactly when `-32768 <= v <= 32767`, and
tag `VT_I4` (Int32) with payload `v` otherwise; `return_int(100)` stores Int16
and `return_int(40000)` stores Int32. -/
theorem return_int_narrowest_width (v : Int) (slot : VARIANT) :
    return_int (some slot) v
        = (S_OK, some (if -32768 ≤ v ∧ v ≤ 32767 then VT_I2 v else VT_I4 v))
      ∧ return_int (some slot) 100 = (S_OK, some (VT_I2 100))
      ∧ return_int (some slot) 40000 = (S_OK, some (VT_I4 40000)) := by
  refine ⟨?_, rfl, rfl⟩
  unfold return_int return_short
  by_cases h : -32768 ≤ v ∧ v ≤ 32767
  · rw [if_pos ((to_short_eq_iff v).mpr h), if_pos h]
  · rw [if_neg (fun e => h ((to_short_eq_iff v).mp e)), if_neg h]

/-- C14: for every integer `v`, `return_int` called on a present slot succeeds
and `to_int` applied to the variant it wrote succeeds and yields `v`, through
the 16-bit and through the 32-bit representation alike. -/
theorem return_int_to_int_round_trip (v : Int) (slot : VARIANT) :
    (return_int (some slot) v).1 = S_OK
      ∧ ∃ w, (return_int (some slot) v).2 = some w ∧ to_int w = Except.ok v := by
  unfold return_int return_short
  by_cases h : to_short v = v
  · rw [if_pos h]
    exact ⟨rfl, VT_I2 v, rfl, rfl⟩
  · rw [if_neg h]
    exact ⟨rfl, VT_I4 v, rfl, rfl⟩

/-- C15: `to_int` returns the payload unchanged for `VT_I2` and `VT_I4`
variants, `-1` for a `VT_BOOL` holding any non-zero value and `0` for false,
and fails with `E_NOTIMPL` (Unsupported), producing no value, for Empty, Null,
Float32, Date, Str, Object and Error. -/
theorem to_int_by_representation :
    (∀ n, to_int (VT_I2 n) = Except.ok n)
      ∧ (∀ n, to_int (VT_I4 n) = Except.ok n)
      ∧ (∀ b, to_int (VT_BOOL b) = Except.ok (if b = 0 then 0 else -1))
      ∧ to_int VT_EMPTY = Except.error E_NOTIMPL
      ∧ to_int VT_NULL = Except.error E_NOTIMPL
      ∧ (∀ d, to_int (VT_R4 d) = Except.error E_NOTIMPL)
      ∧ (∀ d, to_int (VT_DATE d) = Except.error E_NOTIMPL)
      ∧ (∀ s, to_int (VT_BSTR s) = Except.error E_NOTIMPL)
      ∧ (∀ obj, to_int (VT_DISPATCH obj) = Except.error E_NOTIMPL)
      ∧ (∀ scode, to_int (VT_ERROR scode) = Except.error E_NOTIMPL) := by
  refine ⟨fun _ => rfl, fun _ => rfl, ?_, rfl, rfl, fun _ => rfl, fun _ => rfl, fun _ => rfl,
    fun _ => rfl, fun _ => rfl⟩
  intro b
  unfold to_int
  by_cases h : b = 0
  · simp [h]
  · simp [h]

/-- The integer C `round` yields for a finite value: the nearest one, a tie
going away from zero. -/
theorem round_away_nearest (q : ℚ) :
    ∃ r : Int, round_away (DOUBLE.finite q) = DOUBLE.finite (r : ℚ)
      ∧ ((q - 1 / 2 < (r : ℚ) ∧ (r : ℚ) < q + 1 / 2)
        ∨ (0 ≤ q ∧ (r : ℚ) = q + 1 / 2)
        ∨ (q < 0 ∧ (r : ℚ) = q - 1 / 2)) := by
  by_cases h : 0 ≤ q
  · refine ⟨⌊q + 1 / 2⌋, by simp [round_away, h], ?_⟩
    have h1 := Int.floor_le (q + 1 / 2)
    have h2 := Int.lt_floor_add_one (q + 1 / 2)
    rcases lt_or_eq_of_le h1 with h3 | h3
    · exact Or.inl ⟨by linarith, h3⟩
    · exact Or.inr (Or.inl ⟨h, h3⟩)
  · refine ⟨-⌊-q + 1 / 2⌋, by simp [round_away, h], ?_⟩
    have h1 := Int.floor_le (-q + 1 / 2)
    have h2 := Int.lt_floor_add_one (-q + 1 / 2)
    push_cast
    rcases lt_or_eq_of_le h1 with h3 | h3
    · exact Or.inl ⟨by linarith, by linarith⟩
    · exact Or.inr (Or.inr ⟨lt_of_not_le h, by linarith⟩)

/-- C16: for a Float64 variant holding the finite value `q`, `to_int` takes
the nearest integer `r`, a tie going away from zero (`2.5` gives `3`, `-2.5`
gives `-3`), and returns `r` when it lies in `[-2^31, 2^31 - 1]`; otherwise, and
for an infinity or a NaN, it fails with `E_FAIL` (OutOfRange), which differs
from the `E_NOTIMPL` returned for unsupported tags. -/
theorem to_int_rounds_float64 :
    (∀ q : ℚ, ∃ r : Int,
        ((q - 1 / 2 < (r : ℚ) ∧ (r : ℚ) < q + 1 / 2)
          ∨ (0 ≤ q ∧ (r : ℚ) = q + 1 / 2)
          ∨ (q < 0 ∧ (r : ℚ) = q - 1 / 2))
        ∧ to_int (VT_R8 (DOUBLE.finite q))
            = (if -2147483648 ≤ r ∧ r ≤ 2147483647 then Except.ok r else Except.error E_FAIL))
      ∧ to_int (VT_R8 (DOUBLE.finite (5 / 2))) = Except.ok 3
      ∧ to_int (VT_R8 (DOUBLE.finite (-5 / 2))) = Except.ok (-3)
      ∧ (∀ b, to_int (VT_R8 (DOUBLE.inf b)) = Except.error E_FAIL)
      ∧ to_int (VT_R8 DOUBLE.nan) = Except.error E_FAIL
      ∧ E_FAIL ≠ E_NOTIMPL := by
  have main : ∀ q : ℚ, ∃ r : Int,
      ((q - 1 / 2 < (r : ℚ) ∧ (r : ℚ) < q + 1 / 2)
        ∨ (0 ≤ q ∧ (r : ℚ) = q + 1 / 2)
        ∨ (q < 0 ∧ (r : ℚ) = q - 1 / 2))
      ∧ to_int (VT_R8 (DOUBLE.finite q))
          = (if -2147483648 ≤ r ∧ r ≤ 2147483647 then Except.ok r else Except.error E_FAIL) := by
    intro q
    obtain ⟨r, hr, hnear⟩ := round_away_nearest q
    refine ⟨r, hnear, ?_⟩
    have hi : is_int32 (DOUBLE.finite (r : ℚ)) = decide (INT_MIN ≤ r ∧ r ≤ INT_MAX) := by
      unfold is_int32
      simp only [Int.floor_intCast, and_true, Int.cast_le]
    unfold to_int
    simp only [hr, hi, double_to_int, Int.floor_intCast, INT_MIN, INT_MAX]
    by_cases h : -2147483648 ≤ r ∧ r ≤ 2147483647
    · simp [h]
    · simp [h]
  refine ⟨main, ?_, ?_, fun _ => rfl, rfl, by decide⟩
  · obtain ⟨r, hnear, hr⟩ := main (5 / 2)
    have : r = 3 := by
      rcases hnear with ⟨h1, h2⟩ | ⟨_, h2⟩ | ⟨h1, _⟩
      · have a : (2 : ℚ) < r := by linarith
        have b : (r : ℚ) < 3 := by linarith
        have a2 : (2 : Int) < r := by exact_mod_cast a
        have b2 : r < 3 := by exact_mod_cast b
        omega
      · have : (r : ℚ) = 3 := by rw [h2]; norm_num
        exact_mod_cast this
      · norm_num at h1
    subst this
    simpa using hr
  · obtain ⟨r, hnear, hr⟩ := main (-5 / 2)
    have : r = -3 := by
      rcases hnear with ⟨h1, h2⟩ | ⟨h1, _⟩ | ⟨_, h2⟩
      · have a : (-3 : ℚ) < r := by linarith
        have b : (r : ℚ) < -2 := by linarith
        have a2 : (-3 : Int) < r := by exact_mod_cast a
        have b2 : r < -2 := by exact_mod_cast b
        omega
      · norm_num at h1
      · have : (r : ℚ) = -3 := by rw [h2]; norm_num
        exact_mod_cast this
    subst this
    simpa using hr

/-- C17: every output helper called with an absent slot returns `S_OK` and
writes nothing; `return_bstr` consumes the string it is given exactly once: with
a slot the string is stored there and not released, without a slot it is
released once and stored nowhere. -/
theorem output_helpers_absent_slot (env : Env) (str : List WCHAR) (b : BSTR) (val : Int)
    (d : DOUBLE) :
    return_string env none str = (S_OK, none)
      ∧ return_bstr none b = (S_OK, none)
      ∧ return_short none val = (S_OK, none)
      ∧ return_int none val = (S_OK, none)
      ∧ return_double none d = (S_OK, none)
      ∧ return_null none = (S_OK, none)
      ∧ return_date none d = (S_OK, none)
      ∧ (∀ v, return_bstr (some v) b = (S_OK, some (VT_BSTR b))
          ∧ return_bstr_freed (some v) b = [])
      ∧ return_bstr_freed none b = [b] := by
  refine ⟨rfl, rfl, rfl, ?_, rfl, rfl, rfl, fun _ => ⟨rfl, rfl⟩, rfl⟩
  unfold return_int return_short
  split_ifs <;> rfl

/-! ## Builtin table -/

/-- C19: every handler of the builtin table that is an unimplemented stub
(among them CCur, CInt, CLng, CBool, Oct, VarType, IsNumeric, StrComp, Replace,
Split, Eval, vbTrue and vbCrLf) returns the failure `E_NOTIMPL` for every
argument list and every slot, leaving the slot as it was and reaching no
assertion. -/
theorem stub_handlers_return_E_NOTIMPL (f : Stub) (env : Env) (args : List VARIANT)
    (res : Option VARIANT) :
    f.run env args res = Outcome.ret E_NOTIMPL res
      ∧ FAILED E_NOTIMPL = true
      ∧ [Stub.Global_CCur, Stub.Global_CInt, Stub.Global_CLng, Stub.Global_CBool,
          Stub.Global_Oct, Stub.Global_VarType, Stub.Global_IsNumeric, Stub.Global_StrComp,
          Stub.Global_Replace, Stub.Global_Split, Stub.Global_Eval, Stub.Global_vbTrue,
          Stub.Global_vbCrLf].all
          (fun g => global_props.any (fun e => e.proc == some (Proc.stub g))) = true := by
  refine ⟨?_, by decide, by decide⟩
  cases f <;> rfl

/-- C18: for every id whose table entry has a handler and every argument list
whose length is not among the entry's allowed counts, `invoke` fails with
ArityMismatch and calls no handler, however handlers execute; `invoke` on an id
absent from the table fails with NotFound, again calling no handler. -/
theorem invoke_checks_arity_before_handler
    (run : Proc → List VARIANT → Option VARIANT → Outcome) (id unknown_id : DISPID)
    (e : builtin_prop_t) (proc : Proc) (args : List VARIANT) (out : Option VARIANT)
    (hfind : global_props.find? (fun x => x.id == id) = some e)
    (hproc : e.proc = some proc)
    (hcnt : allowed_arg_counts e args.length = false)
    (habsent : ∀ x ∈ global_props, x.id ≠ unknown_id) :
    (invoke run global_props id args out).result = Invoked.ArityMismatch
      ∧ (invoke run global_props id args out).calls = []
      ∧ (invoke run global_props unknown_id args out).result = Invoked.NotFound
      ∧ (invoke run global_props unknown_id args out).calls = [] := by
  have hnone : global_props.find? (fun x => x.id == unknown_id) = none := by
    rw [List.find?_eq_none]
    intro x hx
    simpa using habsent x hx
  simp [invoke, hfind, hproc, hcnt, hnone]

set_option maxRecDepth 100000 in
theorem invoke_checks_arity_before_handler_witness :
    (invoke (fun _ _ r => Outcome.ret S_OK r) global_props "DISPID_GLOBAL_CREATEOBJECT"
        [] none).result = Invoked.ArityMismatch
      ∧ (invoke (fun _ _ r => Outcome.ret S_OK r) global_props "DISPID_GLOBAL_CREATEOBJECT"
        [] none).calls = []
      ∧ (invoke (fun _ _ r => Outcome.ret S_OK r) global_props "DISPID_UNKNOWN"
        [] none).result = Invoked.NotFound
      ∧ (invoke (fun _ _ r => Outcome.ret S_OK r) global_props "DISPID_UNKNOWN"
        [] none).calls = [] :=
  invoke_checks_arity_before_handler (fun _ _ r => Outcome.ret S_OK r)
    "DISPID_GLOBAL_CREATEOBJECT" "DISPID_UNKNOWN"
    (builtin_prop_t.mk "DISPID_GLOBAL_CREATEOBJECT" (some Proc.Global_CreateObject) 0 1 0)
    Proc.Global_CreateObject [] none (by decide) rfl (by decide) (by decide)

/-! ## Object creation -/

theorem get_sec_mgr_no_activation (host : Host) (ctx : script_ctx_t) :
    ∀ ev ∈ (get_sec_mgr host ctx).trace, ev.is_activation = false := by
  simp only [get_sec_mgr]
  split_ifs <;> simp [Event.is_activation]

theorem create_object_policy_check_no_activation (host : Host) (ctx : script_ctx_t)
    (guid : GUID) :
    ∀ ev ∈ (create_object_policy_check host ctx guid).trace, ev.is_activation = false := by
  have hs := get_sec_mgr_no_activation host ctx
  simp only [create_object_policy_check]
  split_ifs
  · simpa using hs
  · intro ev hev
    simp only [List.mem_append, List.mem_singleton] at hev
    rcases hev with h | h
    · exact hs ev h
    · subst h; rfl
  · intro ev hev
    simp only [List.mem_append, List.mem_singleton] at hev
    rcases hev with h | h
    · exact hs ev h
    · subst h; rfl
  · simp

/-- With the security manager required, the policy check lets the creation go
on only if a manager was obtained, the activation query succeeded and the
policy buffer holds Allow afterwards. -/
theorem create_object_policy_check_passed (host : Host) (ctx : script_ctx_t) (guid : GUID)
    (hmode : ctx.safeopt &&& INTERFACE_USES_SECURITY_MANAGER ≠ 0)
    (hpass : (create_object_policy_check host ctx guid).passed = true) :
    (get_sec_mgr host ctx).secmgr ≠ NULL
      ∧ FAILED (host.ProcessUrlAction (get_sec_mgr host ctx).secmgr guid).1 = false
      ∧ (host.ProcessUrlAction (get_sec_mgr host ctx).secmgr guid).2.getD 0 = URLPOLICY_ALLOW := by
  simp only [create_object_policy_check] at hpass
  rw [if_pos hmode] at hpass
  by_cases h1 : (get_sec_mgr host ctx).secmgr = NULL
  · simp [h1] at hpass
  · simp only [h1, if_false] at hpass
    split_ifs at hpass with h2
    push_neg at h2
    exact ⟨h1, by simpa using h2.1, h2.2⟩

/-- C20: when the security mode requires the security manager, an unavailable
manager, a failed activation query or a policy other than Allow in the policy
buffer after the query makes `create_object` return no object without ever
requesting the class object or creating an instance: class activation is
reached only with an available manager and an Allow decision. -/
theorem create_object_denied_before_activation (host : Host) (ctx : script_ctx_t)
    (progid : BSTR)
    (hmode : ctx.safeopt &&& INTERFACE_USES_SECURITY_MANAGER ≠ 0)
    (hdeny : (get_sec_mgr host ctx).secmgr = NULL
      ∨ FAILED (host.ProcessUrlAction (get_sec_mgr host ctx).secmgr
          (host.CLSIDFromProgID progid).2).1 = true
      ∨ (host.ProcessUrlAction (get_sec_mgr host ctx).secmgr
          (host.CLSIDFromProgID progid).2).2.getD 0 ≠ URLPOLICY_ALLOW) :
    (create_object host ctx progid).obj = NULL
      ∧ ∀ ev ∈ (create_object host ctx progid).trace, ev.is_activation = false := by
  have hnot : (create_object_policy_check host ctx (host.CLSIDFromProgID progid).2).passed
      = false := by
    cases hp : (create_object_policy_check host ctx (host.CLSIDFromProgID progid).2).passed with
    | false => rfl
    | true =>
      obtain ⟨h1, h2, h3⟩ := create_object_policy_check_passed host ctx _ hmode hp
      rcases hdeny with h | h | h
      · exact absurd h h1
      · rw [h2] at h; cases h
      · exact absurd h3 h
  have hpc := create_object_policy_check_no_activation host ctx (host.CLSIDFromProgID progid).2
  simp only [create_object]
  by_cases hc : FAILED (host.CLSIDFromProgID progid).1 = true
  · simp [hc, Event.is_activation]
  · simp only [hc, hnot, if_true, Bool.false_eq_true, if_false, true_and]
    intro ev hev
    simp only [List.mem_append, List.mem_singleton] at hev
    rcases hev with h | h
    · subst h; rfl
    · exact hpc ev h

theorem create_object_denied_before_activation_witness :
    (create_object (host0 3) ctx0 (some (wstr "a.b"))).obj = NULL
      ∧ ∀ ev ∈ (create_object (host0 3) ctx0 (some (wstr "a.b"))).trace,
          ev.is_activation = false :=
  create_object_denied_before_activation (host0 3) ctx0 (some (wstr "a.b")) (by decide)
    (Or.inr (Or.inr (by decide)))

/-! ## LTrim and Trim -/

theorem Global_LTrim_scan_le (env : Env) (s : List WCHAR) :
    Global_LTrim_scan env s ≤ s.length := by
  induction s with
  | nil => simp [Global_LTrim_scan]
  | cons c cs ih =>
    unfold Global_LTrim_scan
    split_ifs
    · simp only [List.length_cons]; omega
    · omega

/-- What the first loop steps over is whitespace other than NUL. -/
theorem Global_LTrim_scan_spaces (env : Env) (s : List WCHAR) :
    ∀ j, j < Global_LTrim_scan env s →
      ∃ c, s[j]? = some c ∧ c ≠ 0 ∧ env.isspaceW c = true := by
  induction s with
  | nil => intro j hj; simp [Global_LTrim_scan] at hj
  | cons c cs ih =>
    intro j hj
    unfold Global_LTrim_scan at hj
    split_ifs at hj with h
    · cases j with
      | zero => exact ⟨c, by simp, h.1, h.2⟩
      | succ j =>
        obtain ⟨d, hd, h0, hsp⟩ := ih j (by omega)
        exact ⟨d, by simpa using hd, h0, hsp⟩
    · omega

/-- The first loop stops on a code unit that is NUL or no whitespace. -/
theorem Global_LTrim_scan_stop (env : Env) (s : List WCHAR) :
    ∀ c, s[Global_LTrim_scan env s]? = some c → ¬ (c ≠ 0 ∧ env.isspaceW c = true) := by
  induction s with
  | nil => intro c hc; simp at hc
  | cons d ds ih =>
    intro c hc
    unfold Global_LTrim_scan at hc
    split_ifs at hc with h
    · exact ih c (by simpa using hc)
    · simp only [List.getElem?_cons_zero, Option.some.injEq] at hc
      subst hc
      exact h

theorem Global_Trim_scan_le (env : Env) (s : List WCHAR) (b i : Nat) :
    Global_Trim_scan env s b i ≤ i := by
  induction i with
  | zero => simp [Global_Trim_scan]
  | succ i ih =>
    unfold Global_Trim_scan
    split_ifs
    · omega
    · omega

theorem Global_Trim_scan_above (env : Env) (s : List WCHAR) (b i : Nat) (hb : b < i) :
    b < Global_Trim_scan env s b i := by
  induction i with
  | zero => omega
  | succ i ih =>
    unfold Global_Trim_scan
    split_ifs with h
    · exact ih h.1
    · omega

/-- What the second loop steps over is whitespace. -/
theorem Global_Trim_scan_spaces (env : Env) (s : List WCHAR) (b i : Nat) :
    ∀ j, Global_Trim_scan env s b i ≤ j → j < i → env.isspaceW (s.getD j 0) = true := by
  induction i with
  | zero => intro j _ hj; omega
  | succ i ih =>
    intro j hj1 hj2
    unfold Global_Trim_scan at hj1
    split_ifs at hj1 with h
    · by_cases hji : j = i
      · subst hji; exact h.2
      · exact ih j hj1 (by omega)
    · omega

/-- The second loop stops above `begin_ptr + 1` only on a code unit that is no
whitespace. -/
theorem Global_Trim_scan_stop (env : Env) (s : List WCHAR) (b i : Nat)
    (h : b + 1 < Global_Trim_scan env s b i) :
    env.isspaceW (s.getD (Global_Trim_scan env s b i - 1) 0) = false := by
  induction i with
  | zero => simp [Global_Trim_scan] at h
  | succ i ih =>
    unfold Global_Trim_scan at h ⊢
    split_ifs at h ⊢ with hc
    · exact ih h
    · simp only [Nat.add_sub_cancel]
      have hbi : b < i := by omega
      cases hsp : env.isspaceW (s.getD i 0) with
      | false => rfl
      | true => exact absurd ⟨hbi, hsp⟩ hc

/-- The ends of a slice of a list. -/
theorem slice_head_getLast (s : List WCHAR) (b e : Nat) (hbe : b < e) (he : e ≤ s.length) :
    ((s.drop b).take (e - b)).head? = s[b]?
      ∧ ((s.drop b).take (e - b)).getLast? = s[e - 1]? := by
  constructor
  · rw [List.head?_take, if_neg (by omega), List.head?_drop]
  · rw [List.getLast?_eq_getElem?, List.getElem?_take, List.length_take, List.length_drop,
      List.getElem?_drop]
    have h1 : min (e - b) (s.length - b) = e - b := by omega
    rw [h1, if_pos (by omega)]
    congr 1
    omega

/-- C11: for every string `s`, `Trim(s)` succeeds (the allocator providing the
result buffer, NUL counting as no whitespace) and stores a contiguous substring
`r` of `s`, `s = pre ++ r ++ post`, where everything removed is whitespace and
`r` is empty or begins and ends with a code unit that is no whitespace;
`Trim(" ab ")` is `"ab"`. -/
theorem Global_Trim_strips_both_ends (env : Env) (s : List WCHAR) (res : Option VARIANT)
    (hnul : env.isspaceW 0 = false)
    (hmem : ∀ k, k ≤ s.length → env.alloc_ok k = true) :
    (∃ pre r post, s = pre ++ r ++ post
        ∧ (∀ c ∈ pre, env.isspaceW c = true)
        ∧ (∀ c ∈ post, env.isspaceW c = true)
        ∧ (∀ c, r.head? = some c → env.isspaceW c = false)
        ∧ (∀ c, r.getLast? = some c → env.isspaceW c = false)
        ∧ Global_Trim env [VT_BSTR (some s)] res
            = Outcome.ret S_OK (res.map (fun _ => VT_BSTR (some r))))
      ∧ Global_Trim env0 [VT_BSTR (some (wstr " ab "))] (some VT_EMPTY)
          = Outcome.ret S_OK (some (VT_BSTR (some (wstr "ab")))) := by
  refine ⟨?_, by decide⟩
  have hb := Global_LTrim_scan_le env s
  have hstop := Global_LTrim_scan_stop env s
  have hpre := Global_LTrim_scan_spaces env s
  have he := Global_Trim_scan_le env s (Global_LTrim_scan env s) s.length
  have hpost := Global_Trim_scan_spaces env s (Global_LTrim_scan env s) s.length
  have hlast := Global_Trim_scan_stop env s (Global_LTrim_scan env s) s.length
  have habove := Global_Trim_scan_above env s (Global_LTrim_scan env s) s.length
  generalize hB : Global_LTrim_scan env s = b at *
  generalize hE : Global_Trim_scan env s b s.length = e at *
  have hbe : b ≤ e := by
    by_cases h : b < s.length
    · exact Nat.le_of_lt (habove h)
    · have : b = s.length := by omega
      subst this
      cases hlen : s.length with
      | zero => rw [hlen] at hE; simp [Global_Trim_scan] at hE; omega
      | succ n =>
        rw [hlen] at hE
        unfold Global_Trim_scan at hE
        rw [if_neg (by omega)] at hE
        omega
  have hfirst : b < e → ∀ c, s[b]? = some c → env.isspaceW c = false := by
    intro _ c hc
    have := hstop c hc
    by_cases h0 : c = 0
    · rw [h0]; exact hnul
    · cases hsp : env.isspaceW c with
      | false => rfl
      | true => exact absurd ⟨h0, hsp⟩ this
  refine ⟨s.take b, (s.drop b).take (e - b), s.drop e, ?_, ?_, ?_, ?_, ?_, ?_⟩
  · have h1 : (s.drop b).drop (e - b) = s.drop e := by
      rw [List.drop_drop]; congr 1; omega
    rw [List.append_assoc, ← h1, List.take_append_drop, List.take_append_drop]
  · intro c hc
    rw [List.mem_take_iff_getElem] at hc
    obtain ⟨i, hi, hic⟩ := hc
    obtain ⟨d, hd, _, hsp⟩ := hpre i (by omega)
    rw [List.getElem?_eq_getElem (by omega)] at hd
    simp only [Option.some.injEq] at hd
    rw [← hic, hd]
    exact hsp
  · intro c hc
    rw [List.mem_drop_iff_getElem] at hc
    obtain ⟨i, hi, hic⟩ := hc
    have := hpost (e + i) (by omega) (by omega)
    rw [List.getD_eq_getElem s 0 (by omega)] at this
    rw [← hic]
    exact this
  · intro c hc
    by_cases hlt : b < e
    · rw [(slice_head_getLast s b e hlt he).1] at hc
      exact hfirst hlt c hc
    · have : e - b = 0 := by omega
      rw [this] at hc
      simp at hc
  · intro c hc
    by_cases hlt : b < e
    · rw [(slice_head_getLast s b e hlt he).2] at hc
      by_cases h1 : b + 1 < e
      · have := hlast h1
        rw [List.getD_eq_getElem?_getD, hc] at this
        simpa using this
      · have : e - 1 = b := by omega
        rw [this] at hc
        exact hfirst hlt c hc
    · have : e - b = 0 := by omega
      rw [this] at hc
      simp at hc
  · have hal := SysAllocStringLen_inside env s b (e - b) (hmem _ (by omega)) (by omega)
    have hc : ((e : Int) - (b : Int)) = ((e - b : Nat) : Int) := by omega
    simp only [Global_Trim, SysStringLen, hB, hE, hc, hal]
    cases res <;> rfl

theorem Global_Trim_strips_both_ends_witness :
    (∃ pre r post, wstr " ab " = pre ++ r ++ post
        ∧ (∀ c ∈ pre, env0.isspaceW c = true)
        ∧ (∀ c ∈ post, env0.isspaceW c = true)
        ∧ (∀ c, r.head? = some c → env0.isspaceW c = false)
        ∧ (∀ c, r.getLast? = some c → env0.isspaceW c = false)
        ∧ Global_Trim env0 [VT_BSTR (some (wstr " ab "))] (some VT_EMPTY)
            = Outcome.ret S_OK ((some VT_EMPTY).map (fun _ => VT_BSTR (some r))))
      ∧ Global_Trim env0 [VT_BSTR (some (wstr " ab "))] (some VT_EMPTY)
          = Outcome.ret S_OK (some (VT_BSTR (some (wstr "ab")))) :=
  Global_Trim_strips_both_ends env0 (wstr " ab ") (some VT_EMPTY) rfl (fun _ _ => rfl)

/-- On a string without embedded NUL `LTrim` removes exactly the leading
whitespace: the result is a suffix of `s`, what is removed is whitespace, and
the result is empty or begins with a code unit that is no whitespace. -/
theorem Global_LTrim_of_no_nul (env : Env) (s : List WCHAR) (res : Option VARIANT)
    (h0 : 0 ∉ s) (hmem : ∀ k, k ≤ s.length → env.alloc_ok k = true) :
    ∃ pre r, s = pre ++ r
      ∧ (∀ c ∈ pre, env.isspaceW c = true)
      ∧ (∀ c, r.head? = some c → env.isspaceW c = false)
      ∧ Global_LTrim env [VT_BSTR (some s)] res
          = Outcome.ret S_OK (res.map (fun _ => VT_BSTR (some r))) := by
  have hstop := Global_LTrim_scan_stop env s
  have hpre := Global_LTrim_scan_spaces env s
  generalize hB : Global_LTrim_scan env s = b at *
  refine ⟨s.take b, s.drop b, (List.take_append_drop b s).symm, ?_, ?_, ?_⟩
  · intro c hc
    rw [List.mem_take_iff_getElem] at hc
    obtain ⟨i, hi, hic⟩ := hc
    obtain ⟨d, hd, _, hsp⟩ := hpre i (by omega)
    rw [List.getElem?_eq_getElem (by omega)] at hd
    simp only [Option.some.injEq] at hd
    rw [← hic, hd]
    exact hsp
  · intro c hc
    rw [List.head?_drop] at hc
    have hne : c ≠ 0 := by
      intro e
      subst e
      exact h0 (List.getElem?_mem hc)
    cases hsp : env.isspaceW c with
    | false => rfl
    | true => exact absurd ⟨hne, hsp⟩ (hstop c hc)
  · have hd : 0 ∉ s.drop b := fun e => h0 (List.mem_of_mem_drop e)
    have hlen : (s.drop b).length ≤ s.length := by simp
    simp only [Global_LTrim, hB, SysAllocString, c_string_of_no_nul _ hd, hmem _ hlen]
    cases res <;> rfl

/-- C12: the claim fails on the code at `LTrim("a\0b")`, a string with an
embedded NUL and no leading whitespace: the result is copied with
`SysAllocString`, which stops at the first NUL, so `"a"` comes back, which is
no suffix of the argument. -/
theorem Global_LTrim_stops_at_embedded_NUL (env : Env) (res : Option VARIANT)
    (ha : env.isspaceW 97 = false) (hmem : env.alloc_ok 1 = true) :
    Global_LTrim env [VT_BSTR (some [97, 0, 98])] res
        = Outcome.ret S_OK (res.map (fun _ => VT_BSTR (some [97])))
      ∧ ¬ (([97] : List WCHAR) <:+ [97, 0, 98]) := by
  refine ⟨?_, by decide⟩
  simp only [Global_LTrim, Global_LTrim_scan, ha, Bool.false_eq_true, and_false, if_false,
    List.drop_zero, SysAllocString, c_string]
  simp [List.takeWhile, hmem]
  cases res <;> rfl

theorem Global_LTrim_stops_at_embedded_NUL_witness :
    Global_LTrim env0 [VT_BSTR (some [97, 0, 98])] (some VT_EMPTY)
        = Outcome.ret S_OK ((some VT_EMPTY).map (fun _ => VT_BSTR (some [97])))
      ∧ ¬ (([97] : List WCHAR) <:+ [97, 0, 98]) :=
  Global_LTrim_stops_at_embedded_NUL env0 (some VT_EMPTY) rfl rfl

end VBScript

/-! ## Message box -/

namespace VBScript

open VARIANT

theorem show_msgbox_handling_trace (host : Host) (ui : SiteUI) (ctx : script_ctx_t) :
    ∀ ev ∈ (show_msgbox_handling host ui ctx).2, ev.touches_window = false := by
  simp only [show_msgbox_handling]
  split_ifs <;> simp [UIEvent.touches_window]

/-- C26: when the site exposes the UI control and its answer for the
message-box item is NoUIDefault, the prompt returns `S_OK` with the fixed result
`VT_I2 0` (written only if a slot is present); its only calls are the query for
the UI control, the behaviour query and the release of the UI control: the site
window is not asked for, the modeless state is not changed, no message box is
shown. -/
theorem show_msgbox_no_ui_default (host : Host) (ui : SiteUI) (ctx : script_ctx_t)
    (prompt : BSTR) (res : Option VARIANT)
    (hsite : ctx.site ≠ NULL)
    (hqi : FAILED (host.QueryInterface ctx.site IID.IActiveScriptSiteUIControl).1 = false)
    (hgb : FAILED (ui.GetUIBehavior
      (host.QueryInterface ctx.site IID.IActiveScriptSiteUIControl).2).1 = false)
    (hval : (ui.GetUIBehavior (host.QueryInterface ctx.site IID.IActiveScriptSiteUIControl).2).2
      = some SCRIPTUICHANDLING_NOUIDEFAULT) :
    (show_msgbox host ui ctx prompt res).outcome
        = Outcome.ret S_OK (res.map (fun _ => VT_I2 0))
      ∧ (show_msgbox host ui ctx prompt res).trace
        = [UIEvent.QueryInterface ctx.site IID.IActiveScriptSiteUIControl,
            UIEvent.GetUIBehavior (host.QueryInterface ctx.site IID.IActiveScriptSiteUIControl).2,
            UIEvent.Release (host.QueryInterface ctx.site IID.IActiveScriptSiteUIControl).2]
      ∧ ∀ ev ∈ (show_msgbox host ui ctx prompt res).trace, ev.touches_window = false := by
  have hh : show_msgbox_handling host ui ctx
      = (SCRIPTUICHANDLING_NOUIDEFAULT,
          [UIEvent.QueryInterface ctx.site IID.IActiveScriptSiteUIControl,
            UIEvent.GetUIBehavior (host.QueryInterface ctx.site IID.IActiveScriptSiteUIControl).2,
            UIEvent.Release (host.QueryInterface ctx.site IID.IActiveScriptSiteUIControl).2]) := by
    simp [show_msgbox_handling, SUCCEEDED, hqi, hgb, hval]
  have hne : ¬ (SCRIPTUICHANDLING_NOUIDEFAULT = SCRIPTUICHANDLING_ALLOW) := by decide
  simp only [show_msgbox, hsite, if_false, hh, hne, if_true]
  refine ⟨?_, ?_, ?_⟩
  · cases res <;> rfl
  · first | rfl | trivial
  · simp [UIEvent.touches_window]

theorem show_msgbox_no_ui_default_witness :
    (show_msgbox (host0 0) (ui0 2) ctx0 (some (wstr "hi")) (some VT_EMPTY)).outcome
        = Outcome.ret S_OK ((some VT_EMPTY).map (fun _ => VT_I2 0))
      ∧ (show_msgbox (host0 0) (ui0 2) ctx0 (some (wstr "hi")) (some VT_EMPTY)).trace
        = [UIEvent.QueryInterface ctx0.site IID.IActiveScriptSiteUIControl,
            UIEvent.GetUIBehavior
              ((host0 0).QueryInterface ctx0.site IID.IActiveScriptSiteUIControl).2,
            UIEvent.Release ((host0 0).QueryInterface ctx0.site IID.IActiveScriptSiteUIControl).2]
      ∧ ∀ ev ∈ (show_msgbox (host0 0) (ui0 2) ctx0 (some (wstr "hi")) (some VT_EMPTY)).trace,
          ev.touches_window = false :=
  show_msgbox_no_ui_default (host0 0) (ui0 2) ctx0 (some (wstr "hi")) (some VT_EMPTY)
    (by decide) rfl rfl rfl

/-- C27: when the site exposes the UI control and its answer for the
message-box item is a value other than Allow and NoUIDefault, the prompt fails
with `E_FAIL` (Blocked) leaving the output slot as it was; the site window is
not asked for, the modeless state is not changed, no message box is shown. -/
theorem show_msgbox_blocked (host : Host) (ui : SiteUI) (ctx : script_ctx_t)
    (prompt : BSTR) (res : Option VARIANT) (handling : Nat)
    (hsite : ctx.site ≠ NULL)
    (hqi : FAILED (host.QueryInterface ctx.site IID.IActiveScriptSiteUIControl).1 = false)
    (hgb : FAILED (ui.GetUIBehavior
      (host.QueryInterface ctx.site IID.IActiveScriptSiteUIControl).2).1 = false)
    (hval : (ui.GetUIBehavior (host.QueryInterface ctx.site IID.IActiveScriptSiteUIControl).2).2
      = some handling)
    (h1 : handling ≠ SCRIPTUICHANDLING_ALLOW) (h2 : handling ≠ SCRIPTUICHANDLING_NOUIDEFAULT) :
    (show_msgbox host ui ctx prompt res).outcome = Outcome.ret E_FAIL res
      ∧ FAILED E_FAIL = true
      ∧ ∀ ev ∈ (show_msgbox host ui ctx prompt res).trace, ev.touches_window = false := by
  have hh : show_msgbox_handling host ui ctx
      = (handling,
          [UIEvent.QueryInterface ctx.site IID.IActiveScriptSiteUIControl,
            UIEvent.GetUIBehavior (host.QueryInterface ctx.site IID.IActiveScriptSiteUIControl).2,
            UIEvent.Release (host.QueryInterface ctx.site IID.IActiveScriptSiteUIControl).2]) := by
    simp [show_msgbox_handling, SUCCEEDED, hqi, hgb, hval]
  simp only [show_msgbox, hsite, if_false, hh, h1, h2]
  refine ⟨?_, ?_, ?_⟩
  · first | rfl | trivial
  · decide
  · simp [UIEvent.touches_window]

theorem show_msgbox_blocked_witness :
    (show_msgbox (host0 0) (ui0 1) ctx0 (some (wstr "hi")) (some VT_EMPTY)).outcome
        = Outcome.ret E_FAIL (some VT_EMPTY)
      ∧ FAILED E_FAIL = true
      ∧ ∀ ev ∈ (show_msgbox (host0 0) (ui0 1) ctx0 (some (wstr "hi")) (some VT_EMPTY)).trace,
          ev.touches_window = false :=
  show_msgbox_blocked (host0 0) (ui0 1) ctx0 (some (wstr "hi")) (some VT_EMPTY) 1
    (by decide) rfl rfl rfl (by decide) (by decide)

/-- C28: in every execution of the prompt, with `w` the window interface of
the site: a successful disabling of the modeless state is followed at once by
the message box, one request to enable again and the release of `w`, and
nothing before it changes the modeless state or shows a message box; a message
box or a request to enable occurs only after a successful disabling; once the
window interface has been obtained, the last call is its release. -/
theorem show_msgbox_modeless_bracket (host : Host) (ui : SiteUI) (ctx : script_ctx_t)
    (prompt : BSTR) (res : Option VARIANT) (w : PTR)
    (hsite : ctx.site ≠ NULL)
    (hw : w = (host.QueryInterface ctx.site IID.IActiveScriptSiteWindow).2) :
    (UIEvent.EnableModeless w false ∈ (show_msgbox host ui ctx prompt res).trace →
        SUCCEEDED (ui.EnableModeless w false) = true →
        ∃ pre title, (∀ ev ∈ pre, ev.is_prompt_step = false)
          ∧ (show_msgbox host ui ctx prompt res).trace
              = pre ++ [UIEvent.EnableModeless w false,
                  UIEvent.MessageBoxW (ui.GetWindow w).2 prompt title,
                  UIEvent.EnableModeless w true, UIEvent.Release w])
      ∧ (∀ ev ∈ (show_msgbox host ui ctx prompt res).trace, ev.needs_disabled = true →
          UIEvent.EnableModeless w false ∈ (show_msgbox host ui ctx prompt res).trace
            ∧ SUCCEEDED (ui.EnableModeless w false) = true)
      ∧ (UIEvent.QueryInterface ctx.site IID.IActiveScriptSiteWindow
            ∈ (show_msgbox host ui ctx prompt res).trace →
          FAILED (host.QueryInterface ctx.site IID.IActiveScriptSiteWindow).1 = false →
          (show_msgbox host ui ctx prompt res).trace.getLast? = some (UIEvent.Release w)) := by
  subst hw
  have hpre := show_msgbox_handling_trace host ui ctx
  simp only [show_msgbox, hsite, if_false]
  generalize show_msgbox_handling host ui ctx = h at hpre ⊢
  obtain ⟨hv, pre0⟩ := h
  simp only at hpre ⊢
  have hnoE : ∀ a b, UIEvent.EnableModeless a b ∉ pre0 := fun a b hm => by
    have := hpre _ hm
    simp [UIEvent.touches_window] at this
  have hnoQ : UIEvent.QueryInterface ctx.site IID.IActiveScriptSiteWindow ∉ pre0 := fun hm => by
    have := hpre _ hm
    simp [UIEvent.touches_window] at this
  have hnoN : ∀ ev ∈ pre0, ev.needs_disabled = false := by
    intro ev hm
    have := hpre _ hm
    cases ev <;> simp_all [UIEvent.touches_window, UIEvent.needs_disabled]
  have hnoP : ∀ ev ∈ pre0, ev.is_prompt_step = false := by
    intro ev hm
    have := hpre _ hm
    cases ev <;> simp_all [UIEvent.touches_window, UIEvent.is_prompt_step]
  by_cases hA : hv = SCRIPTUICHANDLING_ALLOW
  · simp only [hA, if_true, show_msgbox_window]
    by_cases hq : FAILED (host.QueryInterface ctx.site IID.IActiveScriptSiteWindow).1 = true
    · simp only [hq, if_true]
      refine ⟨?_, ?_, ?_⟩
      · intro hm
        simp [hnoE] at hm
      · intro ev hm hn
        exfalso
        simp only [List.mem_append, List.mem_singleton] at hm
        rcases hm with hm | hm
        · rw [hnoN ev hm] at hn; cases hn
        · subst hm; simp [UIEvent.needs_disabled] at hn
      · intro _ hf
        cases hf
    · have hq2 : FAILED (host.QueryInterface ctx.site IID.IActiveScriptSiteWindow).1 = false := by
        simpa using hq
      simp only [hq2, Bool.false_eq_true, if_false]
      by_cases hg : SUCCEEDED (ui.GetWindow
          (host.QueryInterface ctx.site IID.IActiveScriptSiteWindow).2).1 = true
      · simp only [hg, if_true]
        by_cases hd : SUCCEEDED (ui.EnableModeless
            (host.QueryInterface ctx.site IID.IActiveScriptSiteWindow).2 false) = true
        · have htr : ∀ (o₁ o₂ : Outcome) (c : Prop) [Decidable c] (t : List UIEvent),
              (if c then (⟨o₁, t⟩ : MsgBox) else ⟨o₂, t⟩).trace = t := by
            intro o₁ o₂ c _ t
            split_ifs <;> rfl
          simp only [hd, if_true, htr]
          refine ⟨?_, ?_, ?_⟩
          · intro _ _
            refine ⟨pre0 ++ [UIEvent.QueryInterface ctx.site IID.IActiveScriptSiteWindow,
              UIEvent.GetWindow (host.QueryInterface ctx.site IID.IActiveScriptSiteWindow).2],
              (if ctx.safeopt &&& INTERFACE_USES_SECURITY_MANAGER ≠ 0 then vbscriptW else emptyW),
              ?_, ?_⟩
            · intro ev hm
              simp only [List.mem_append, List.mem_cons, List.mem_singleton,
                List.not_mem_nil, or_false] at hm
              rcases hm with hm | hm | hm
              · exact hnoP ev hm
              · subst hm; rfl
              · subst hm; rfl
            · simp only [List.append_assoc, List.cons_append, List.nil_append]
          · intro ev _ _
            exact ⟨by simp, trivial⟩
          · intro _ _
            simp
        · simp only [hd, Bool.false_eq_true, if_false]
          refine ⟨?_, ?_, ?_⟩
          · intro _ hs
            exact hs.elim
          · intro ev hm hn
            exfalso
            simp only [List.mem_append, List.mem_cons, List.mem_singleton,
              List.not_mem_nil, or_false, or_assoc] at hm
            rcases hm with hm | hm | hm | hm | hm
            · rw [hnoN ev hm] at hn; cases hn
            · subst hm; simp [UIEvent.needs_disabled] at hn
            · subst hm; simp [UIEvent.needs_disabled] at hn
            · subst hm; simp [UIEvent.needs_disabled] at hn
            · subst hm; simp [UIEvent.needs_disabled] at hn
          · intro _ _
            simp
      · simp only [hg, Bool.false_eq_true, if_false]
        refine ⟨?_, ?_, ?_⟩
        · intro hm
          simp [hnoE] at hm
        · intro ev hm hn
          exfalso
          simp only [List.mem_append, List.mem_cons, List.mem_singleton,
            List.not_mem_nil, or_false, or_assoc] at hm
          rcases hm with hm | hm | hm | hm
          · rw [hnoN ev hm] at hn; cases hn
          · subst hm; simp [UIEvent.needs_disabled] at hn
          · subst hm; simp [UIEvent.needs_disabled] at hn
          · subst hm; simp [UIEvent.needs_disabled] at hn
        · intro _ _
          simp
  · have htr : ∀ (o₁ o₂ : Outcome) (c : Prop) [Decidable c] (t : List UIEvent),
        (if c then (⟨o₁, t⟩ : MsgBox) else ⟨o₂, t⟩).trace = t := by
      intro o₁ o₂ c _ t
      split_ifs <;> rfl
    simp only [hA, if_false, htr]
    refine ⟨?_, ?_, ?_⟩
    · intro hm
      exact absurd hm (hnoE _ _)
    · intro ev hm hn
      rw [hnoN ev hm] at hn; cases hn
    · intro hm
      exact absurd hm hnoQ

theorem show_msgbox_modeless_bracket_witness :
    (UIEvent.EnableModeless 201 false
          ∈ (show_msgbox (host0 0) (ui0 0) ctx0 (some (wstr "hi")) (some VT_EMPTY)).trace →
        SUCCEEDED ((ui0 0).EnableModeless 201 false) = true →
        ∃ pre title, (∀ ev ∈ pre, ev.is_prompt_step = false)
          ∧ (show_msgbox (host0 0) (ui0 0) ctx0 (some (wstr "hi")) (some VT_EMPTY)).trace
              = pre ++ [UIEvent.EnableModeless 201 false,
                  UIEvent.MessageBoxW ((ui0 0).GetWindow 201).2 (some (wstr "hi")) title,
                  UIEvent.EnableModeless 201 true, UIEvent.Release 201])
      ∧ (∀ ev ∈ (show_msgbox (host0 0) (ui0 0) ctx0 (some (wstr "hi")) (some VT_EMPTY)).trace,
          ev.needs_disabled = true →
          UIEvent.EnableModeless 201 false
              ∈ (show_msgbox (host0 0) (ui0 0) ctx0 (some (wstr "hi")) (some VT_EMPTY)).trace
            ∧ SUCCEEDED ((ui0 0).EnableModeless 201 false) = true)
      ∧ (UIEvent.QueryInterface ctx0.site IID.IActiveScriptSiteWindow
            ∈ (show_msgbox (host0 0) (ui0 0) ctx0 (some (wstr "hi")) (some VT_EMPTY)).trace →
          FAILED ((host0 0).QueryInterface ctx0.site IID.IActiveScriptSiteWindow).1 = false →
          (show_msgbox (host0 0) (ui0 0) ctx0 (some (wstr "hi")) (some VT_EMPTY)).trace.getLast?
            = some (UIEvent.Release 201)) :=
  show_msgbox_modeless_bracket (host0 0) (ui0 0) ctx0 (some (wstr "hi")) (some VT_EMPTY) 201
    (by decide) rfl

/-! ## Failures and the output slot -/

/-- C29: the claim fails on the code when the result string cannot be
allocated: `Mid("abc", 1)` and `Chr(65)` with a present slot holding Empty return
`E_OUTOFMEMORY`, a failure, after the slot has been given the tag `VT_BSTR` and a
NULL string; and when the created object refuses the dispatch interface,
`CreateObject` returns that failure after `QueryInterface` has stored its
pointer in the payload of the slot. -/
theorem failure_after_slot_write :
    Global_Mid env_oom [VT_BSTR (some (wstr "abc")), VT_I2 1] (some VT_EMPTY)
        = Outcome.ret E_OUTOFMEMORY (some (VT_BSTR none))
      ∧ Global_Chr env_oom [VT_I2 65] (some VT_EMPTY)
        = Outcome.ret E_OUTOFMEMORY (some (VT_BSTR none))
      ∧ FAILED E_OUTOFMEMORY = true
      ∧ VT_BSTR none ≠ VT_EMPTY
      ∧ (Global_CreateObject host_no_dispatch ctx0 [VT_BSTR (some (wstr "a.b"))]
          (some VT_EMPTY)).outcome = Outcome.ret 0x80004002 (some VT_EMPTY)
      ∧ FAILED 0x80004002 = true
      ∧ (Global_CreateObject host_no_dispatch ctx0 [VT_BSTR (some (wstr "a.b"))]
          (some VT_EMPTY)).payload_written = some NULL := by
  decide

/-- The handlers that allocate before they touch the slot leave it as it was
when the allocation fails: `Left` is one of them. -/
theorem Global_Left_out_of_memory (env : Env) (s : List WCHAR) (lenv : VARIANT) (n : Int)
    (res : Option VARIANT) (hn : to_int lenv = Except.ok n) (h0 : 0 ≤ n)
    (hmem : env.alloc_ok (min n.toNat s.length) = false) :
    Global_Left env [VT_BSTR (some s), lenv] res = Outcome.ret E_OUTOFMEMORY res := by
  obtain ⟨k, rfl⟩ := Int.eq_ofNat_of_zero_le h0
  simp only [Int.toNat_ofNat] at hmem
  have hneg : ¬ ((k : Int) < 0) := by omega
  have hlen : (if (k : Int) > (s.length : Int) then (s.length : Int) else (k : Int))
      = ((min k s.length : Nat) : Int) := by
    split_ifs with h <;> omega
  have h1 : ¬ (((min k s.length : Nat) : Int) < 0) := by omega
  simp only [Global_Left, hn, hneg, if_false, SysStringLen, hlen, SysAllocStringLen, h1,
    Int.toNat_ofNat, hmem, if_true]

/-! ## Argument domains -/

/-- A negative count makes `Space` return `E_NOTIMPL`. -/
theorem Global_Space_negative (env : Env) (nv : VARIANT) (n : Int) (res : Option VARIANT)
    (hn : to_int nv = Except.ok n) (hneg : n < 0) :
    Global_Space env [nv] res = Outcome.ret E_NOTIMPL res := by
  simp [Global_Space, hn, hneg]

/-- A code outside `1..255` makes `Chr` return `E_FAIL`. -/
theorem Global_Chr_outside_domain (env : Env) (cv : VARIANT) (c : Int) (res : Option VARIANT)
    (hc : to_int cv = Except.ok c) (hout : c ≤ 0 ∨ 256 ≤ c) :
    Global_Chr env [cv] res = Outcome.ret E_FAIL res := by
  have h : c ≤ 0 ∨ c ≥ 0x100 := by omega
  simp only [Global_Chr, hc, h, if_true]

/-- C30: the claim fails on the code at `Space(-1)`: it returns `E_NOTIMPL`, the
code the unimplemented builtins return, where `Left("abc", -1)`, `InStr(0, "abc",
"b")` and `Chr(0)` return `E_FAIL`; the two codes differ. -/
theorem Global_Space_negative_is_E_NOTIMPL :
    Global_Space env0 [VT_I2 (-1)] (some VT_EMPTY) = Outcome.ret E_NOTIMPL (some VT_EMPTY)
      ∧ Global_Left env0 [VT_BSTR (some (wstr "abc")), VT_I2 (-1)] (some VT_EMPTY)
        = Outcome.ret E_FAIL (some VT_EMPTY)
      ∧ Global_InStr env0 [VT_I2 0, VT_BSTR (some (wstr "abc")), VT_BSTR (some (wstr "b"))]
          (some VT_EMPTY) = Outcome.ret E_FAIL (some VT_EMPTY)
      ∧ Global_Chr env0 [VT_I2 0] (some VT_EMPTY) = Outcome.ret E_FAIL (some VT_EMPTY)
      ∧ Stub.Global_CInt.run env0 [VT_I2 (-1)] (some VT_EMPTY)
        = Outcome.ret E_NOTIMPL (some VT_EMPTY)
      ∧ E_NOTIMPL ≠ E_FAIL := by
  decide

/-! ## Object creation: safety confirmation and site binding -/

theorem get_sec_mgr_no_safety_query (host : Host) (ctx : script_ctx_t) :
    ∀ ev ∈ (get_sec_mgr host ctx).trace, ev.is_safety_query = false := by
  simp only [get_sec_mgr]
  split_ifs <;> simp [Event.is_safety_query]

theorem create_object_policy_check_no_safety_query (host : Host) (ctx : script_ctx_t)
    (guid : GUID) :
    ∀ ev ∈ (create_object_policy_check host ctx guid).trace, ev.is_safety_query = false := by
  have hs := get_sec_mgr_no_safety_query host ctx
  simp only [create_object_policy_check]
  split_ifs
  · simpa using hs
  · intro ev hev
    simp only [List.mem_append, List.mem_singleton] at hev
    rcases hev with h | h
    · exact hs ev h
    · subst h; rfl
  · intro ev hev
    simp only [List.mem_append, List.mem_singleton] at hev
    rcases hev with h | h
    · exact hs ev h
    · subst h; rfl
  · simp

theorem create_object_bind_site_no_safety_query (host : Host) (ctx : script_ctx_t) (obj : PTR) :
    ∀ ev ∈ (create_object_bind_site host ctx obj).2, ev.is_safety_query = false := by
  simp only [create_object_bind_site]
  split_ifs <;> simp [Event.is_safety_query]

/-- The policy check never takes or drops a reference on the class factory,
the object, its site acceptor, the site or the dispatch interface. -/
theorem create_object_policy_check_refs_count (host : Host) (ctx : script_ctx_t) (r : Ref)
    (h1 : r ≠ Ref.sp) (h2 : r ≠ Ref.secmgr) :
    (create_object_policy_check_refs host ctx).count (RefEvent.acquire r) = 0
      ∧ (create_object_policy_check_refs host ctx).count (RefEvent.release r) = 0 := by
  have h1s : ¬ (Ref.sp = r) := fun e => h1 e.symm
  have h2s : ¬ (Ref.secmgr = r) := fun e => h2 e.symm
  simp only [create_object_policy_check_refs, get_sec_mgr_refs]
  split_ifs <;> simp [List.count_cons, h1s, h2s]

/-- What `create_object` does once the instance has been created: the name
was resolved, the policy check passed, the class object was obtained and
`CreateInstance` succeeded. -/
theorem create_object_instantiated (host : Host) (ctx : script_ctx_t) (progid : BSTR)
    (guid : GUID) (pc : PolicyCheck) (cf obj : PTR)
    (hguid : guid = (host.CLSIDFromProgID progid).2)
    (hpc : pc = create_object_policy_check host ctx guid)
    (hcf : cf = (host.CoGetClassObject guid).2)
    (hobj : obj = (host.CreateInstance cf).2)
    (h0 : FAILED (host.CLSIDFromProgID progid).1 = false)
    (hp : pc.passed = true)
    (h2 : FAILED (host.CoGetClassObject guid).1 = false)
    (h3 : FAILED (host.CreateInstance cf).1 = false) :
    (create_object host ctx progid).obj
        = (if (create_object_confirm_safety host pc.secmgr guid obj URLPOLICY_ALLOW).1 = false
            then NULL
          else if (create_object_bind_site host pc.ctx obj).1 = false then NULL
          else obj)
      ∧ create_object_refs host ctx progid
        = create_object_policy_check_refs host ctx ++ [RefEvent.acquire Ref.cf]
            ++ (if SUCCEEDED (host.QueryInterface cf IID.IClassFactoryEx).1 = true
                then [RefEvent.acquire Ref.cfex, RefEvent.release Ref.cfex] else [])
            ++ [RefEvent.acquire Ref.obj]
            ++ create_object_confirm_safety_refs host pc.secmgr guid obj URLPOLICY_ALLOW
            ++ (if (create_object_confirm_safety host pc.secmgr guid obj URLPOLICY_ALLOW).1 = false
                then [] else create_object_bind_site_refs host pc.ctx obj)
      ∧ ∃ pre, (∀ ev ∈ pre, ev.is_safety_query = false)
          ∧ (create_object host ctx progid).trace
            = pre ++ (create_object_confirm_safety host pc.secmgr guid obj URLPOLICY_ALLOW).2
              ++ (if (create_object_confirm_safety host pc.secmgr guid obj URLPOLICY_ALLOW).1
                    = false then []
                  else (create_object_bind_site host pc.ctx obj).2) := by
  subst hguid hpc hcf hobj
  have hpre := create_object_policy_check_no_safety_query host ctx (host.CLSIDFromProgID progid).2
  refine ⟨?_, ?_, ?_⟩
  · simp only [create_object, h0, hp, h2, h3, Bool.false_eq_true, Bool.true_eq_false, if_false]
    split_ifs <;> rfl
  · simp only [create_object_refs, h0, hp, h2, h3, Bool.false_eq_true, Bool.true_eq_false, if_false]
    split_ifs <;> simp
  · refine ⟨[Event.CLSIDFromProgID progid]
        ++ (create_object_policy_check host ctx (host.CLSIDFromProgID progid).2).trace
        ++ [Event.CoGetClassObject (host.CLSIDFromProgID progid).2]
        ++ [Event.QueryInterface (host.CoGetClassObject (host.CLSIDFromProgID progid).2).2
              IID.IClassFactoryEx]
        ++ (if SUCCEEDED (host.QueryInterface
              (host.CoGetClassObject (host.CLSIDFromProgID progid).2).2
              IID.IClassFactoryEx).1 = true
            then [Event.Release (host.QueryInterface
              (host.CoGetClassObject (host.CLSIDFromProgID progid).2).2 IID.IClassFactoryEx).2]
            else [])
        ++ [Event.CreateInstance (host.CoGetClassObject (host.CLSIDFromProgID progid).2).2],
      ?_, ?_⟩
    · intro ev hev
      simp only [List.mem_append, List.mem_singleton] at hev
      rcases hev with ((((h | h) | h) | h) | h) | h
      · subst h; rfl
      · exact hpre ev h
      · subst h; rfl
      · subst h; rfl
      · split_ifs at h
        · simp only [List.mem_singleton] at h
          subst h; rfl
        · simp at h
      · subst h; rfl
    · simp only [create_object, h0, hp, h2, h3, Bool.false_eq_true, Bool.true_eq_false, if_false]
      split_ifs <;> simp

/-- A policy check that passed used a security manager exactly when the
context asks for one. -/
theorem create_object_policy_check_secmgr (host : Host) (ctx : script_ctx_t) (guid : GUID)
    (hp : (create_object_policy_check host ctx guid).passed = true) :
    (create_object_policy_check host ctx guid).secmgr ≠ NULL
      ↔ ctx.safeopt &&& INTERFACE_USES_SECURITY_MANAGER ≠ 0 := by
  revert hp
  simp only [create_object_policy_check]
  split_ifs with h1 h2 h3 <;> simp_all

/-- The safety confirmation with a security manager accepts the object exactly
on a successful query whose answer has the size of a `DWORD` and is allow. -/
theorem create_object_confirm_safety_accepts (host : Host) (secmgr : PTR) (guid : GUID)
    (obj : PTR) (hs : secmgr ≠ NULL) :
    (create_object_confirm_safety host secmgr guid obj URLPOLICY_ALLOW).1 = true
      ↔ (SUCCEEDED (host.QueryCustomPolicy secmgr guid obj).1 = true
          ∧ 4 ≤ (host.QueryCustomPolicy secmgr guid obj).2.length
          ∧ read_DWORD (host.QueryCustomPolicy secmgr guid obj).2 = URLPOLICY_ALLOW) := by
  simp only [create_object_confirm_safety, SUCCEEDED]
  by_cases hf : FAILED (host.QueryCustomPolicy secmgr guid obj).1 = true
  · simp [hs, hf]
  · by_cases hl : 4 ≤ (host.QueryCustomPolicy secmgr guid obj).2.length
    · by_cases hd : read_DWORD (host.QueryCustomPolicy secmgr guid obj).2 = URLPOLICY_ALLOW
      · simp [hs, hf, hl, hd]
      · simp [hs, hf, hl, hd]
    · simp [hs, hf, hl, URLPOLICY_DISALLOW, URLPOLICY_ALLOW]

/-- The calls of the safety confirmation: none without a security manager, the
query first with one, and the release of the object last on a denial. -/
theorem create_object_confirm_safety_trace (host : Host) (secmgr : PTR) (guid : GUID)
    (obj : PTR) (policy : Nat) :
    ((∃ ev ∈ (create_object_confirm_safety host secmgr guid obj policy).2,
        ev.is_safety_query = true) ↔ secmgr ≠ NULL)
      ∧ ((create_object_confirm_safety host secmgr guid obj policy).1 = false →
          (create_object_confirm_safety host secmgr guid obj policy).2.getLast?
            = some (Event.Release obj)) := by
  simp only [create_object_confirm_safety]
  split_ifs <;> simp_all [Event.is_safety_query]

/-- C21: once `create_object` has created the instance, the custom
confirm-object-safety query is made exactly when the context asks for the
security manager, which is when the policy check used one.  With a manager the
object is accepted exactly on a successful query whose answer has at least the
size of a `DWORD` and reads allow; on a failed query, a shorter answer or any
other answer the creation returns `NULL`, the object is released exactly once,
and that release is the last call made. -/
theorem create_object_safety_confirmation (host : Host) (ctx : script_ctx_t) (progid : BSTR)
    (guid : GUID) (pc : PolicyCheck) (cf obj : PTR) (q : HRESULT × List Nat)
    (hguid : guid = (host.CLSIDFromProgID progid).2)
    (hpc : pc = create_object_policy_check host ctx guid)
    (hcf : cf = (host.CoGetClassObject guid).2)
    (hobj : obj = (host.CreateInstance cf).2)
    (hq : q = host.QueryCustomPolicy pc.secmgr guid obj)
    (h0 : FAILED (host.CLSIDFromProgID progid).1 = false)
    (hp : pc.passed = true)
    (h2 : FAILED (host.CoGetClassObject guid).1 = false)
    (h3 : FAILED (host.CreateInstance cf).1 = false) :
    ((∃ ev ∈ (create_object host ctx progid).trace, ev.is_safety_query = true)
        ↔ ctx.safeopt &&& INTERFACE_USES_SECURITY_MANAGER ≠ 0)
      ∧ (pc.secmgr ≠ NULL ↔ ctx.safeopt &&& INTERFACE_USES_SECURITY_MANAGER ≠ 0)
      ∧ (ctx.safeopt &&& INTERFACE_USES_SECURITY_MANAGER ≠ 0 →
          ((create_object_confirm_safety host pc.secmgr guid obj URLPOLICY_ALLOW).1 = true
            ↔ (SUCCEEDED q.1 = true ∧ 4 ≤ q.2.length ∧ read_DWORD q.2 = URLPOLICY_ALLOW)))
      ∧ (ctx.safeopt &&& INTERFACE_USES_SECURITY_MANAGER ≠ 0 →
          ¬ (SUCCEEDED q.1 = true ∧ 4 ≤ q.2.length ∧ read_DWORD q.2 = URLPOLICY_ALLOW) →
          (create_object host ctx progid).obj = NULL
            ∧ (create_object_refs host ctx progid).count (RefEvent.release Ref.obj) = 1
            ∧ outstanding Ref.obj (create_object_refs host ctx progid) = 0
            ∧ (create_object host ctx progid).trace.getLast? = some (Event.Release obj)) := by
  obtain ⟨hO, hR, pre, hpre, hT⟩ :=
    create_object_instantiated host ctx progid guid pc cf obj hguid hpc hcf hobj h0 hp h2 h3
  have hsec : pc.secmgr ≠ NULL ↔ ctx.safeopt &&& INTERFACE_USES_SECURITY_MANAGER ≠ 0 := by
    subst hpc
    exact create_object_policy_check_secmgr host ctx guid hp
  have hct := create_object_confirm_safety_trace host pc.secmgr guid obj URLPOLICY_ALLOW
  have hbs := create_object_bind_site_no_safety_query host pc.ctx obj
  have hcnt := create_object_policy_check_refs_count host ctx Ref.obj (by decide) (by decide)
  refine ⟨?_, hsec, ?_, ?_⟩
  · rw [← hsec, ← hct.1, hT]
    constructor
    · rintro ⟨ev, hev, he⟩
      simp only [List.mem_append] at hev
      rcases hev with (h | h) | h
      · rw [hpre ev h] at he
        cases he
      · exact ⟨ev, h, he⟩
      · split_ifs at h
        · simp at h
        · rw [hbs ev h] at he
          cases he
    · rintro ⟨ev, hev, he⟩
      exact ⟨ev, by simp only [List.mem_append]; exact Or.inl (Or.inr hev), he⟩
  · intro hm
    subst hq
    exact create_object_confirm_safety_accepts host pc.secmgr guid obj (hsec.2 hm)
  · intro hm hno
    subst hq
    have hden : (create_object_confirm_safety host pc.secmgr guid obj URLPOLICY_ALLOW).1
        = false := by
      have := (create_object_confirm_safety_accepts host pc.secmgr guid obj (hsec.2 hm)).not.2 hno
      simpa using this
    refine ⟨?_, ?_, ?_, ?_⟩
    · rw [hO]
      simp only [hden, if_true]
    · rw [hR]
      simp only [create_object_confirm_safety_refs, hden, if_true, List.count_append, hcnt.2]
      split_ifs <;> simp [List.count_cons]
    · rw [hR]
      simp only [outstanding, create_object_confirm_safety_refs, hden, if_true,
        List.count_append, hcnt.1, hcnt.2]
      split_ifs <;> simp [List.count_cons]
    · rw [hT]
      simp only [hden, if_true, List.append_nil]
      have hl := hct.2 hden
      rw [List.getLast?_append, hl]
      rfl

theorem create_object_safety_confirmation_witness :
    (create_object host_unsafe_object ctx0 (some (wstr "a.b"))).obj = NULL
      ∧ (create_object_refs host_unsafe_object ctx0 (some (wstr "a.b"))).count
          (RefEvent.release Ref.obj) = 1
      ∧ (create_object host_unsafe_object ctx0 (some (wstr "a.b"))).trace.getLast?
          = some (Event.Release 60) :=
  have h := create_object_safety_confirmation host_unsafe_object ctx0 (some (wstr "a.b"))
    7 (create_object_policy_check host_unsafe_object ctx0 7) 50 60 (S_OK, [3, 0, 0, 0])
    rfl rfl rfl rfl rfl (by decide) (by decide) (by decide) (by decide)
  have h4 := h.2.2.2 (by decide) (by decide)
  ⟨h4.1, h4.2.1, h4.2.2.2⟩

/-- The site binding of `create_object`: skipped when the object has no
`IObjectWithSite`; otherwise it passes exactly when a site was made and
`SetSite` succeeded, and a failure ends with the release of the object. -/
theorem create_object_bind_site_passes (host : Host) (ctx : script_ctx_t) (obj : PTR) :
    (FAILED (host.QueryInterface obj IID.IObjectWithSite).1 = true →
        (create_object_bind_site host ctx obj).1 = true
          ∧ (create_object_bind_site host ctx obj).2
              = [Event.QueryInterface obj IID.IObjectWithSite]
          ∧ create_object_bind_site_refs host ctx obj = [])
      ∧ (FAILED (host.QueryInterface obj IID.IObjectWithSite).1 = false →
          ((create_object_bind_site host ctx obj).1 = true
            ↔ (host.create_ax_site ctx ≠ NULL
                ∧ FAILED (host.SetSite (host.QueryInterface obj IID.IObjectWithSite).2
                    (host.create_ax_site ctx)) = false)))
      ∧ ((create_object_bind_site host ctx obj).1 = false →
          (create_object_bind_site host ctx obj).2.getLast? = some (Event.Release obj)) := by
  refine ⟨?_, ?_, ?_⟩
  · intro hf
    simp [create_object_bind_site, create_object_bind_site_refs, SUCCEEDED, hf]
  · intro hf
    simp only [create_object_bind_site, SUCCEEDED, hf]
    by_cases ha : host.create_ax_site ctx = NULL
    · simp [ha]
    · by_cases hs : FAILED (host.SetSite (host.QueryInterface obj IID.IObjectWithSite).2
          (host.create_ax_site ctx)) = true
      · simp [ha, hs]
      · simp [ha, hs]
  · simp only [create_object_bind_site]
    split_ifs <;> simp

/-- The references the site binding takes and drops, by role. -/
theorem create_object_bind_site_refs_count (host : Host) (ctx : script_ctx_t) (obj : PTR)
    (hf : FAILED (host.QueryInterface obj IID.IObjectWithSite).1 = false) :
    (create_object_bind_site_refs host ctx obj).count (RefEvent.acquire Ref.obj) = 0
      ∧ (create_object_bind_site_refs host ctx obj).count (RefEvent.release Ref.obj)
          = (if (create_object_bind_site host ctx obj).1 = false then 1 else 0)
      ∧ (create_object_bind_site_refs host ctx obj).count (RefEvent.acquire Ref.obj_site) = 1
      ∧ (create_object_bind_site_refs host ctx obj).count (RefEvent.release Ref.obj_site) = 1
      ∧ (create_object_bind_site_refs host ctx obj).count (RefEvent.acquire Ref.ax_site)
          = (if host.create_ax_site ctx ≠ NULL then 1 else 0)
      ∧ (create_object_bind_site_refs host ctx obj).count (RefEvent.release Ref.ax_site)
          = (if host.create_ax_site ctx ≠ NULL then 1 else 0)
      ∧ (create_object_bind_site_refs host ctx obj).count (RefEvent.acquire Ref.disp) = 0
      ∧ (create_object_bind_site_refs host ctx obj).count (RefEvent.release Ref.disp) = 0 := by
  simp only [create_object_bind_site_refs, SUCCEEDED, hf, Bool.not_false, if_true]
  split_ifs <;> simp [List.count_cons]

/-- C22: once `create_object` has created the instance and the safety
confirmation let it through, an object without `IObjectWithSite` skips the site
binding and is returned; an object with it is returned only when a site was
made and `SetSite` succeeded, and otherwise `NULL` is returned after releasing
the object exactly once, as the last call.  On both outcomes the
`IObjectWithSite` interface is released once, and so is the site when one was
made. -/
theorem create_object_site_binding (host : Host) (ctx : script_ctx_t) (progid : BSTR)
    (guid : GUID) (pc : PolicyCheck) (cf obj : PTR) (qs : HRESULT × PTR) (ax : PTR)
    (hguid : guid = (host.CLSIDFromProgID progid).2)
    (hpc : pc = create_object_policy_check host ctx guid)
    (hcf : cf = (host.CoGetClassObject guid).2)
    (hobj : obj = (host.CreateInstance cf).2)
    (hqs : qs = host.QueryInterface obj IID.IObjectWithSite)
    (hax : ax = host.create_ax_site pc.ctx)
    (h0 : FAILED (host.CLSIDFromProgID progid).1 = false)
    (hp : pc.passed = true)
    (h2 : FAILED (host.CoGetClassObject guid).1 = false)
    (h3 : FAILED (host.CreateInstance cf).1 = false)
    (hsc : (create_object_confirm_safety host pc.secmgr guid obj URLPOLICY_ALLOW).1 = true) :
    (FAILED qs.1 = true →
        (create_object host ctx progid).obj = obj
          ∧ (create_object_bind_site host pc.ctx obj).2
              = [Event.QueryInterface obj IID.IObjectWithSite]
          ∧ (create_object_refs host ctx progid).count (RefEvent.release Ref.obj) = 0)
      ∧ (FAILED qs.1 = false → ax ≠ NULL → FAILED (host.SetSite qs.2 ax) = false →
          (create_object host ctx progid).obj = obj
            ∧ (create_object_refs host ctx progid).count (RefEvent.release Ref.obj) = 0)
      ∧ (FAILED qs.1 = false → ¬ (ax ≠ NULL ∧ FAILED (host.SetSite qs.2 ax) = false) →
          (create_object host ctx progid).obj = NULL
            ∧ (create_object_refs host ctx progid).count (RefEvent.release Ref.obj) = 1
            ∧ outstanding Ref.obj (create_object_refs host ctx progid) = 0
            ∧ (create_object host ctx progid).trace.getLast? = some (Event.Release obj))
      ∧ (FAILED qs.1 = false →
          (create_object_refs host ctx progid).count (RefEvent.acquire Ref.obj_site) = 1
            ∧ (create_object_refs host ctx progid).count (RefEvent.release Ref.obj_site) = 1
            ∧ (create_object_refs host ctx progid).count (RefEvent.acquire Ref.ax_site)
                = (if ax ≠ NULL then 1 else 0)
            ∧ (create_object_refs host ctx progid).count (RefEvent.release Ref.ax_site)
                = (if ax ≠ NULL then 1 else 0)) := by
  obtain ⟨hO, hR, pre, _, hT⟩ :=
    create_object_instantiated host ctx progid guid pc cf obj hguid hpc hcf hobj h0 hp h2 h3
  obtain ⟨hb1, hb2, hb3⟩ := create_object_bind_site_passes host pc.ctx obj
  have hc1 := create_object_policy_check_refs_count host ctx Ref.obj (by decide) (by decide)
  have hc2 := create_object_policy_check_refs_count host ctx Ref.obj_site (by decide) (by decide)
  have hc3 := create_object_policy_check_refs_count host ctx Ref.ax_site (by decide) (by decide)
  subst hqs hax
  simp only [hsc, Bool.true_eq_false, if_false] at hO hR hT
  have hR2 : create_object_refs host ctx progid
      = create_object_policy_check_refs host ctx ++ [RefEvent.acquire Ref.cf]
          ++ (if SUCCEEDED (host.QueryInterface cf IID.IClassFactoryEx).1 = true
              then [RefEvent.acquire Ref.cfex, RefEvent.release Ref.cfex] else [])
          ++ [RefEvent.acquire Ref.obj] ++ create_object_bind_site_refs host pc.ctx obj := by
    rw [hR]
    simp [create_object_confirm_safety_refs, hsc]
  refine ⟨?_, ?_, ?_, ?_⟩
  · intro hf
    obtain ⟨hs1, hs2, hs3⟩ := hb1 hf
    refine ⟨?_, hs2, ?_⟩
    · rw [hO]
      simp [hs1]
    · rw [hR2, hs3]
      simp only [List.count_append, hc1.2]
      split_ifs <;> simp_all [List.count_cons]
  · intro hf ha hs
    have hpass : (create_object_bind_site host pc.ctx obj).1 = true := (hb2 hf).2 ⟨ha, hs⟩
    have hcnt := create_object_bind_site_refs_count host pc.ctx obj hf
    refine ⟨?_, ?_⟩
    · rw [hO]
      simp [hpass]
    · rw [hR2]
      simp only [List.count_append, hc1.2, hcnt.2.1, hpass]
      split_ifs <;> simp_all [List.count_cons]
  · intro hf hno
    have hfail : (create_object_bind_site host pc.ctx obj).1 = false := by
      have := (hb2 hf).not.2 hno
      simpa using this
    have hcnt := create_object_bind_site_refs_count host pc.ctx obj hf
    refine ⟨?_, ?_, ?_, ?_⟩
    · rw [hO]
      simp [hfail]
    · rw [hR2]
      simp only [List.count_append, hc1.2, hcnt.2.1, hfail]
      split_ifs <;> simp_all [List.count_cons]
    · rw [hR2]
      simp only [outstanding, List.count_append, hc1.1, hc1.2, hcnt.1, hcnt.2.1, hfail]
      split_ifs <;> simp_all [List.count_cons]
    · rw [hT, List.getLast?_append, hb3 hfail]
      rfl
  · intro hf
    have hcnt := create_object_bind_site_refs_count host pc.ctx obj hf
    rw [hR2]
    simp only [List.count_append, hc2.1, hc2.2, hc3.1, hc3.2, hcnt.2.2.1, hcnt.2.2.2.1,
      hcnt.2.2.2.2.1, hcnt.2.2.2.2.2.1]
    split_ifs <;> simp_all [List.count_cons]

theorem create_object_site_binding_witness :
    (create_object host_no_site ctx0 (some (wstr "a.b"))).obj = NULL
      ∧ (create_object_refs host_no_site ctx0 (some (wstr "a.b"))).count
          (RefEvent.release Ref.obj) = 1
      ∧ (create_object_refs host_no_site ctx0 (some (wstr "a.b"))).count
          (RefEvent.release Ref.obj_site) = 1
      ∧ (create_object host_with_site ctx0 (some (wstr "a.b"))).obj = 60 :=
  have h := create_object_site_binding host_no_site ctx0 (some (wstr "a.b"))
    7 (create_object_policy_check host_no_site ctx0 7) 50 60 (S_OK, 260) NULL
    rfl rfl rfl rfl rfl rfl (by decide) (by decide) (by decide) (by decide) (by decide)
  have g := create_object_site_binding host_with_site ctx0 (some (wstr "a.b"))
    7 (create_object_policy_check host_with_site ctx0 7) 50 60 (S_OK, 260) 70
    rfl rfl rfl rfl rfl rfl (by decide) (by decide) (by decide) (by decide) (by decide)
  have h3 := h.2.2.1 (by decide) (by decide)
  ⟨h3.1, h3.2.1, (h.2.2.2 (by decide)).2.1, (g.2.1 (by decide) (by decide) (by decide)).1⟩

/-! ## Object creation: the references of a whole call -/

/-- No path of `create_object` releases the class factory. -/
theorem create_object_refs_keep_class_factory (host : Host) (ctx : script_ctx_t)
    (progid : BSTR) :
    (create_object_refs host ctx progid).count (RefEvent.release Ref.cf) = 0 := by
  have hc := create_object_policy_check_refs_count host ctx Ref.cf (by decide) (by decide)
  simp only [create_object_refs, create_object_confirm_safety_refs,
    create_object_bind_site_refs]
  split_ifs <;> simp [List.count_cons, hc.2]

/-- C23 (refuted): the class factory obtained by `create_object` is released on
no path of `Global_CreateObject`, so a successful call returns with that
reference outstanding besides the caller's, and so does a failing call that got
as far as the class object (the extended class factory next to it is released).
When the created object refuses `IDispatch`, the call fails with the object
itself still referenced. -/
theorem Global_CreateObject_leaves_references :
    (∀ (host : Host) (ctx : script_ctx_t) (args : List VARIANT) (res : Option VARIANT),
        (Global_CreateObject_refs host ctx args res).count (RefEvent.release Ref.cf) = 0)
      ∧ (Global_CreateObject (host0 0) ctx0 [VT_BSTR (some (wstr "a.b"))]
            (some VT_EMPTY)).outcome = Outcome.ret S_OK (some (VT_DISPATCH 260))
      ∧ outstanding Ref.cf (Global_CreateObject_refs (host0 0) ctx0
            [VT_BSTR (some (wstr "a.b"))] (some VT_EMPTY)) = 1
      ∧ outstanding Ref.disp (Global_CreateObject_refs (host0 0) ctx0
            [VT_BSTR (some (wstr "a.b"))] (some VT_EMPTY)) = 1
      ∧ (Global_CreateObject host_unsafe_object ctx0 [VT_BSTR (some (wstr "a.b"))]
            (some VT_EMPTY)).outcome = Outcome.ret VB_E_CANNOT_CREATE_OBJ (some VT_EMPTY)
      ∧ outstanding Ref.cf (Global_CreateObject_refs host_unsafe_object ctx0
            [VT_BSTR (some (wstr "a.b"))] (some VT_EMPTY)) = 1
      ∧ (Global_CreateObject host_no_dispatch ctx0 [VT_BSTR (some (wstr "a.b"))]
            (some VT_EMPTY)).outcome = Outcome.ret 0x80004002 (some VT_EMPTY)
      ∧ FAILED 0x80004002 = true
      ∧ outstanding Ref.obj (Global_CreateObject_refs host_no_dispatch ctx0
            [VT_BSTR (some (wstr "a.b"))] (some VT_EMPTY)) = 1
      ∧ outstanding Ref.cf (Global_CreateObject_refs host_no_dispatch ctx0
            [VT_BSTR (some (wstr "a.b"))] (some VT_EMPTY)) = 1 := by
  refine ⟨?_, by decide, by decide, by decide, by decide, by decide, by decide, by decide,
    by decide, by decide⟩
  intro host ctx args res
  have hc := fun progid => create_object_refs_keep_class_factory host ctx progid
  cases args with
  | nil => rfl
  | cons arg rest =>
    cases arg <;> try rfl
    cases res <;> simp only [Global_CreateObject_refs] <;> split_ifs <;>
      simp [List.count_append, List.count_cons, hc]

/-- When `create_object` returns an object, every step before had passed. -/
theorem create_object_returns_object (host : Host) (ctx : script_ctx_t) (progid : BSTR)
    (h : (create_object host ctx progid).obj ≠ NULL) :
    FAILED (host.CLSIDFromProgID progid).1 = false
      ∧ (create_object_policy_check host ctx (host.CLSIDFromProgID progid).2).passed = true
      ∧ FAILED (host.CoGetClassObject (host.CLSIDFromProgID progid).2).1 = false
      ∧ FAILED (host.CreateInstance
          (host.CoGetClassObject (host.CLSIDFromProgID progid).2).2).1 = false
      ∧ (create_object_confirm_safety host
          (create_object_policy_check host ctx (host.CLSIDFromProgID progid).2).secmgr
          (host.CLSIDFromProgID progid).2
          (host.CreateInstance (host.CoGetClassObject (host.CLSIDFromProgID progid).2).2).2
          URLPOLICY_ALLOW).1 = true
      ∧ (create_object_bind_site host
          (create_object_policy_check host ctx (host.CLSIDFromProgID progid).2).ctx
          (host.CreateInstance (host.CoGetClassObject (host.CLSIDFromProgID progid).2).2).2).1
          = true := by
  revert h
  simp only [create_object]
  split_ifs <;> simp_all

/-- The references of a `create_object` that returned an object: one on the
object, none on its dispatch interface, and the site interfaces given back. -/
theorem create_object_refs_of_object (host : Host) (ctx : script_ctx_t) (progid : BSTR)
    (h : (create_object host ctx progid).obj ≠ NULL) :
    (create_object_refs host ctx progid).count (RefEvent.acquire Ref.obj) = 1
      ∧ (create_object_refs host ctx progid).count (RefEvent.release Ref.obj) = 0
      ∧ (create_object_refs host ctx progid).count (RefEvent.acquire Ref.disp) = 0
      ∧ (create_object_refs host ctx progid).count (RefEvent.release Ref.disp) = 0
      ∧ (create_object_refs host ctx progid).count (RefEvent.acquire Ref.obj_site)
          = (create_object_refs host ctx progid).count (RefEvent.release Ref.obj_site)
      ∧ (create_object_refs host ctx progid).count (RefEvent.acquire Ref.ax_site)
          = (create_object_refs host ctx progid).count (RefEvent.release Ref.ax_site) := by
  obtain ⟨h0, hp, h2, h3, hsc, hsb⟩ := create_object_returns_object host ctx progid h
  obtain ⟨_, hR, _⟩ := create_object_instantiated host ctx progid _ _ _ _ rfl rfl rfl rfl
    h0 hp h2 h3
  have hc1 := create_object_policy_check_refs_count host ctx Ref.obj (by decide) (by decide)
  have hc2 := create_object_policy_check_refs_count host ctx Ref.obj_site (by decide) (by decide)
  have hc3 := create_object_policy_check_refs_count host ctx Ref.ax_site (by decide) (by decide)
  have hc4 := create_object_policy_check_refs_count host ctx Ref.disp (by decide) (by decide)
  rw [hR]
  simp only [create_object_confirm_safety_refs, hsc, Bool.true_eq_false, if_false,
    List.append_nil, List.count_append, hc1.1, hc1.2, hc2.1, hc2.2, hc3.1, hc3.2, hc4.1, hc4.2]
  by_cases hf : FAILED (host.QueryInterface
      (host.CreateInstance (host.CoGetClassObject (host.CLSIDFromProgID progid).2).2).2
      IID.IObjectWithSite).1 = true
  · have hb := (create_object_bind_site_passes host
      (create_object_policy_check host ctx (host.CLSIDFromProgID progid).2).ctx
      (host.CreateInstance (host.CoGetClassObject (host.CLSIDFromProgID progid).2).2).2).1 hf
    rw [hb.2.2]
    split_ifs <;> simp [List.count_cons]
  · have hf2 : FAILED (host.QueryInterface
        (host.CreateInstance (host.CoGetClassObject (host.CLSIDFromProgID progid).2).2).2
        IID.IObjectWithSite).1 = false := by simpa using hf
    have hcnt := create_object_bind_site_refs_count host
      (create_object_policy_check host ctx (host.CLSIDFromProgID progid).2).ctx
      (host.CreateInstance (host.CoGetClassObject (host.CLSIDFromProgID progid).2).2).2 hf2
    simp only [hcnt.1, hcnt.2.1, hcnt.2.2.1, hcnt.2.2.2.1, hcnt.2.2.2.2.1, hcnt.2.2.2.2.2.1,
      hcnt.2.2.2.2.2.2.1, hcnt.2.2.2.2.2.2.2, hsb, Bool.true_eq_false, if_false]
    split_ifs <;> simp [List.count_cons]

/-- C24: when `Global_CreateObject` returns `S_OK` with an output slot, the
slot holds `VT_DISPATCH` with the dispatch interface of the created object, the
reference `create_object` returned has been released, and the one reference
left on the object is the dispatch interface in the slot; with no slot, no
reference on the object is left.  The site interfaces are given back either
way. -/
theorem Global_CreateObject_success_references (host : Host) (ctx : script_ctx_t)
    (progid : BSTR) (res slot : Option VARIANT)
    (h : (Global_CreateObject host ctx [VT_BSTR progid] res).outcome = Outcome.ret S_OK slot) :
    (create_object host ctx progid).obj ≠ NULL
      ∧ (res.isSome = true →
          slot = some (VT_DISPATCH
              (host.QueryInterface (create_object host ctx progid).obj IID.IDispatch).2)
            ∧ outstanding Ref.obj (Global_CreateObject_refs host ctx [VT_BSTR progid] res) = 0
            ∧ outstanding Ref.disp (Global_CreateObject_refs host ctx [VT_BSTR progid] res) = 1)
      ∧ (res = none →
          slot = none
            ∧ outstanding Ref.obj (Global_CreateObject_refs host ctx [VT_BSTR progid] res) = 0
            ∧ outstanding Ref.disp (Global_CreateObject_refs host ctx [VT_BSTR progid] res) = 0)
      ∧ outstanding Ref.obj_site (Global_CreateObject_refs host ctx [VT_BSTR progid] res) = 0
      ∧ outstanding Ref.ax_site (Global_CreateObject_refs host ctx [VT_BSTR progid] res) = 0 := by
  have hobj : (create_object host ctx progid).obj ≠ NULL := by
    intro hn
    simp only [Global_CreateObject, hn, if_true, Outcome.ret.injEq] at h
    exact absurd h.1 (by decide)
  obtain ⟨c1, c2, c3, c4, c5, c6⟩ := create_object_refs_of_object host ctx progid hobj
  refine ⟨hobj, ?_⟩
  cases res with
  | none =>
    simp only [Global_CreateObject, hobj, if_false, Outcome.ret.injEq] at h
    have e : Global_CreateObject_refs host ctx [VT_BSTR progid] none
        = create_object_refs host ctx progid ++ [RefEvent.release Ref.obj] := by
      simp only [Global_CreateObject_refs, hobj, if_false]
    rw [e]
    simp only [outstanding, List.count_append, c1, c2, c3, c4, c5, c6]
    refine ⟨?_, ?_, ?_, ?_⟩
    · intro hs
      cases hs
    · intro _
      exact ⟨h.2.symm, by simp [List.count_cons], by simp [List.count_cons]⟩
    · simp [List.count_cons]
    · simp [List.count_cons]
  | some v =>
    by_cases hq : FAILED (host.QueryInterface (create_object host ctx progid).obj
        IID.IDispatch).1 = true
    · simp only [Global_CreateObject, hobj, if_false, hq, if_true, Outcome.ret.injEq] at h
      rw [h.1] at hq
      exact absurd hq (by decide)
    · have hq2 : FAILED (host.QueryInterface (create_object host ctx progid).obj
          IID.IDispatch).1 = false := by simpa using hq
      simp only [Global_CreateObject, hobj, if_false, hq2, Bool.false_eq_true,
        Outcome.ret.injEq] at h
      have e : Global_CreateObject_refs host ctx [VT_BSTR progid] (some v)
          = create_object_refs host ctx progid
              ++ [RefEvent.acquire Ref.disp, RefEvent.release Ref.obj] := by
        simp only [Global_CreateObject_refs, hobj, if_false, hq2, Bool.false_eq_true]
      rw [e]
      simp only [outstanding, List.count_append, c1, c2, c3, c4, c5, c6]
      refine ⟨?_, ?_, ?_, ?_⟩
      · intro _
        exact ⟨h.2.symm, by simp [List.count_cons], by simp [List.count_cons]⟩
      · intro hs
        cases hs
      · simp [List.count_cons]
      · simp [List.count_cons]

theorem Global_CreateObject_success_references_witness :
    (Global_CreateObject host_with_site ctx0 [VT_BSTR (some (wstr "a.b"))]
        (some VT_EMPTY)).outcome = Outcome.ret S_OK (some (VT_DISPATCH 260))
      ∧ outstanding Ref.obj (Global_CreateObject_refs host_with_site ctx0
          [VT_BSTR (some (wstr "a.b"))] (some VT_EMPTY)) = 0
      ∧ outstanding Ref.disp (Global_CreateObject_refs host_with_site ctx0
          [VT_BSTR (some (wstr "a.b"))] (some VT_EMPTY)) = 1 :=
  have h := Global_CreateObject_success_references host_with_site ctx0 (some (wstr "a.b"))
    (some VT_EMPTY) (some (VT_DISPATCH 260)) (by decide)
  ⟨by decide, (h.2.1 rfl).2.1, (h.2.1 rfl).2.2⟩

/-- Every way `create_object` can stop early returns `NULL`. -/
theorem create_object_failure_is_NULL (host : Host) (ctx : script_ctx_t) (progid : BSTR)
    (guid : GUID) (pc : PolicyCheck) (cf obj : PTR)
    (hguid : guid = (host.CLSIDFromProgID progid).2)
    (hpc : pc = create_object_policy_check host ctx guid)
    (hcf : cf = (host.CoGetClassObject guid).2)
    (hobj : obj = (host.CreateInstance cf).2)
    (hfail : FAILED (host.CLSIDFromProgID progid).1 = true
      ∨ pc.passed = false
      ∨ FAILED (host.CoGetClassObject guid).1 = true
      ∨ FAILED (host.CreateInstance cf).1 = true
      ∨ (create_object_confirm_safety host pc.secmgr guid obj URLPOLICY_ALLOW).1 = false
      ∨ (create_object_bind_site host pc.ctx obj).1 = false) :
    (create_object host ctx progid).obj = NULL := by
  subst hguid hpc hcf hobj
  by_contra hn
  obtain ⟨h0, hp, h2, h3, hsc, hsb⟩ := create_object_returns_object host ctx progid hn
  rcases hfail with h | h | h | h | h | h
  · rw [h0] at h; cases h
  · rw [hp] at h; cases h
  · rw [h2] at h; cases h
  · rw [h3] at h; cases h
  · rw [hsc] at h; cases h
  · rw [hsb] at h; cases h

/-- C25 (counterexample): an unknown program id, a policy denial, a safety
denial, a missing class object and a failed site binding all give the caller
the same result, `VB_E_CANNOT_CREATE_OBJ` with the slot untouched. -/
theorem Global_CreateObject_failure_kinds_coincide :
    (Global_CreateObject host_no_progid ctx0 [VT_BSTR (some (wstr "a.b"))]
        (some VT_EMPTY)).outcome = Outcome.ret VB_E_CANNOT_CREATE_OBJ (some VT_EMPTY)
      ∧ (Global_CreateObject (host0 3) ctx0 [VT_BSTR (some (wstr "a.b"))]
          (some VT_EMPTY)).outcome = Outcome.ret VB_E_CANNOT_CREATE_OBJ (some VT_EMPTY)
      ∧ (Global_CreateObject host_unsafe_object ctx0 [VT_BSTR (some (wstr "a.b"))]
          (some VT_EMPTY)).outcome = Outcome.ret VB_E_CANNOT_CREATE_OBJ (some VT_EMPTY)
      ∧ (Global_CreateObject host_no_class ctx0 [VT_BSTR (some (wstr "a.b"))]
          (some VT_EMPTY)).outcome = Outcome.ret VB_E_CANNOT_CREATE_OBJ (some VT_EMPTY)
      ∧ (Global_CreateObject host_no_site ctx0 [VT_BSTR (some (wstr "a.b"))]
          (some VT_EMPTY)).outcome = Outcome.ret VB_E_CANNOT_CREATE_OBJ (some VT_EMPTY) := by
  decide

/-- C25 (amended): whichever state of `create_object` fails (the program id
does not resolve, the policy check or the safety confirmation denies, the class
object or the instance cannot be had, the site cannot be bound),
`Global_CreateObject` returns the one code `VB_E_CANNOT_CREATE_OBJ` and leaves
the output slot alone. -/
theorem Global_CreateObject_single_failure_code (host : Host) (ctx : script_ctx_t)
    (progid : BSTR) (res : Option VARIANT)
    (guid : GUID) (pc : PolicyCheck) (cf obj : PTR)
    (hguid : guid = (host.CLSIDFromProgID progid).2)
    (hpc : pc = create_object_policy_check host ctx guid)
    (hcf : cf = (host.CoGetClassObject guid).2)
    (hobj : obj = (host.CreateInstance cf).2)
    (hfail : FAILED (host.CLSIDFromProgID progid).1 = true
      ∨ pc.passed = false
      ∨ FAILED (host.CoGetClassObject guid).1 = true
      ∨ FAILED (host.CreateInstance cf).1 = true
      ∨ (create_object_confirm_safety host pc.secmgr guid obj URLPOLICY_ALLOW).1 = false
      ∨ (create_object_bind_site host pc.ctx obj).1 = false) :
    (Global_CreateObject host ctx [VT_BSTR progid] res).outcome
        = Outcome.ret VB_E_CANNOT_CREATE_OBJ res
      ∧ (Global_CreateObject host ctx [VT_BSTR progid] res).payload_written = none := by
  have hn := create_object_failure_is_NULL host ctx progid guid pc cf obj hguid hpc hcf hobj
    hfail
  simp only [Global_CreateObject, hn, if_true, and_self]

theorem Global_CreateObject_single_failure_code_witness :
    (Global_CreateObject host_no_class ctx0 [VT_BSTR (some (wstr "a.b"))]
        (some VT_EMPTY)).outcome = Outcome.ret VB_E_CANNOT_CREATE_OBJ (some VT_EMPTY)
      ∧ (Global_CreateObject host_no_class ctx0 [VT_BSTR (some (wstr "a.b"))]
          (some VT_EMPTY)).payload_written = none :=
  Global_CreateObject_single_failure_code host_no_class ctx0 (some (wstr "a.b"))
    (some VT_EMPTY) 7 (create_object_policy_check host_no_class ctx0 7) NULL 60
    rfl rfl rfl rfl (Or.inr (Or.inr (Or.inl (by decide))))

/-! ## The reference ledger against the calls -/

theorem get_sec_mgr_refs_releases (host : Host) (ctx : script_ctx_t) :
    ((get_sec_mgr_refs host ctx).filter RefEvent.is_release).length
      = ((get_sec_mgr host ctx).trace.filter Event.is_release).length := by
  simp only [get_sec_mgr_refs, get_sec_mgr]
  split_ifs <;> simp [List.filter_cons, RefEvent.is_release, Event.is_release]

theorem create_object_policy_check_refs_releases (host : Host) (ctx : script_ctx_t)
    (guid : GUID) :
    ((create_object_policy_check_refs host ctx).filter RefEvent.is_release).length
      = ((create_object_policy_check host ctx guid).trace.filter Event.is_release).length := by
  have h := get_sec_mgr_refs_releases host ctx
  simp only [create_object_policy_check_refs, create_object_policy_check]
  split_ifs <;> simp [List.filter_cons, List.filter_append, Event.is_release, h]

theorem create_object_confirm_safety_refs_releases (host : Host) (secmgr : PTR) (guid : GUID)
    (obj : PTR) (policy : Nat) :
    ((create_object_confirm_safety_refs host secmgr guid obj policy).filter
        RefEvent.is_release).length
      = ((create_object_confirm_safety host secmgr guid obj policy).2.filter
          Event.is_release).length := by
  simp only [create_object_confirm_safety_refs, create_object_confirm_safety]
  split_ifs <;> simp_all [List.filter_cons, List.filter_append, RefEvent.is_release,
    Event.is_release]

theorem create_object_bind_site_refs_releases (host : Host) (ctx : script_ctx_t) (obj : PTR) :
    ((create_object_bind_site_refs host ctx obj).filter RefEvent.is_release).length
      = ((create_object_bind_site host ctx obj).2.filter Event.is_release).length := by
  simp only [create_object_bind_site_refs, create_object_bind_site]
  split_ifs <;> simp_all [List.filter_cons, List.filter_append, RefEvent.is_release,
    Event.is_release]

/-- The ledger of `create_object` drops a reference as often as the function
calls `Release`. -/
theorem create_object_refs_releases (host : Host) (ctx : script_ctx_t) (progid : BSTR) :
    ((create_object_refs host ctx progid).filter RefEvent.is_release).length
      = ((create_object host ctx progid).trace.filter Event.is_release).length := by
  have h1 := create_object_policy_check_refs_releases host ctx (host.CLSIDFromProgID progid).2
  have h2 := create_object_confirm_safety_refs_releases host
    (create_object_policy_check host ctx (host.CLSIDFromProgID progid).2).secmgr
    (host.CLSIDFromProgID progid).2
    (host.CreateInstance (host.CoGetClassObject (host.CLSIDFromProgID progid).2).2).2
    URLPOLICY_ALLOW
  have h3 := create_object_bind_site_refs_releases host
    (create_object_policy_check host ctx (host.CLSIDFromProgID progid).2).ctx
    (host.CreateInstance (host.CoGetClassObject (host.CLSIDFromProgID progid).2).2).2
  simp only [create_object_refs, create_object]
  split_ifs <;> simp [List.filter_cons, List.filter_append, RefEvent.is_release,
    Event.is_release, h1, h2, h3]

/-- The ledger of `Global_CreateObject` drops a reference as often as the
function calls `Release`. -/
theorem Global_CreateObject_refs_releases (host : Host) (ctx : script_ctx_t)
    (args : List VARIANT) (res : Option VARIANT) :
    ((Global_CreateObject_refs host ctx args res).filter RefEvent.is_release).length
      = ((Global_CreateObject host ctx args res).trace.filter Event.is_release).length := by
  cases args with
  | nil => rfl
  | cons arg rest =>
    cases arg <;> try rfl
    rename_i progid
    have h := create_object_refs_releases host ctx progid
    cases res <;> simp only [Global_CreateObject_refs, Global_CreateObject] <;> split_ifs <;>
      simp [List.filter_cons, List.filter_append, RefEvent.is_release, Event.is_release, h]

end VBScript

/-! ## Extract, the activation policy -/

namespace Cabinet

open VBScript

/-- C31 (refuted): `Extract` returns `S_OK` exactly when `dest` is given, the
copy of the directory can be allocated and `process_cabinet` succeeds; on each
of the three failures it returns `E_OUTOFMEMORY`, never `E_FAIL`. -/
theorem Extract_failure_code :
    (∀ (env : CabEnv) (dest : Option EXTRACTdest) (szCabName : List Nat),
        (Extract env dest szCabName).1 = S_OK ∨ (Extract env dest szCabName).1 = E_OUTOFMEMORY)
      ∧ (∀ (env : CabEnv) (dest : Option EXTRACTdest) (szCabName : List Nat),
          (Extract env dest szCabName).1 = S_OK ↔
            ∃ d, dest = some d ∧ env.LocalAlloc ((c_string d.directory).length + 1) = true
              ∧ (env.process_cabinet szCabName (c_string d.directory)
                  { d with filecount := 0, filelist := NULL }).1 = true)
      ∧ (Extract (cab0 true true) none (wstr "a.cab")).1 = E_OUTOFMEMORY
      ∧ (Extract (cab0 false true) (some dest0) (wstr "a.cab")).1 = E_OUTOFMEMORY
      ∧ (Extract (cab0 true false) (some dest0) (wstr "a.cab")).1 = E_OUTOFMEMORY
      ∧ (Extract (cab0 true true) (some dest0) (wstr "a.cab")).1 = S_OK
      ∧ E_OUTOFMEMORY ≠ E_FAIL := by
  refine ⟨?_, ?_, by decide, by decide, by decide, by decide, by decide⟩
  · intro env dest name
    cases dest with
    | none => exact Or.inr rfl
    | some d =>
      simp only [Extract]
      split_ifs
      · exact Or.inr rfl
      · exact Or.inr rfl
      · exact Or.inl rfl
  · intro env dest name
    have hne : E_OUTOFMEMORY ≠ S_OK := by decide
    cases dest with
    | none =>
      simp only [Extract]
      constructor
      · intro h
        exact absurd h hne
      · rintro ⟨d, hd, _⟩
        cases hd
    | some d =>
      simp only [Extract]
      constructor
      · intro h
        split_ifs at h with h1 h2
        · exact absurd h hne
        · exact absurd h hne
        · exact ⟨d, rfl, by simpa using h1, by simpa using h2⟩
      · rintro ⟨d2, hd, h1, h2⟩
        cases hd
        simp [h1, h2]

end Cabinet

namespace VBScript
open VARIANT

/-- The policy check passes whenever the activation-policy call succeeds and
leaves its buffer unwritten. -/
theorem create_object_policy_check_unwritten (host : Host) (ctx : script_ctx_t) (guid : GUID)
    (hmode : ctx.safeopt &&& INTERFACE_USES_SECURITY_MANAGER ≠ 0)
    (hmgr : (get_sec_mgr host ctx).secmgr ≠ NULL)
    (hok : FAILED (host.ProcessUrlAction (get_sec_mgr host ctx).secmgr guid).1 = false)
    (hsilent : (host.ProcessUrlAction (get_sec_mgr host ctx).secmgr guid).2 = none) :
    (create_object_policy_check host ctx guid).passed = true := by
  simp [create_object_policy_check, hmode, hmgr, hok, hsilent, URLPOLICY_ALLOW]

/-- C32 (refuted): with the security manager required, a host whose
activation-policy call reports success and writes no decision is let through:
the buffer still holds the `0` the code put there, which is `URLPOLICY_ALLOW`,
so the policy check passes, the class is activated and `CreateObject` succeeds.
A host that writes `URLPOLICY_DISALLOW` is denied. -/
theorem create_object_unwritten_policy_is_allow :
    ctx0.safeopt &&& INTERFACE_USES_SECURITY_MANAGER ≠ 0
      ∧ host_silent.ProcessUrlAction 102 7 = (S_OK, none)
      ∧ (create_object_policy_check host_silent ctx0 7).passed = true
      ∧ (create_object_policy_check host_silent ctx0 7).trace
          = [Event.QueryInterface 1 IID.IServiceProvider, Event.QueryService 101,
              Event.Release 101, Event.ProcessUrlAction 102 URLACTION_ACTIVEX_RUN 7]
      ∧ Event.CoGetClassObject 7 ∈ (create_object host_silent ctx0 (some (wstr "a.b"))).trace
      ∧ Event.CreateInstance 50 ∈ (create_object host_silent ctx0 (some (wstr "a.b"))).trace
      ∧ (create_object host_silent ctx0 (some (wstr "a.b"))).obj = 60
      ∧ (Global_CreateObject host_silent ctx0 [VT_BSTR (some (wstr "a.b"))]
          (some VT_EMPTY)).outcome = Outcome.ret S_OK (some (VT_DISPATCH 260))
      ∧ URLPOLICY_ALLOW = 0
      ∧ (create_object (host0 URLPOLICY_DISALLOW) ctx0 (some (wstr "a.b"))).obj = NULL := by
  decide

end VBScript

/-! ## The prompt without an answer, creation without a security manager -/

namespace VBScript
open VARIANT

/-- C39: when the site does not expose the UI control, or exposes it but its
behaviour query for the message-box item fails, the prompt goes on to the
window part exactly as after an Allow answer: its outcome is that of the window
part and its calls are the UI-control calls followed by those of the window
part.  A prompt that ends without asking for the site window was given a
successful answer other than Allow. -/
theorem show_msgbox_defaults_to_allow (host : Host) (ui : SiteUI) (ctx : script_ctx_t)
    (prompt : BSTR) (res : Option VARIANT) (hsite : ctx.site ≠ NULL) :
    (FAILED (host.QueryInterface ctx.site IID.IActiveScriptSiteUIControl).1 = true →
        (show_msgbox host ui ctx prompt res).outcome
            = (show_msgbox_window host ui ctx prompt res).outcome
          ∧ (show_msgbox host ui ctx prompt res).trace
            = [UIEvent.QueryInterface ctx.site IID.IActiveScriptSiteUIControl]
              ++ (show_msgbox_window host ui ctx prompt res).trace)
      ∧ (FAILED (host.QueryInterface ctx.site IID.IActiveScriptSiteUIControl).1 = false →
          FAILED (ui.GetUIBehavior
            (host.QueryInterface ctx.site IID.IActiveScriptSiteUIControl).2).1 = true →
          (show_msgbox host ui ctx prompt res).outcome
              = (show_msgbox_window host ui ctx prompt res).outcome
            ∧ (show_msgbox host ui ctx prompt res).trace
              = [UIEvent.QueryInterface ctx.site IID.IActiveScriptSiteUIControl,
                  UIEvent.GetUIBehavior
                    (host.QueryInterface ctx.site IID.IActiveScriptSiteUIControl).2,
                  UIEvent.Release (host.QueryInterface ctx.site IID.IActiveScriptSiteUIControl).2]
                ++ (show_msgbox_window host ui ctx prompt res).trace)
      ∧ (FAILED (host.QueryInterface ctx.site IID.IActiveScriptSiteUIControl).1 = false →
          FAILED (ui.GetUIBehavior
            (host.QueryInterface ctx.site IID.IActiveScriptSiteUIControl).2).1 = false →
          (ui.GetUIBehavior (host.QueryInterface ctx.site IID.IActiveScriptSiteUIControl).2).2
            = some SCRIPTUICHANDLING_ALLOW →
          (show_msgbox host ui ctx prompt res).outcome
              = (show_msgbox_window host ui ctx prompt res).outcome
            ∧ (show_msgbox host ui ctx prompt res).trace
              = [UIEvent.QueryInterface ctx.site IID.IActiveScriptSiteUIControl,
                  UIEvent.GetUIBehavior
                    (host.QueryInterface ctx.site IID.IActiveScriptSiteUIControl).2,
                  UIEvent.Release (host.QueryInterface ctx.site IID.IActiveScriptSiteUIControl).2]
                ++ (show_msgbox_window host ui ctx prompt res).trace)
      ∧ (UIEvent.QueryInterface ctx.site IID.IActiveScriptSiteWindow
            ∉ (show_msgbox host ui ctx prompt res).trace →
          FAILED (host.QueryInterface ctx.site IID.IActiveScriptSiteUIControl).1 = false
            ∧ FAILED (ui.GetUIBehavior
                (host.QueryInterface ctx.site IID.IActiveScriptSiteUIControl).2).1 = false
            ∧ ∃ handling,
                (ui.GetUIBehavior
                  (host.QueryInterface ctx.site IID.IActiveScriptSiteUIControl).2).2
                  = some handling
                ∧ handling ≠ SCRIPTUICHANDLING_ALLOW) := by
  have hwin : UIEvent.QueryInterface ctx.site IID.IActiveScriptSiteWindow
      ∈ (show_msgbox_window host ui ctx prompt res).trace := by
    simp only [show_msgbox_window]
    split_ifs <;> simp
  refine ⟨?_, ?_, ?_, ?_⟩
  · intro hq
    have hh : show_msgbox_handling host ui ctx
        = (SCRIPTUICHANDLING_ALLOW,
            [UIEvent.QueryInterface ctx.site IID.IActiveScriptSiteUIControl]) := by
      simp [show_msgbox_handling, SUCCEEDED, hq]
    simp only [show_msgbox, hsite, if_false, hh, if_true, and_self]
  · intro hq hg
    have hh : show_msgbox_handling host ui ctx
        = (SCRIPTUICHANDLING_ALLOW,
            [UIEvent.QueryInterface ctx.site IID.IActiveScriptSiteUIControl,
              UIEvent.GetUIBehavior
                (host.QueryInterface ctx.site IID.IActiveScriptSiteUIControl).2,
              UIEvent.Release (host.QueryInterface ctx.site IID.IActiveScriptSiteUIControl).2]) := by
      simp [show_msgbox_handling, SUCCEEDED, hq, hg]
    simp only [show_msgbox, hsite, if_false, hh, if_true, and_self]
  · intro hq hg hv
    have hh : show_msgbox_handling host ui ctx
        = (SCRIPTUICHANDLING_ALLOW,
            [UIEvent.QueryInterface ctx.site IID.IActiveScriptSiteUIControl,
              UIEvent.GetUIBehavior
                (host.QueryInterface ctx.site IID.IActiveScriptSiteUIControl).2,
              UIEvent.Release (host.QueryInterface ctx.site IID.IActiveScriptSiteUIControl).2]) := by
      simp [show_msgbox_handling, SUCCEEDED, hq, hg, hv]
    simp only [show_msgbox, hsite, if_false, hh, if_true, and_self]
  · intro hno
    by_cases hall : (show_msgbox_handling host ui ctx).1 = SCRIPTUICHANDLING_ALLOW
    · exfalso
      apply hno
      simp only [show_msgbox, hsite, if_false, hall, if_true, List.mem_append]
      exact Or.inr hwin
    · by_cases hq : FAILED (host.QueryInterface ctx.site IID.IActiveScriptSiteUIControl).1 = true
      · exfalso
        apply hall
        simp [show_msgbox_handling, SUCCEEDED, hq]
      · have hq2 : FAILED (host.QueryInterface ctx.site
            IID.IActiveScriptSiteUIControl).1 = false := by simpa using hq
        by_cases hg : FAILED (ui.GetUIBehavior
            (host.QueryInterface ctx.site IID.IActiveScriptSiteUIControl).2).1 = true
        · exfalso
          apply hall
          simp [show_msgbox_handling, SUCCEEDED, hq2, hg]
        · have hg2 : FAILED (ui.GetUIBehavior
              (host.QueryInterface ctx.site IID.IActiveScriptSiteUIControl).2).1 = false := by
            simpa using hg
          refine ⟨hq2, hg2, ?_⟩
          cases hv : (ui.GetUIBehavior
              (host.QueryInterface ctx.site IID.IActiveScriptSiteUIControl).2).2 with
          | none =>
            exfalso
            apply hall
            simp [show_msgbox_handling, SUCCEEDED, hq2, hg2, hv]
          | some handling =>
            refine ⟨handling, rfl, ?_⟩
            intro he
            apply hall
            simp [show_msgbox_handling, SUCCEEDED, hq2, hg2, hv, he]

theorem show_msgbox_defaults_to_allow_witness :
    (show_msgbox (host0 0) ui_no_answer ctx0 (some (wstr "hi")) (some VT_EMPTY)).outcome
        = (show_msgbox_window (host0 0) ui_no_answer ctx0 (some (wstr "hi"))
            (some VT_EMPTY)).outcome
      ∧ (show_msgbox_window (host0 0) ui_no_answer ctx0 (some (wstr "hi"))
          (some VT_EMPTY)).outcome = Outcome.ret S_OK (some (VT_I2 1)) :=
  ⟨((show_msgbox_defaults_to_allow (host0 0) ui_no_answer ctx0 (some (wstr "hi"))
      (some VT_EMPTY) (by decide)).2.1 (by decide) (by decide)).1, by decide⟩

end VBScript

namespace VBScript
open VARIANT

/-- Without the security-manager option the policy check is a no-op. -/
theorem create_object_policy_check_plain (host : Host) (ctx : script_ctx_t) (guid : GUID)
    (hmode : ctx.safeopt &&& INTERFACE_USES_SECURITY_MANAGER = 0) :
    create_object_policy_check host ctx guid = ⟨true, NULL, ctx, []⟩ := by
  simp [create_object_policy_check, hmode]

/-- Without a security manager the safety confirmation is a no-op. -/
theorem create_object_confirm_safety_plain (host : Host) (guid : GUID) (obj : PTR)
    (policy : Nat) :
    create_object_confirm_safety host NULL guid obj policy = (true, []) := by
  simp [create_object_confirm_safety]

theorem create_object_bind_site_no_secmgr_call (host : Host) (ctx : script_ctx_t) (obj : PTR) :
    ∀ ev ∈ (create_object_bind_site host ctx obj).2, ev.is_secmgr_call = false := by
  simp only [create_object_bind_site]
  split_ifs <;> simp [Event.is_secmgr_call]

/-- C40: when the context does not ask for the security manager,
`create_object` makes no call that resolves or queries it (no request for the
service provider, no `QueryService`, no `ProcessUrlAction`, no
`QueryCustomPolicy`) and leaves the context as it was; two hosts that agree on
everything but the security manager's answers give the same calls in the same
order and the same result, for `create_object` and for `Global_CreateObject`. -/
theorem create_object_ignores_security_manager (host1 host2 : Host) (ctx : script_ctx_t)
    (progid : BSTR) (res : Option VARIANT)
    (hmode : ctx.safeopt &&& INTERFACE_USES_SECURITY_MANAGER = 0)
    (h1 : host1.CLSIDFromProgID = host2.CLSIDFromProgID)
    (h2 : host1.QueryInterface = host2.QueryInterface)
    (h3 : host1.CoGetClassObject = host2.CoGetClassObject)
    (h4 : host1.CreateInstance = host2.CreateInstance)
    (h5 : host1.create_ax_site = host2.create_ax_site)
    (h6 : host1.SetSite = host2.SetSite) :
    (∀ ev ∈ (create_object host1 ctx progid).trace, ev.is_secmgr_call = false)
      ∧ (create_object host1 ctx progid).ctx = ctx
      ∧ create_object host1 ctx progid = create_object host2 ctx progid
      ∧ Global_CreateObject host1 ctx [VT_BSTR progid] res
          = Global_CreateObject host2 ctx [VT_BSTR progid] res := by
  have hpc := fun host guid => create_object_policy_check_plain host ctx guid hmode
  have hcs := create_object_confirm_safety_plain
  have heq : create_object host1 ctx progid = create_object host2 ctx progid := by
    simp only [create_object, hpc, hcs, create_object_bind_site, h1, h2, h3, h4, h5, h6]
  have hb := fun obj => create_object_bind_site_no_secmgr_call host1 ctx obj
  refine ⟨?_, ?_, heq, ?_⟩
  · simp only [create_object, hpc, hcs]
    split_ifs <;> intro ev hev <;>
      simp only [List.mem_append, List.mem_cons, List.mem_singleton, List.not_mem_nil,
        or_false, List.append_nil] at hev
    all_goals first
      | (rcases hev with rfl; rfl)
      | (rcases hev with rfl | rfl <;> rfl)
      | (rcases hev with ((rfl | rfl) | rfl) | rfl <;> rfl)
      | (rcases hev with (((rfl | rfl) | rfl) | rfl) | rfl <;> rfl)
      | (rcases hev with (((rfl | rfl) | rfl) | rfl) | h
         · rfl
         · rfl
         · rfl
         · rfl
         · exact hb _ ev h)
      | (rcases hev with ((((rfl | rfl) | rfl) | rfl) | rfl) | h
         · rfl
         · rfl
         · rfl
         · rfl
         · rfl
         · exact hb _ ev h)
  · simp only [create_object, hpc, hcs]
    split_ifs <;> rfl
  · simp only [Global_CreateObject, heq, h2]

theorem create_object_ignores_security_manager_witness :
    (∀ ev ∈ (create_object (host0 3) ctx_plain (some (wstr "a.b"))).trace,
        ev.is_secmgr_call = false)
      ∧ create_object (host0 3) ctx_plain (some (wstr "a.b"))
          = create_object host_other_secmgr ctx_plain (some (wstr "a.b")) :=
  have h := create_object_ignores_security_manager (host0 3) host_other_secmgr ctx_plain
    (some (wstr "a.b")) (some VT_EMPTY) (by decide) rfl rfl rfl rfl rfl rfl
  ⟨h.1, h.2.2.1⟩

end VBScript

namespace VBScript
open VARIANT

/-! ## InStr: the start argument comes first -/

/-- A start that `to_int` refuses fails the three-argument `InStr` with the
code of `to_int`, whatever the strings are. -/
theorem Global_InStr_start_not_coerced (env : Env) (startv str1v str2v : VARIANT)
    (hres : HRESULT) (res : Option VARIANT) (hstart : to_int startv = Except.error hres) :
    Global_InStr env [startv, str1v, str2v] res = Outcome.ret hres res := by
  simp [Global_InStr, hstart]

/-- The three-argument `InStr` stores Null only after accepting the start. -/
theorem Global_InStr_null_after_start (env : Env) (startv str1v str2v : VARIANT)
    (v : VARIANT) (hres : HRESULT)
    (h : Global_InStr env [startv, str1v, str2v] (some v) = Outcome.ret hres (some VT_NULL))
    (hv : v ≠ VT_NULL) :
    ∃ start, to_int startv = Except.ok start ∧ 1 ≤ start := by
  cases hs : to_int startv with
  | error e =>
    rw [Global_InStr_start_not_coerced env startv str1v str2v e (some v) hs] at h
    simp only [Outcome.ret.injEq, Option.some.injEq] at h
    exact absurd h.2 hv
  | ok start =>
    refine ⟨start, rfl, ?_⟩
    by_contra hlt
    by_cases hmin : start - 1 < INT_MIN
    · simp [Global_InStr, hs, hmin] at h
    · have h3 : start - 1 < 0 := by omega
      simp only [Global_InStr, List.length_cons, List.length_nil, hs, hmin, h3, if_true,
        if_false, Outcome.ret.injEq, Option.some.injEq] at h
      simp at h
      exact hv h.2

/-- C38 (refuted): at `InStr(-2147483648, Null, "b")` the start coerces to
`INT_MIN < 1` and the haystack is Null, yet the call does not fail: the
decrement `--start` overflows, so the call has no defined result (and with
wrap-around goes on to store Null). -/
theorem Global_InStr_INT_MIN_before_null :
    to_int (VT_I4 (-2147483648)) = Except.ok (-2147483648)
      ∧ Global_InStr env0 [VT_I4 (-2147483648), VT_NULL, VT_BSTR (some (wstr "b"))]
          (some VT_EMPTY) = Outcome.undefined
      ∧ Global_InStr env0 [VT_I4 (-2147483648), VT_BSTR (some (wstr "abc")), VT_NULL]
          (some VT_EMPTY) = Outcome.undefined
      ∧ Global_InStr env0 [VT_I4 (-2147483647), VT_NULL, VT_BSTR (some (wstr "b"))]
          (some VT_EMPTY) = Outcome.ret E_FAIL (some VT_EMPTY)
      ∧ Global_InStr env0 [VT_BSTR (some (wstr "1")), VT_NULL, VT_BSTR (some (wstr "b"))]
          (some VT_EMPTY) = Outcome.ret E_NOTIMPL (some VT_EMPTY)
      ∧ Global_InStr_search VT_NULL (VT_BSTR (some (wstr "b"))) 2147483647 (some VT_EMPTY)
          = Outcome.ret S_OK (some VT_NULL) :=
  ⟨rfl, by decide, by decide, by decide, by decide, by decide⟩

/-! ## Right: where the source string comes from -/

/-- C34: `Right` takes the payload of its first argument as a string, unchecked,
exactly when the second argument is a string; such a call returns `E_NOTIMPL`
from the length coercion whatever the first argument is, with the slot
untouched, before the payload is measured or sliced.  In every call of `Right`
that succeeds, the second argument is no string, the first argument went
through `to_string`, and the result is the tail of that conversion. -/
theorem Global_Right_source_string (env : Env) (a0 a1 : VARIANT) (res : Option VARIANT) :
    (∀ b, a1 = VT_BSTR b → Global_Right env [a0, a1] res = Outcome.ret E_NOTIMPL res)
      ∧ (∀ hres slot, Global_Right env [a0, a1] res = Outcome.ret hres slot →
          FAILED hres = false →
          (∀ b, a1 ≠ VT_BSTR b)
            ∧ ∃ str n, to_string env a0 = Except.ok str ∧ to_int a1 = Except.ok n ∧ 0 ≤ n
                ∧ ∃ ret, SysAllocStringLen env str
                      ((SysStringLen str : Int) - min n (SysStringLen str)) (min n (SysStringLen str))
                    = Alloc.str ret
                  ∧ hres = S_OK ∧ slot = res.map (fun _ => VT_BSTR (some ret))) := by
  have hE : FAILED E_NOTIMPL = true := by decide
  have hF : FAILED E_FAIL = true := by decide
  have hM : FAILED E_OUTOFMEMORY = true := by decide
  refine ⟨?_, ?_⟩
  · rintro b rfl
    simp [Global_Right, to_int]
  · intro hres slot h hok
    have hnb : ∀ b, a1 ≠ VT_BSTR b := by
      rintro b rfl
      simp only [Global_Right, to_int, Outcome.ret.injEq] at h
      rw [← h.1, hE] at hok
      cases hok
    refine ⟨hnb, ?_⟩
    have hconv : (match a1 with
        | VT_BSTR _ => (Except.ok (V_BSTR a0) : Except HRESULT (Option BSTR))
        | _ =>
          match to_string env a0 with
          | Except.error hres => Except.error hres
          | Except.ok conv_str => Except.ok (some conv_str))
        = (match to_string env a0 with
          | Except.error hres => Except.error hres
          | Except.ok conv_str => Except.ok (some conv_str)) := by
      cases a1 <;> first | rfl | exact absurd rfl (hnb _)
    simp only [Global_Right, hconv] at h
    cases hs : to_string env a0 with
    | error e =>
      simp only [hs, Outcome.ret.injEq] at h
      have hfe : FAILED e = true := by
        simp only [to_string] at hs
        split_ifs at hs with hf
        · cases hs
          exact hf
      rw [← h.1, hfe] at hok
      cases hok
    | ok str =>
      simp only [hs] at h
      cases hn : to_int a1 with
      | error e =>
        simp only [hn, Outcome.ret.injEq] at h
        have hfe : FAILED e = true := by
          cases a1 <;> simp only [to_int] at hn <;> try cases hn
          all_goals first
            | exact hE
            | (split_ifs at hn
               cases hn
               exact hF)
        rw [← h.1, hfe] at hok
        cases hok
      | ok n =>
        simp only [hn] at h
        by_cases hneg : n < 0
        · simp only [hneg, if_true, Outcome.ret.injEq] at h
          rw [← h.1, hF] at hok
          cases hok
        · simp only [hneg, if_false] at h
          have hlen : (if n > (SysStringLen str : Int) then (SysStringLen str : Int) else n)
              = min n (SysStringLen str) := by
            split_ifs with hc
            · exact (min_eq_right (le_of_lt hc)).symm
            · exact (min_eq_left (not_lt.mp hc)).symm
          rw [hlen] at h
          refine ⟨str, n, rfl, rfl, not_lt.mp hneg, ?_⟩
          cases ha : SysAllocStringLen env str
              ((SysStringLen str : Int) - min n (SysStringLen str)) (min n (SysStringLen str)) with
          | fault => simp [ha] at h
          | null =>
            simp only [ha, Outcome.ret.injEq] at h
            rw [← h.1, hM] at hok
            cases hok
          | str ret =>
            simp only [ha, Outcome.of, return_bstr] at h
            refine ⟨ret, rfl, ?_⟩
            cases res <;> simp only [Outcome.ret.injEq] at h <;>
              exact ⟨h.1.symm, by rw [← h.2]; rfl⟩

theorem Global_Right_source_string_witness :
    Global_Right env0 [VT_I2 5, VT_BSTR (some (wstr "x"))] (some VT_EMPTY)
      = Outcome.ret E_NOTIMPL (some VT_EMPTY) :=
  (Global_Right_source_string env0 (VT_I2 5) (VT_BSTR (some (wstr "x"))) (some VT_EMPTY)).1 _ rfl

end VBScript

namespace VBScript
open VARIANT

/-! ## Argument counts -/

set_option maxRecDepth 100000 in
/-- Every entry of the builtin table keeps its handler inside the argument
array. -/
theorem global_props_args_in_bounds :
    global_props.all builtin_prop_t.args_in_bounds = true := by
  decide

theorem Global_IsEmpty_returns (args : List VARIANT) (res : Option VARIANT)
    (h : args.length = 1) : ∃ hres slot, Global_IsEmpty args res = Outcome.ret hres slot := by
  match args, h with
  | [a], _ => cases res <;> exact ⟨_, _, rfl⟩

theorem Global_IsNull_returns (args : List VARIANT) (res : Option VARIANT)
    (h : args.length = 1) : ∃ hres slot, Global_IsNull args res = Outcome.ret hres slot := by
  match args, h with
  | [a], _ => cases res <;> exact ⟨_, _, rfl⟩

theorem Global_IsObject_returns (args : List VARIANT) (res : Option VARIANT)
    (h : args.length = 1) : ∃ hres slot, Global_IsObject args res = Outcome.ret hres slot := by
  match args, h with
  | [a], _ => cases res <;> exact ⟨_, _, rfl⟩

theorem Global_WeekdayName_returns (ole : OleNames) (args : List VARIANT)
    (res : Option VARIANT) (h : 1 ≤ args.length ∧ args.length ≤ 3) :
    ∃ hres slot, Global_WeekdayName ole args res = Outcome.ret hres slot := by
  match args, h with
  | [a0], _ =>
    simp only [Global_WeekdayName, List.length_cons, List.length_nil]
    cases to_int a0 <;> simp only [Nat.reduceAdd, Nat.reduceLeDiff, le_refl, and_self, if_true,
      gt_iff_lt, lt_self_iff_false, if_false, Outcome.of] <;> (try split_ifs) <;> exact ⟨_, _, rfl⟩
  | [a0, a1], _ =>
    simp only [Global_WeekdayName, List.length_cons, List.length_nil]
    cases to_int a0 <;> cases to_int a1 <;>
      simp only [Nat.reduceAdd, Nat.reduceLeDiff, Nat.one_le_ofNat, and_self, if_true,
        gt_iff_lt, Nat.one_lt_ofNat, Nat.reduceEqDiff, if_false, Outcome.of] <;>
      (try split_ifs) <;> exact ⟨_, _, rfl⟩
  | [a0, a1, a2], _ =>
    simp only [Global_WeekdayName, List.length_cons, List.length_nil]
    cases to_int a0 <;> cases to_int a1 <;> cases to_int a2 <;>
      simp only [Nat.reduceAdd, Nat.reduceLeDiff, Nat.one_le_ofNat, le_refl, and_self, if_true,
        gt_iff_lt, Nat.one_lt_ofNat, if_false, Outcome.of] <;>
      (try split_ifs) <;> exact ⟨_, _, rfl⟩
  | _ :: _ :: _ :: _ :: _, h => simp at h
  | [], h => simp at h

theorem Global_MonthName_returns (ole : OleNames) (args : List VARIANT)
    (res : Option VARIANT) (h : args.length = 1 ∨ args.length = 2) :
    ∃ hres slot, Global_MonthName ole args res = Outcome.ret hres slot := by
  match args, h with
  | [a0], _ =>
    simp only [Global_MonthName, List.length_cons, List.length_nil]
    cases to_int a0 <;> simp only [Nat.reduceAdd, Nat.reduceEqDiff, or_false, or_true, if_true,
      OfNat.one_ne_ofNat, if_false, Outcome.of] <;> (try split_ifs) <;> exact ⟨_, _, rfl⟩
  | [a0, a1], _ =>
    simp only [Global_MonthName, List.length_cons, List.length_nil]
    cases to_int a0 <;> cases to_int a1 <;>
      simp only [Nat.reduceAdd, Nat.reduceEqDiff, or_false, or_true, if_true,
        if_false, Outcome.of] <;> (try split_ifs) <;> exact ⟨_, _, rfl⟩
  | _ :: _ :: _ :: _, h => simp at h
  | [], h => simp at h

theorem Global_Mid_asserts (env : Env) (args : List VARIANT) (res : Option VARIANT)
    (h : args.length = 2 ∨ args.length = 3) :
    Global_Mid env args res ≠ Outcome.assert_failed := by
  match args, h with
  | [a0, a1], _ =>
    simp only [Global_Mid, List.length_cons, List.length_nil]
    cases a0 <;> cases to_int a1 <;> simp
    all_goals repeat' split
    all_goals simp
  | [a0, a1, a2], _ =>
    simp only [Global_Mid, List.length_cons, List.length_nil]
    cases a0 <;> cases to_int a1 <;> cases to_int a2 <;> simp
    all_goals repeat' split
    all_goals simp
  | _ :: _ :: _ :: _ :: _, h => simp at h
  | [_], h => simp at h
  | [], h => simp at h

theorem Global_InStr_search_asserts (str1v str2v : VARIANT) (start : Int)
    (res : Option VARIANT) :
    Global_InStr_search str1v str2v start res ≠ Outcome.assert_failed := by
  simp only [Global_InStr_search, Outcome.of]
  repeat' split
  all_goals simp

theorem Global_InStr_asserts (env : Env) (args : List VARIANT) (res : Option VARIANT)
    (h : 2 ≤ args.length ∧ args.length ≤ 4) :
    Global_InStr env args res ≠ Outcome.assert_failed := by
  have hs := Global_InStr_search_asserts
  simp only [Global_InStr, h, and_self, if_true]
  repeat' split
  all_goals first
    | exact hs _ _ _ _
    | simp

/-- C33: for every entry of the builtin table with a handler and every
argument list whose length the entry allows, the assertion the handler makes on
`args_cnt` holds and the handler reads no argument at an index at or past the
count.  In particular `IsEmpty`, `IsNull`, `IsObject`, `WeekdayName` and
`MonthName` run to a return, and `Mid` and `InStr` do not stop at an
assertion. -/
theorem handlers_stay_within_args (e : builtin_prop_t) (p : Proc) (args : List VARIANT)
    (env : Env) (ole : OleNames) (res : Option VARIANT)
    (he : e ∈ global_props) (hp : e.proc = some p)
    (hn : allowed_arg_counts e args.length = true) :
    p.args_cnt_assertion args.length = true
      ∧ p.args_read args.length ≤ args.length
      ∧ (p = Proc.Global_IsEmpty → ∃ hres slot, Global_IsEmpty args res = Outcome.ret hres slot)
      ∧ (p = Proc.Global_IsNull → ∃ hres slot, Global_IsNull args res = Outcome.ret hres slot)
      ∧ (p = Proc.Global_IsObject →
          ∃ hres slot, Global_IsObject args res = Outcome.ret hres slot)
      ∧ (p = Proc.Global_WeekdayName →
          ∃ hres slot, Global_WeekdayName ole args res = Outcome.ret hres slot)
      ∧ (p = Proc.Global_MonthName →
          ∃ hres slot, Global_MonthName ole args res = Outcome.ret hres slot)
      ∧ (p = Proc.Global_Mid → Global_Mid env args res ≠ Outcome.assert_failed)
      ∧ (p = Proc.Global_InStr → Global_InStr env args res ≠ Outcome.assert_failed) := by
  have hall := List.all_eq_true.mp global_props_args_in_bounds e he
  have hrange : args.length ∈ List.range (max e.min_args e.max_args + 1) := by
    simp only [allowed_arg_counts, decide_eq_true_eq] at hn
    rw [List.mem_range]
    split_ifs at hn <;> omega
  simp only [builtin_prop_t.args_in_bounds, hp, List.all_eq_true] at hall
  have h := hall _ hrange
  simp only [hn, Bool.not_true, Bool.false_or, Bool.and_eq_true, decide_eq_true_eq] at h
  obtain ⟨ha, hr⟩ := h
  refine ⟨ha, hr, ?_, ?_, ?_, ?_, ?_, ?_, ?_⟩
  · rintro rfl
    exact Global_IsEmpty_returns args res (by simpa [Proc.args_cnt_assertion] using ha)
  · rintro rfl
    exact Global_IsNull_returns args res (by simpa [Proc.args_cnt_assertion] using ha)
  · rintro rfl
    exact Global_IsObject_returns args res (by simpa [Proc.args_cnt_assertion] using ha)
  · rintro rfl
    exact Global_WeekdayName_returns ole args res (by simpa [Proc.args_cnt_assertion] using ha)
  · rintro rfl
    exact Global_MonthName_returns ole args res (by simpa [Proc.args_cnt_assertion] using ha)
  · rintro rfl
    exact Global_Mid_asserts env args res (by simpa [Proc.args_cnt_assertion] using ha)
  · rintro rfl
    exact Global_InStr_asserts env args res (by simpa [Proc.args_cnt_assertion] using ha)

set_option maxRecDepth 100000 in
theorem handlers_stay_within_args_witness :
    Proc.Global_WeekdayName.args_cnt_assertion 2 = true
      ∧ Proc.Global_WeekdayName.args_read 2 ≤ 2
      ∧ ∃ hres slot, Global_WeekdayName ole0 [VT_I2 1, VT_BOOL 0] (some VT_EMPTY)
          = Outcome.ret hres slot :=
  have h := handlers_stay_within_args
    (builtin_prop_t.mk "DISPID_GLOBAL_WEEKDAYNAME" (some Proc.Global_WeekdayName) 0 1 3)
    Proc.Global_WeekdayName [VT_I2 1, VT_BOOL 0] env0 ole0 (some VT_EMPTY)
    (by decide) rfl (by decide)
  ⟨h.1, h.2.1, h.2.2.2.2.2.1 rfl⟩

end VBScript

namespace VBScript
open VARIANT

/-! ## Left, Mid and Right split a string -/

/-- The string `Left` stores, for a count given as a natural number. -/
theorem Global_Left_take (env : Env) (s : List WCHAR) (lenv : VARIANT) (k : Nat)
    (res : Option VARIANT) (hn : to_int lenv = Except.ok (k : Int))
    (hmem : env.alloc_ok (min k s.length) = true) :
    Global_Left env [VT_BSTR (some s), lenv] res
      = Outcome.ret S_OK (res.map (fun _ => VT_BSTR (some (s.take (min k s.length))))) := by
  have hneg : ¬ ((k : Int) < 0) := by omega
  have hlen : (if (k : Int) > (s.length : Int) then (s.length : Int) else (k : Int))
      = ((min k s.length : Nat) : Int) := by
    split_ifs with h <;> omega
  have hal := SysAllocStringLen_inside env s 0 (min k s.length) hmem (by omega)
  simp only [Nat.cast_zero, List.drop_zero] at hal
  simp only [Global_Left, hn, hneg, if_false, SysStringLen, hlen, hal]
  cases res <;> rfl

/-- The string `Right` stores, for a count given as a natural number. -/
theorem Global_Right_drop (env : Env) (s : List WCHAR) (lenv : VARIANT) (k : Nat)
    (res : Option VARIANT) (hn : to_int lenv = Except.ok (k : Int))
    (hconv : env.VariantChangeType_BSTR (VT_BSTR (some s)) = (S_OK, some s))
    (hmem : env.alloc_ok (min k s.length) = true) :
    Global_Right env [VT_BSTR (some s), lenv] res
      = Outcome.ret S_OK (res.map (fun _ =>
          VT_BSTR (some (s.drop (s.length - min k s.length))))) := by
  have hneg : ¬ ((k : Int) < 0) := by omega
  have hts : to_string env (VT_BSTR (some s)) = Except.ok (some s) := by
    simp [to_string, hconv, FAILED, S_OK]
  have hlen : (if (k : Int) > (s.length : Int) then (s.length : Int) else (k : Int))
      = ((min k s.length : Nat) : Int) := by
    split_ifs with h <;> omega
  have hoff : (s.length : Int) - ((min k s.length : Nat) : Int)
      = ((s.length - min k s.length : Nat) : Int) := by omega
  have hal := SysAllocStringLen_inside env s (s.length - min k s.length) (min k s.length)
    hmem (by omega)
  rw [List.take_of_length_le (by simp only [List.length_drop]; omega)] at hal
  cases lenv
  case VT_BSTR b => simp [to_int] at hn
  all_goals
    simp only [Global_Right, hts, hn, hneg, if_false, SysStringLen, hlen, hoff, hal]
    cases res <;> rfl

/-- The string the two-argument `Mid` stores, for a start given as a natural
number plus one. -/
theorem Global_Mid_drop (env : Env) (s : List WCHAR) (startv : VARIANT) (a : Nat)
    (res : Option VARIANT) (hstart : to_int startv = Except.ok ((a : Int) + 1))
    (hs : (s.length : Int) ≤ INT_MAX)
    (hmem : env.alloc_ok (s.length - min a s.length) = true) :
    Global_Mid env [VT_BSTR (some s), startv] res
      = Outcome.ret S_OK (res.map (fun _ => VT_BSTR (some (s.drop (min a s.length))))) := by
  have hal := SysAllocStringLen_inside env s (min a s.length) (s.length - min a s.length)
    hmem (by omega)
  rw [List.take_of_length_le (by simp only [List.length_drop]; omega)] at hal
  simp only [Global_Mid, List.length_cons, List.length_nil, hstart, SysStringLen,
    Global_Mid_bounds_two s.length a hs, hal]
  cases res <;> simp

/-- C35: for every string `s` (of a length a BSTR can have) and every integer
`n >= 0`, the strings stored by `Left(s, n)` and by the two-argument
`Mid(s, n + 1)` concatenate to `s`; and when `n <= len(s)`, so do the strings
stored by `Left(s, n)` and `Right(s, len(s) - n)` (the allocator providing the
buffers and the string conversion handing back `s`). -/
theorem Left_Mid_Right_split (env : Env) (s : List WCHAR) (nv mv rv : VARIANT) (n : Int)
    (v : VARIANT)
    (hn : to_int nv = Except.ok n) (h0 : 0 ≤ n)
    (hm : to_int mv = Except.ok (n + 1))
    (hr : to_int rv = Except.ok ((s.length : Int) - n))
    (hs : (s.length : Int) ≤ INT_MAX)
    (hmem : ∀ k, k ≤ s.length → env.alloc_ok k = true)
    (hconv : env.VariantChangeType_BSTR (VT_BSTR (some s)) = (S_OK, some s)) :
    ∃ l m, Global_Left env [VT_BSTR (some s), nv] (some v)
          = Outcome.ret S_OK (some (VT_BSTR (some l)))
      ∧ Global_Mid env [VT_BSTR (some s), mv] (some v)
          = Outcome.ret S_OK (some (VT_BSTR (some m)))
      ∧ l ++ m = s
      ∧ (n ≤ (s.length : Int) →
          ∃ r, Global_Right env [VT_BSTR (some s), rv] (some v)
              = Outcome.ret S_OK (some (VT_BSTR (some r)))
            ∧ l ++ r = s) := by
  obtain ⟨k, rfl⟩ := Int.eq_ofNat_of_zero_le h0
  refine ⟨s.take (min k s.length), s.drop (min k s.length), ?_, ?_, ?_, ?_⟩
  · exact Global_Left_take env s nv k (some v) hn (hmem _ (by omega))
  · exact Global_Mid_drop env s mv k (some v) hm hs (hmem _ (by omega))
  · exact List.take_append_drop _ _
  · intro hk
    have hk2 : k ≤ s.length := by exact_mod_cast hk
    have hr2 : to_int rv = Except.ok (((s.length - k : Nat) : Int)) := by
      rw [hr]
      congr 1
      omega
    refine ⟨s.drop k, ?_, ?_⟩
    · have := Global_Right_drop env s rv (s.length - k) (some v) hr2 hconv (hmem _ (by omega))
      rw [this]
      have e : s.length - min (s.length - k) s.length = k := by omega
      simp only [e, Option.map_some']
    · rw [Nat.min_eq_left hk2]
      exact List.take_append_drop _ _

theorem Left_Mid_Right_split_witness :
    ∃ l m, Global_Left env0 [VT_BSTR (some (wstr "hello")), VT_I2 2] (some VT_EMPTY)
          = Outcome.ret S_OK (some (VT_BSTR (some l)))
      ∧ Global_Mid env0 [VT_BSTR (some (wstr "hello")), VT_I2 3] (some VT_EMPTY)
          = Outcome.ret S_OK (some (VT_BSTR (some m)))
      ∧ l ++ m = wstr "hello"
      ∧ ((2 : Int) ≤ ((wstr "hello").length : Int) →
          ∃ r, Global_Right env0 [VT_BSTR (some (wstr "hello")), VT_I2 3] (some VT_EMPTY)
              = Outcome.ret S_OK (some (VT_BSTR (some r)))
            ∧ l ++ r = wstr "hello") :=
  Left_Mid_Right_split env0 (wstr "hello") (VT_I2 2) (VT_I2 3) (VT_I2 3) 2 VT_EMPTY
    rfl (by decide) rfl rfl (by decide) (fun _ _ => rfl) rfl

end VBScript

namespace VBScript
open VARIANT

/-! ## Hex -/

/-- The characters of the hexadecimal digits: `'0'..'9'` and `'A'..'F'`. -/
theorem hex_char_digit (d : Nat) (hd : d < 16) :
    (d < 10 → hex_char d = 48 + d) ∧ (10 ≤ d → hex_char d = 55 + d) ∧ hex_char d ≠ 0 := by
  unfold hex_char
  refine ⟨fun h => by simp [h], fun h => ?_, ?_⟩
  · have : ¬ d < 10 := by omega
    simp only [this, if_false]
    show (65 + d - 10 : Nat) = 55 + d
    omega
  · split_ifs
    · show (48 + d : Nat) ≠ 0
      omega
    · show (65 + d - 10 : Nat) ≠ 0
      omega

theorem read_string_digits (ds : List WCHAR) (rest : List (Option WCHAR))
    (h : ∀ c ∈ ds, c ≠ 0) :
    read_string (ds.map some ++ some 0 :: rest) = some ds := by
  induction ds with
  | nil => simp [read_string]
  | cons c cs ih =>
    have hc : c ≠ 0 := h c (List.mem_cons_self _ _)
    have := ih (fun x hx => h x (List.mem_cons_of_mem _ hx))
    rw [List.map_cons, List.cons_append, read_string, if_neg hc, this]
    rfl

theorem digits_16_length (n k : Nat) (hn : n ≠ 0) (h : n < 16 ^ k) :
    (Nat.digits 16 n).length ≤ k := by
  rw [Nat.digits_len 16 n (by norm_num) hn]
  exact Nat.log_lt_of_lt_pow hn h

/-- The digit loop of `Global_Hex` started at `ptr = buf + i` with room for the
digits of `n`: it stays inside the buffer, ends with `ptr` on the most
significant digit, and has written the digits of `n` from there up to `buf + i`. -/
theorem Global_Hex_loop_digits (i : Nat) : ∀ (n : Nat) (buf : List (Option WCHAR)),
    0 < n → (Nat.digits 16 n).length ≤ i + 1 → i < buf.length →
    Global_Hex_loop n buf i
      = some (i + 1 - (Nat.digits 16 n).length,
          buf.take (i + 1 - (Nat.digits 16 n).length)
            ++ ((Nat.digits 16 n).reverse.map (fun d => some (hex_char d)))
            ++ buf.drop (i + 1)) := by
  induction i with
  | zero =>
    intro n buf hn hlen hbuf
    have hd := Nat.digits_def' (show 1 < 16 by norm_num) hn
    have hq : n / 16 = 0 := by
      by_contra hne
      have h2 := Nat.digits_def' (show 1 < 16 by norm_num) (Nat.pos_of_ne_zero hne)
      rw [hd, h2] at hlen
      simp at hlen
    have hm : n &&& 0xf = n % 16 := by
      have := Nat.and_pow_two_sub_one_eq_mod n 4
      simpa using this
    have hs : n >>> 4 = n / 16 := by rw [Nat.shiftRight_eq_div_pow]
    rw [hd, hq]
    simp only [Global_Hex_loop, hs, hq, if_true, hm, Nat.digits_zero, List.length_singleton,
      List.reverse_singleton, List.map_cons, List.map_nil, List.take_zero, List.nil_append,
      List.set_eq_take_append_cons_drop, hbuf, List.singleton_append, zero_add, Nat.sub_self]
  | succ i ih =>
    intro n buf hn hlen hbuf
    have hd := Nat.digits_def' (show 1 < 16 by norm_num) hn
    have hm : n &&& 0xf = n % 16 := by
      have := Nat.and_pow_two_sub_one_eq_mod n 4
      simpa using this
    have hs : n >>> 4 = n / 16 := by rw [Nat.shiftRight_eq_div_pow]
    by_cases hq : n / 16 = 0
    · rw [hd, hq]
      simp only [Global_Hex_loop, hs, hq, if_true, hm, Nat.digits_zero, List.length_singleton,
        List.reverse_singleton, List.map_cons, List.map_nil,
        List.set_eq_take_append_cons_drop, hbuf, List.append_assoc, List.singleton_append,
        Nat.add_sub_cancel]
    · have hpos : 0 < n / 16 := Nat.pos_of_ne_zero hq
      have hlen2 : (Nat.digits 16 (n / 16)).length ≤ i + 1 := by
        rw [hd] at hlen
        simpa using hlen
      have hl1 : 1 ≤ (Nat.digits 16 (n / 16)).length := by
        have := Nat.digits_def' (show 1 < 16 by norm_num) hpos
        rw [this]
        simp
      have hb2 : i < (buf.set (i + 1) (some (hex_char (n % 16)))).length := by
        rw [List.length_set]
        omega
      have := ih (n / 16) (buf.set (i + 1) (some (hex_char (n % 16)))) hpos hlen2 hb2
      simp only [Global_Hex_loop, hs, hq, if_false, hm, this]
      rw [hd]
      have e1 : i + 1 + 1 - (n % 16 :: Nat.digits 16 (n / 16)).length
          = i + 1 - (Nat.digits 16 (n / 16)).length := by
        simp only [List.length_cons]
        omega
      rw [e1]
      have e2 : List.take (i + 1 - (Nat.digits 16 (n / 16)).length)
          (buf.set (i + 1) (some (hex_char (n % 16))))
          = List.take (i + 1 - (Nat.digits 16 (n / 16)).length) buf :=
        List.take_set_of_lt _ _ (by omega)
      have e3 : List.drop (i + 1) (buf.set (i + 1) (some (hex_char (n % 16))))
          = some (hex_char (n % 16)) :: List.drop (i + 1 + 1) buf := by
        rw [List.set_eq_take_append_cons_drop, if_pos hbuf]
        have hl : (List.take (i + 1) buf).length = i + 1 := by
          rw [List.length_take]
          omega
        rw [List.drop_append_eq_append_drop, hl, Nat.sub_self, List.drop_zero,
          List.drop_of_length_le (by omega), List.nil_append]
      rw [e2, e3]
      simp only [List.reverse_cons, List.map_append, List.map_cons, List.map_nil,
        List.append_assoc, List.singleton_append]

/-- Filling the buffer of `Global_Hex` and reading the string back gives the
base-16 digits of `n`, most significant first, `0` being the one digit `0`. -/
theorem Global_Hex_fill (n : Nat) (hn : n < 16 ^ 16) :
    ∃ ptr buf,
      (if n ≠ 0 then Global_Hex_loop n (List.replicate 16 none ++ [some 0]) 15
        else some (15, (List.replicate 16 none ++ [some 0]).set 15 (some 48)))
          = some (ptr, buf)
        ∧ read_string (buf.drop ptr)
          = some ((if n = 0 then [0] else (Nat.digits 16 n).reverse).map hex_char) := by
  by_cases h0 : n = 0
  · subst h0
    exact ⟨15, _, rfl, by decide⟩
  · have hlen := digits_16_length n 16 h0 hn
    have hloop := Global_Hex_loop_digits 15 n (List.replicate 16 none ++ [some 0])
      (Nat.pos_of_ne_zero h0) hlen (by simp)
    refine ⟨_, _, by simp only [h0, ne_eq, not_false_eq_true, if_true]; exact hloop, ?_⟩
    have hl : (List.take (15 + 1 - (Nat.digits 16 n).length)
        (List.replicate 16 (none : Option WCHAR) ++ [some 0])).length
        = 15 + 1 - (Nat.digits 16 n).length := by
      rw [List.length_take]
      simp
      omega
    have hd : List.drop (15 + 1) (List.replicate 16 (none : Option WCHAR) ++ [some 0])
        = [some 0] := by decide
    rw [List.append_assoc, List.drop_left' hl, hd, if_neg h0]
    have := read_string_digits ((Nat.digits 16 n).reverse.map hex_char) []
      (fun c hc => by
        obtain ⟨d, hd, rfl⟩ := List.mem_map.mp hc
        exact (hex_char_digit d (Nat.digits_lt_base (by norm_num)
          (List.mem_reverse.mp hd))).2.2)
    rw [List.map_map] at this
    exact this

/-- The numeral `Global_Hex` hands to `return_string` for the value `n` it
selected from its argument. -/
theorem Global_Hex_of_value (env : Env) (arg : VARIANT) (n : Nat) (res : Option VARIANT)
    (hsel : (∃ v, arg = VT_I2 v ∧ n = (v % 65536).toNat)
      ∨ (∃ v, arg = VT_I4 v ∧ n = (v % 4294967296).toNat)
      ∨ (arg = VT_EMPTY ∧ n = 0))
    (hn : n < 16 ^ 16) :
    Global_Hex env [arg] res
      = Outcome.of (return_string env res
          ((if n = 0 then [0] else (Nat.digits 16 n).reverse).map hex_char)) := by
  obtain ⟨ptr, buf, h1, h2⟩ := Global_Hex_fill n hn
  rcases hsel with ⟨v, rfl, rfl⟩ | ⟨v, rfl, rfl⟩ | ⟨rfl, rfl⟩
  · simp only [Global_Hex, h1, h2]
  · simp only [Global_Hex, h1, h2]
  · simp only [Global_Hex, h1, h2]

/-- The digits of a numeral of `n` in base 16, most significant first, with at
most `k` digits and no leading zero. -/
theorem hex_digits_numeral (n k : Nat) (hk : 1 ≤ k) (hn : n < 16 ^ k) :
    (∀ d ∈ (if n = 0 then [0] else (Nat.digits 16 n).reverse), d < 16)
      ∧ Nat.ofDigits 16 (if n = 0 then [0] else (Nat.digits 16 n).reverse).reverse = n
      ∧ 1 ≤ (if n = 0 then [0] else (Nat.digits 16 n).reverse).length
      ∧ (if n = 0 then [0] else (Nat.digits 16 n).reverse).length ≤ k
      ∧ (n ≠ 0 → (if n = 0 then [0] else (Nat.digits 16 n).reverse).head? ≠ some 0) := by
  by_cases h0 : n = 0
  · subst h0
    simp only [if_true]
    refine ⟨by simp, by simp [Nat.ofDigits], by simp, by simpa using hk, fun h => absurd rfl h⟩
  · simp only [h0, if_false, List.reverse_reverse, List.length_reverse, ne_eq,
      not_false_eq_true, true_implies]
    have hd := Nat.digits_def' (show 1 < 16 by norm_num) (Nat.pos_of_ne_zero h0)
    refine ⟨?_, Nat.ofDigits_digits 16 n, ?_, digits_16_length n k h0 hn, ?_⟩
    · intro d hd
      exact Nat.digits_lt_base (by norm_num) (List.mem_reverse.mp hd)
    · rw [hd]
      simp
    · rw [List.head?_reverse,
        List.getLast?_eq_getLast _ (Nat.digits_ne_nil_iff_ne_zero.mpr h0)]
      intro h
      exact Nat.getLast_digit_ne_zero 16 h0 (Option.some.inj h)

theorem return_string_of_no_nul (env : Env) (v : VARIANT) (str : List WCHAR) (h0 : 0 ∉ str)
    (hmem : env.alloc_ok str.length = true) :
    return_string env (some v) str = (S_OK, some (VT_BSTR (some str))) := by
  simp [return_string, SysAllocString, c_string_of_no_nul str h0, hmem]

/-- The string `Global_Hex` stores for a value below `16 ^ k`, `k <= 8`. -/
theorem Global_Hex_stores (env : Env) (arg : VARIANT) (n k : Nat) (r : VARIANT)
    (hsel : (∃ v, arg = VT_I2 v ∧ n = (v % 65536).toNat)
      ∨ (∃ v, arg = VT_I4 v ∧ n = (v % 4294967296).toNat)
      ∨ (arg = VT_EMPTY ∧ n = 0))
    (hk : 1 ≤ k) (hk8 : k ≤ 8) (hn : n < 16 ^ k)
    (hmem : ∀ j, j ≤ 8 → env.alloc_ok j = true) :
    ∃ ds : List Nat,
      Global_Hex env [arg] (some r)
          = Outcome.ret S_OK (some (VT_BSTR (some (ds.map hex_char))))
        ∧ Global_Hex env [arg] none = Outcome.ret S_OK none
        ∧ (∀ d ∈ ds, d < 16)
        ∧ Nat.ofDigits 16 ds.reverse = n
        ∧ 1 ≤ ds.length ∧ ds.length ≤ k
        ∧ (n ≠ 0 → ds.head? ≠ some 0)
        ∧ (n = 0 → ds = [0]) := by
  have hn16 : n < 16 ^ 16 :=
    lt_of_lt_of_le hn (Nat.pow_le_pow_right (by norm_num) (by omega))
  obtain ⟨hd, hval, hl1, hlk, hlead⟩ := hex_digits_numeral n k hk hn
  refine ⟨if n = 0 then [0] else (Nat.digits 16 n).reverse, ?_, ?_, hd, hval, hl1, hlk, hlead,
    fun h => by simp [h]⟩
  · rw [Global_Hex_of_value env arg n (some r) hsel hn16,
      return_string_of_no_nul env r _ ?_ (hmem _ (by rw [List.length_map]; omega))]
    · rfl
    · intro hc
      obtain ⟨d, hdm, hz⟩ := List.mem_map.mp hc
      exact (hex_char_digit d (hd d hdm)).2.2 hz
  · rw [Global_Hex_of_value env arg n none hsel hn16]
    rfl

/-- C37: `Hex` of an Int16 `v` stores the base-16 numeral of `v mod 2^16`, and
of an Int32 `v` that of `v mod 2^32`: digits `ds`, most significant first, each
written as `'0'..'9'` or `'A'..'F'`, whose value is the number, 1 to 4 (resp. 8)
of them, without leading zero, the one digit `0` for zero.  `Hex` of Empty
stores `"0"` and of Null stores Null.  The digits stay inside the buffer: the
call returns, also when there is no slot (the allocator providing the result
string). -/
theorem Global_Hex_numeral (env : Env) (v : Int) (r : VARIANT)
    (hmem : ∀ j, j ≤ 8 → env.alloc_ok j = true) :
    (∃ ds : List Nat,
        Global_Hex env [VT_I2 v] (some r)
            = Outcome.ret S_OK (some (VT_BSTR (some (ds.map hex_char))))
          ∧ Global_Hex env [VT_I2 v] none = Outcome.ret S_OK none
          ∧ (∀ d ∈ ds, d < 16)
          ∧ ((Nat.ofDigits 16 ds.reverse : Nat) : Int) = v % 65536
          ∧ 1 ≤ ds.length ∧ ds.length ≤ 4
          ∧ (v % 65536 ≠ 0 → ds.head? ≠ some 0)
          ∧ (v % 65536 = 0 → ds = [0]))
      ∧ (∃ ds : List Nat,
          Global_Hex env [VT_I4 v] (some r)
              = Outcome.ret S_OK (some (VT_BSTR (some (ds.map hex_char))))
            ∧ Global_Hex env [VT_I4 v] none = Outcome.ret S_OK none
            ∧ (∀ d ∈ ds, d < 16)
            ∧ ((Nat.ofDigits 16 ds.reverse : Nat) : Int) = v % 4294967296
            ∧ 1 ≤ ds.length ∧ ds.length ≤ 8
            ∧ (v % 4294967296 ≠ 0 → ds.head? ≠ some 0)
            ∧ (v % 4294967296 = 0 → ds = [0]))
      ∧ Global_Hex env [VT_EMPTY] (some r) = Outcome.ret S_OK (some (VT_BSTR (some [48])))
      ∧ Global_Hex env [VT_EMPTY] none = Outcome.ret S_OK none
      ∧ Global_Hex env [VT_NULL] (some r) = Outcome.ret S_OK (some VT_NULL)
      ∧ Global_Hex env [VT_NULL] none = Outcome.ret S_OK none
      ∧ (∀ d, d < 16 → (d < 10 → hex_char d = 48 + d) ∧ (10 ≤ d → hex_char d = 55 + d)) := by
  have h16 : (0 : Int) ≤ v % 65536 ∧ v % 65536 < 65536 :=
    ⟨Int.emod_nonneg _ (by norm_num), Int.emod_lt_of_pos _ (by norm_num)⟩
  have h32 : (0 : Int) ≤ v % 4294967296 ∧ v % 4294967296 < 4294967296 :=
    ⟨Int.emod_nonneg _ (by norm_num), Int.emod_lt_of_pos _ (by norm_num)⟩
  refine ⟨?_, ?_, ?_, ?_, rfl, rfl, fun d hd => ⟨(hex_char_digit d hd).1, (hex_char_digit d hd).2.1⟩⟩
  · obtain ⟨ds, e1, e2, hd, hval, hl1, hlk, hlead, hz⟩ :=
      Global_Hex_stores env (VT_I2 v) (v % 65536).toNat 4 r (Or.inl ⟨v, rfl, rfl⟩)
        (by norm_num) (by norm_num) (by norm_num; omega) hmem
    refine ⟨ds, e1, e2, hd, ?_, hl1, hlk, fun h => hlead (by omega), fun h => hz (by omega)⟩
    rw [hval]
    omega
  · obtain ⟨ds, e1, e2, hd, hval, hl1, hlk, hlead, hz⟩ :=
      Global_Hex_stores env (VT_I4 v) (v % 4294967296).toNat 8 r (Or.inr (Or.inl ⟨v, rfl, rfl⟩))
        (by norm_num) (by norm_num) (by norm_num; omega) hmem
    refine ⟨ds, e1, e2, hd, ?_, hl1, hlk, fun h => hlead (by omega), fun h => hz (by omega)⟩
    rw [hval]
    omega
  · obtain ⟨ds, e1, _, _, _, _, _, _, hz⟩ :=
      Global_Hex_stores env VT_EMPTY 0 1 r (Or.inr (Or.inr ⟨rfl, rfl⟩))
        (by norm_num) (by norm_num) (by norm_num) hmem
    rw [e1, hz rfl]
    rfl
  · obtain ⟨ds, _, e2, _⟩ :=
      Global_Hex_stores env VT_EMPTY 0 1 r (Or.inr (Or.inr ⟨rfl, rfl⟩))
        (by norm_num) (by norm_num) (by norm_num) hmem
    exact e2

theorem Global_Hex_numeral_witness :
    Global_Hex env0 [VT_I2 (-1)] (some VT_EMPTY)
        = Outcome.ret S_OK (some (VT_BSTR (some (wstr "FFFF"))))
      ∧ Global_Hex env0 [VT_I4 255] (some VT_EMPTY)
        = Outcome.ret S_OK (some (VT_BSTR (some (wstr "FF"))))
      ∧ Global_Hex env0 [VT_EMPTY] (some VT_EMPTY)
        = Outcome.ret S_OK (some (VT_BSTR (some [48])))
      ∧ Global_Hex env0 [VT_NULL] (some VT_EMPTY) = Outcome.ret S_OK (some VT_NULL) :=
  have h := Global_Hex_numeral env0 (-1) VT_EMPTY (fun _ _ => rfl)
  ⟨by decide, by decide, h.2.2.1, h.2.2.2.2.1⟩

end VBScript

namespace VBScript
open VARIANT

/-! ## Trim, LTrim and RTrim composed -/

theorem Global_RTrim_scan_eq_Trim_scan (env : Env) (s : List WCHAR) (n : Nat) :
    Global_RTrim_scan env s n = Global_Trim_scan env s 0 n := by
  induction n with
  | zero => rfl
  | succ n ih =>
    unfold Global_RTrim_scan Global_Trim_scan
    rw [ih]

/-- Where the backward loop of `Trim` stops: at or below its start, having
stepped over whitespace above `begin_ptr` only, and stopped by `begin_ptr` or
by a code unit that is no whitespace. -/
theorem Global_Trim_scan_spec (env : Env) (s : List WCHAR) (b n : Nat) :
    Global_Trim_scan env s b n ≤ n
      ∧ (∀ j, Global_Trim_scan env s b n ≤ j → j < n →
          b < j ∧ env.isspaceW (s.getD j 0) = true)
      ∧ (Global_Trim_scan env s b n = 0
          ∨ ¬ (b < Global_Trim_scan env s b n - 1
                ∧ env.isspaceW (s.getD (Global_Trim_scan env s b n - 1) 0) = true)) := by
  induction n with
  | zero => exact ⟨le_refl _, fun j _ hj => absurd hj (Nat.not_lt_zero j), Or.inl rfl⟩
  | succ n ih =>
    unfold Global_Trim_scan
    split_ifs with h
    · obtain ⟨h1, h2, h3⟩ := ih
      refine ⟨by omega, ?_, h3⟩
      intro j hj1 hj2
      by_cases hjn : j = n
      · subst hjn
        exact h
      · exact h2 j hj1 (by omega)
    · refine ⟨le_refl _, fun j hj1 hj2 => by omega, Or.inr ?_⟩
      simpa using h

/-- The stopping point of the backward loop is determined by what
`Global_Trim_scan_spec` says of it. -/
theorem Global_Trim_scan_unique (env : Env) (s : List WCHAR) (b n k : Nat) (hk : k ≤ n)
    (hsp : ∀ j, k ≤ j → j < n → b < j ∧ env.isspaceW (s.getD j 0) = true)
    (hstop : k = 0 ∨ ¬ (b < k - 1 ∧ env.isspaceW (s.getD (k - 1) 0) = true)) :
    Global_Trim_scan env s b n = k := by
  obtain ⟨h1, h2, h3⟩ := Global_Trim_scan_spec env s b n
  generalize Global_Trim_scan env s b n = e at *
  by_contra hne
  rcases Nat.lt_or_gt_of_ne hne with hlt | hgt
  · -- e < k: position k - 1 was stepped over by the loop but stops k
    have := h2 (k - 1) (by omega) (by omega)
    rcases hstop with h | h
    · omega
    · exact h this
  · have := hsp (e - 1) (by omega) (by omega)
    rcases h3 with h | h
    · omega
    · exact h this

theorem Global_LTrim_scan_take (env : Env) (s : List WCHAR) :
    ∀ k, Global_LTrim_scan env (s.take k) = min (Global_LTrim_scan env s) k := by
  induction s with
  | nil => intro k; simp [Global_LTrim_scan]
  | cons c cs ih =>
    intro k
    cases k with
    | zero => simp [Global_LTrim_scan]
    | succ k =>
      simp only [List.take_succ_cons, Global_LTrim_scan]
      split_ifs with h
      · rw [ih k]
        omega
      · simp

theorem Global_LTrim_scan_all (env : Env) (s : List WCHAR)
    (h : ∀ c ∈ s, c ≠ 0 ∧ env.isspaceW c = true) : Global_LTrim_scan env s = s.length := by
  induction s with
  | nil => rfl
  | cons c cs ih =>
    have hc := h c (List.mem_cons_self _ _)
    simp only [Global_LTrim_scan, hc, ne_eq, not_false_eq_true, and_self, if_true,
      List.length_cons, ih (fun x hx => h x (List.mem_cons_of_mem _ hx))]

/-- After the leading whitespace nothing is left for the forward loop. -/
theorem Global_LTrim_scan_drop (env : Env) (s : List WCHAR) :
    Global_LTrim_scan env (s.drop (Global_LTrim_scan env s)) = 0 := by
  have hstop := Global_LTrim_scan_stop env s
  generalize Global_LTrim_scan env s = b at *
  cases hd : s.drop b with
  | nil => rfl
  | cons c cs =>
    have hc : s[b]? = some c := by
      rw [← List.head?_drop, hd]
      rfl
    have := hstop c hc
    simp only [Global_LTrim_scan, this, if_false]

theorem getD_drop (s : List WCHAR) (b j : Nat) : (s.drop b).getD j 0 = s.getD (b + j) 0 := by
  rw [List.getD_eq_getElem?_getD, List.getD_eq_getElem?_getD, List.getElem?_drop]

theorem getD_take (s : List WCHAR) (k j : Nat) (h : j < k) :
    (s.take k).getD j 0 = s.getD j 0 := by
  rw [List.getD_eq_getElem?_getD, List.getD_eq_getElem?_getD, List.getElem?_take, if_pos h]

/-- The backward loop of `Trim` on `s` from `begin_ptr = str + b` is the
backward loop of `RTrim` on the string that starts at `begin_ptr`. -/
theorem Global_Trim_scan_shift (env : Env) (s : List WCHAR) (b n : Nat) (hb : b ≤ n) :
    Global_Trim_scan env s b n = Global_Trim_scan env (s.drop b) 0 (n - b) + b := by
  obtain ⟨h1, h2, h3⟩ := Global_Trim_scan_spec env (s.drop b) 0 (n - b)
  generalize Global_Trim_scan env (s.drop b) 0 (n - b) = e at *
  apply Global_Trim_scan_unique
  · omega
  · intro j hj1 hj2
    have := h2 (j - b) (by omega) (by omega)
    rw [getD_drop] at this
    have e1 : b + (j - b) = j := by omega
    rw [e1] at this
    exact ⟨by omega, this.2⟩
  · rcases h3 with h | h
    · right
      intro hc
      omega
    · right
      intro hc
      apply h
      refine ⟨by omega, ?_⟩
      rw [getD_drop]
      have e1 : b + (e - 1) = e + b - 1 := by omega
      rw [e1]
      exact hc.2

/-- The string `Trim` stores is what `RTrim` makes of what `LTrim` makes of the
argument. -/
theorem Trim_eq_RTrim_LTrim (env : Env) (s : List WCHAR) :
    (s.drop (Global_LTrim_scan env s)).take
        (Global_Trim_scan env s (Global_LTrim_scan env s) s.length - Global_LTrim_scan env s)
      = (s.drop (Global_LTrim_scan env s)).take
          (Global_Trim_scan env (s.drop (Global_LTrim_scan env s)) 0
            (s.drop (Global_LTrim_scan env s)).length) := by
  have hb := Global_LTrim_scan_le env s
  rw [Global_Trim_scan_shift env s _ _ hb, List.length_drop, Nat.add_sub_cancel]

/-- The string `Trim` stores is what `LTrim` makes of what `RTrim` makes of the
argument, for a string without NUL. -/
theorem Trim_eq_LTrim_RTrim (env : Env) (s : List WCHAR) (h0 : 0 ∉ s) :
    (s.drop (Global_LTrim_scan env s)).take
        (Global_Trim_scan env s (Global_LTrim_scan env s) s.length - Global_LTrim_scan env s)
      = (s.take (Global_Trim_scan env s 0 s.length)).drop
          (Global_LTrim_scan env (s.take (Global_Trim_scan env s 0 s.length))) := by
  have hb := Global_LTrim_scan_le env s
  have hstop := Global_LTrim_scan_stop env s
  have hpre := Global_LTrim_scan_spaces env s
  obtain ⟨k1, k2, k3⟩ := Global_Trim_scan_spec env s 0 s.length
  rw [Global_LTrim_scan_take]
  generalize hB : Global_LTrim_scan env s = b at *
  generalize hK : Global_Trim_scan env s 0 s.length = k at *
  by_cases hbl : b < s.length
  · -- the code unit at `b` is no whitespace, so the backward loops stop above it
    have hsb : env.isspaceW (s.getD b 0) = false := by
      have hc : s[b]? = some s[b] := List.getElem?_eq_getElem hbl
      have hne : s[b] ≠ 0 := fun e => h0 (by rw [← e]; exact List.getElem_mem _)
      have := hstop _ hc
      rw [List.getD_eq_getElem s 0 hbl]
      cases hsp : env.isspaceW s[b] with
      | false => rfl
      | true => exact absurd ⟨hne, hsp⟩ this
    have hbk : b < k := by
      by_contra hle
      have := (k2 b (by omega) hbl).2
      rw [hsb] at this
      cases this
    have hT : Global_Trim_scan env s b s.length = k := by
      apply Global_Trim_scan_unique
      · exact k1
      · intro j hj1 hj2
        exact ⟨by omega, (k2 j hj1 hj2).2⟩
      · rcases k3 with h | h
        · exact Or.inl h
        · right
          intro hc
          exact h ⟨by omega, hc.2⟩
    rw [hT, Nat.min_eq_left (Nat.le_of_lt hbk), List.drop_take]
  · -- the whole string is whitespace
    have hbe : b = s.length := by omega
    subst hbe
    have hk : k ≤ s.length := k1
    rw [List.drop_length, List.take_nil, Nat.min_eq_right hk]
    symm
    apply List.drop_of_length_le
    rw [List.length_take]
    omega

/-- The string `LTrim` stores for a string without NUL. -/
theorem Global_LTrim_value (env : Env) (s : List WCHAR) (res : Option VARIANT)
    (h0 : 0 ∉ s) (hmem : ∀ k, k ≤ s.length → env.alloc_ok k = true) :
    Global_LTrim env [VT_BSTR (some s)] res
      = Outcome.ret S_OK (res.map (fun _ =>
          VT_BSTR (some (s.drop (Global_LTrim_scan env s))))) := by
  have hd : 0 ∉ s.drop (Global_LTrim_scan env s) := fun e => h0 (List.mem_of_mem_drop e)
  have hlen : (s.drop (Global_LTrim_scan env s)).length ≤ s.length := by simp
  simp only [Global_LTrim, SysAllocString, c_string_of_no_nul _ hd, hmem _ hlen]
  cases res <;> rfl

/-- The string `RTrim` stores. -/
theorem Global_RTrim_value (env : Env) (s : List WCHAR) (res : Option VARIANT)
    (hmem : ∀ k, k ≤ s.length → env.alloc_ok k = true) :
    Global_RTrim env [VT_BSTR (some s)] res
      = Outcome.ret S_OK (res.map (fun _ =>
          VT_BSTR (some (s.take (Global_Trim_scan env s 0 s.length))))) := by
  have hk := (Global_Trim_scan_spec env s 0 s.length).1
  have hal := SysAllocStringLen_inside env s 0 (Global_Trim_scan env s 0 s.length)
    (hmem _ hk) (by omega)
  simp only [Nat.cast_zero, List.drop_zero] at hal
  simp only [Global_RTrim, SysStringLen, Global_RTrim_scan_eq_Trim_scan, hal]
  cases res <;> rfl

/-- The string `Trim` stores. -/
theorem Global_Trim_value (env : Env) (s : List WCHAR) (res : Option VARIANT)
    (hmem : ∀ k, k ≤ s.length → env.alloc_ok k = true) :
    Global_Trim env [VT_BSTR (some s)] res
      = Outcome.ret S_OK (res.map (fun _ =>
          VT_BSTR (some ((s.drop (Global_LTrim_scan env s)).take
            (Global_Trim_scan env s (Global_LTrim_scan env s) s.length
              - Global_LTrim_scan env s))))) := by
  have hb := Global_LTrim_scan_le env s
  have he := (Global_Trim_scan_spec env s (Global_LTrim_scan env s) s.length).1
  have hbe : Global_LTrim_scan env s
      ≤ Global_Trim_scan env s (Global_LTrim_scan env s) s.length := by
    rw [Global_Trim_scan_shift env s _ _ hb]
    omega
  generalize hB : Global_LTrim_scan env s = b at *
  generalize hE : Global_Trim_scan env s b s.length = e at *
  have hal := SysAllocStringLen_inside env s b (e - b) (hmem _ (by omega)) (by omega)
  have hc : ((e : Int) - (b : Int)) = ((e - b : Nat) : Int) := by omega
  simp only [Global_Trim, SysStringLen, hB, hE, hc, hal]
  cases res <;> rfl

/-- C36: for every string `s` without embedded NUL, with `t`, `l` and `r` the
strings stored by `Trim(s)`, `LTrim(s)` and `RTrim(s)`: `LTrim(r)` and `RTrim(l)`
both store `t`, and `Trim(t)`, `LTrim(l)` and `RTrim(r)` store `t`, `l` and `r`
again (the allocator providing the buffers). -/
theorem trims_compose (env : Env) (s : List WCHAR) (v : VARIANT)
    (h0 : 0 ∉ s) (hmem : ∀ k, k ≤ s.length → env.alloc_ok k = true) :
    ∃ t l r : List WCHAR,
      Global_Trim env [VT_BSTR (some s)] (some v) = Outcome.ret S_OK (some (VT_BSTR (some t)))
        ∧ Global_LTrim env [VT_BSTR (some s)] (some v)
            = Outcome.ret S_OK (some (VT_BSTR (some l)))
        ∧ Global_RTrim env [VT_BSTR (some s)] (some v)
            = Outcome.ret S_OK (some (VT_BSTR (some r)))
        ∧ Global_LTrim env [VT_BSTR (some r)] (some v)
            = Outcome.ret S_OK (some (VT_BSTR (some t)))
        ∧ Global_RTrim env [VT_BSTR (some l)] (some v)
            = Outcome.ret S_OK (some (VT_BSTR (some t)))
        ∧ Global_Trim env [VT_BSTR (some t)] (some v)
            = Outcome.ret S_OK (some (VT_BSTR (some t)))
        ∧ Global_LTrim env [VT_BSTR (some l)] (some v)
            = Outcome.ret S_OK (some (VT_BSTR (some l)))
        ∧ Global_RTrim env [VT_BSTR (some r)] (some v)
            = Outcome.ret S_OK (some (VT_BSTR (some r))) := by
  -- the three results, with their lengths and their freedom of NUL
  have hl_len : (s.drop (Global_LTrim_scan env s)).length ≤ s.length := by simp
  have hl0 : 0 ∉ s.drop (Global_LTrim_scan env s) := fun e => h0 (List.mem_of_mem_drop e)
  have hr_len : (s.take (Global_Trim_scan env s 0 s.length)).length ≤ s.length := by
    rw [List.length_take]
    omega
  have hr0 : 0 ∉ s.take (Global_Trim_scan env s 0 s.length) :=
    fun e => h0 (List.mem_of_mem_take e)
  have hTR := Trim_eq_RTrim_LTrim env s
  have hTL := Trim_eq_LTrim_RTrim env s h0
  generalize hT : (s.drop (Global_LTrim_scan env s)).take
    (Global_Trim_scan env s (Global_LTrim_scan env s) s.length - Global_LTrim_scan env s)
    = t at *
  have ht_len : t.length ≤ s.length := by
    rw [← hT, List.length_take, List.length_drop]
    omega
  have hmem_l : ∀ k, k ≤ (s.drop (Global_LTrim_scan env s)).length → env.alloc_ok k = true :=
    fun k hk => hmem k (by omega)
  have hmem_r : ∀ k, k ≤ (s.take (Global_Trim_scan env s 0 s.length)).length →
      env.alloc_ok k = true := fun k hk => hmem k (by omega)
  have hmem_t : ∀ k, k ≤ t.length → env.alloc_ok k = true := fun k hk => hmem k (by omega)
  -- idempotence of the scans
  have hLL := Global_LTrim_scan_drop env s
  have hRR : Global_Trim_scan env (s.take (Global_Trim_scan env s 0 s.length)) 0
      (s.take (Global_Trim_scan env s 0 s.length)).length
      = Global_Trim_scan env s 0 s.length := by
    obtain ⟨k1, _, k3⟩ := Global_Trim_scan_spec env s 0 s.length
    generalize Global_Trim_scan env s 0 s.length = k at *
    have hlen : (s.take k).length = k := by
      rw [List.length_take]
      omega
    rw [hlen]
    apply Global_Trim_scan_unique
    · exact le_refl _
    · intro j hj1 hj2
      omega
    · rcases k3 with h | h
      · exact Or.inl h
      · right
        intro hc
        apply h
        refine ⟨hc.1, ?_⟩
        rw [← getD_take s k (k - 1) (by omega)]
        exact hc.2
  -- `t` is what `RTrim` makes of `l`; trimming `t` again changes nothing
  have hLt : Global_LTrim_scan env t = 0 := by
    rw [hTR, Global_LTrim_scan_take, hLL]
    exact Nat.zero_min _
  have hRt : t.take (Global_Trim_scan env t 0 t.length) = t := by
    have hRl : Global_Trim_scan env t 0 t.length
        = Global_Trim_scan env (s.drop (Global_LTrim_scan env s)) 0
            (s.drop (Global_LTrim_scan env s)).length := by
      obtain ⟨k1, _, k3⟩ := Global_Trim_scan_spec env (s.drop (Global_LTrim_scan env s)) 0
        (s.drop (Global_LTrim_scan env s)).length
      rw [hTR]
      generalize s.drop (Global_LTrim_scan env s) = u at *
      generalize Global_Trim_scan env u 0 u.length = k at *
      have hlen : (u.take k).length = k := by
        rw [List.length_take]
        omega
      rw [hlen]
      apply Global_Trim_scan_unique
      · exact le_refl _
      · intro j hj1 hj2
        omega
      · rcases k3 with h | h
        · exact Or.inl h
        · right
          intro hc
          apply h
          refine ⟨hc.1, ?_⟩
          rw [← getD_take u k (k - 1) (by omega)]
          exact hc.2
    rw [hRl]
    conv_rhs => rw [hTR]
    conv_lhs => rw [hTR]
    rw [List.take_take, Nat.min_self]
  refine ⟨t, s.drop (Global_LTrim_scan env s), s.take (Global_Trim_scan env s 0 s.length),
    ?_, ?_, ?_, ?_, ?_, ?_, ?_, ?_⟩
  · rw [Global_Trim_value env s (some v) hmem, hT]
    rfl
  · exact Global_LTrim_value env s (some v) h0 hmem
  · exact Global_RTrim_value env s (some v) hmem
  · rw [Global_LTrim_value env _ (some v) hr0 hmem_r, ← hTL]
    rfl
  · rw [Global_RTrim_value env _ (some v) hmem_l, ← hTR]
    rfl
  · rw [Global_Trim_value env t (some v) hmem_t, hLt, List.drop_zero, Nat.sub_zero]
    rw [hRt]
    rfl
  · rw [Global_LTrim_value env _ (some v) hl0 hmem_l, hLL, List.drop_zero]
    rfl
  · rw [Global_RTrim_value env _ (some v) hmem_r, hRR, List.take_take, Nat.min_self]
    rfl

theorem trims_compose_witness :
    ∃ t l r : List WCHAR,
      Global_Trim env0 [VT_BSTR (some (wstr "  "))] (some VT_EMPTY)
          = Outcome.ret S_OK (some (VT_BSTR (some t)))
        ∧ Global_LTrim env0 [VT_BSTR (some (wstr "  "))] (some VT_EMPTY)
            = Outcome.ret S_OK (some (VT_BSTR (some l)))
        ∧ Global_RTrim env0 [VT_BSTR (some (wstr "  "))] (some VT_EMPTY)
            = Outcome.ret S_OK (some (VT_BSTR (some r)))
        ∧ Global_LTrim env0 [VT_BSTR (some r)] (some VT_EMPTY)
            = Outcome.ret S_OK (some (VT_BSTR (some t)))
        ∧ Global_RTrim env0 [VT_BSTR (some l)] (some VT_EMPTY)
            = Outcome.ret S_OK (some (VT_BSTR (some t)))
        ∧ Global_Trim env0 [VT_BSTR (some t)] (some VT_EMPTY)
            = Outcome.ret S_OK (some (VT_BSTR (some t)))
        ∧ Global_LTrim env0 [VT_BSTR (some l)] (some VT_EMPTY)
            = Outcome.ret S_OK (some (VT_BSTR (some l)))
        ∧ Global_RTrim env0 [VT_BSTR (some r)] (some VT_EMPTY)
            = Outcome.ret S_OK (some (VT_BSTR (some r))) :=
  trims_compose env0 (wstr "  ") VT_EMPTY (by decide) (fun _ _ => rfl)

end VBScript
